import Mathlib

/-! Lane booking: availability grid, holds and commits.

A verification development for the bowling-lane booking page
(`src/src/pages/BowlingBookingPage.jsx`).  The page keeps its state in React
hooks and talks to two tables of a remote store, `bowling_lane_bookings` and
`bowling_lane_holds`.  Here the React state is a record (`Session`), the two
tables are lists of rows (`Store`), and each handler is a function from the
state before to the state after, together with what it reports to the user.

Conventions of the embedding:

* minutes of day, lane numbers and epoch milliseconds are natural numbers;
* `formData.duration` and `formData.laneCount` are held as the numbers that
  `parseInt` reads from the `<select>` values;
* the minutes read from a time string are an `Option Nat`, `none` being `NaN`,
  in the definitions that read it with `parseHM`, which covers the strings of
  decimal digits; the grid over whatever strings the store returns
  (`calculateAvailableSlotsJs`) and the price use `JsNumber`, a double by its
  exact value;
* the clock (`new Date()`, `Date.now()`), `crypto.randomUUID()` and the
  calendar of the browser (`new Date(date).getDay()`) are inputs;
* what the remote store answers to an insert is an input (`Backend`).
-/

namespace Bowling

/-! ## Constants of the page (lines 49-52) -/

/-- Opening hour, `const OPEN_HOUR = 13`. -/
def OPEN_HOUR : Nat := 13

/-- Closing hour, `const CLOSE_HOUR = 22`. -/
def CLOSE_HOUR : Nat := 22

/-- Number of lanes, `const TOTAL_LANES = 8`. -/
def TOTAL_LANES : Nat := 8

/-- Lifetime of a hold in minutes, `const HOLD_DURATION_MINUTES = 30`. -/
def HOLD_DURATION_MINUTES : Nat := 30

/-! ## Time labels: `toString`, `padStart`, `split(':')`, `Number` -/

/-- Decimal digit of a number below ten, as a character. -/
def digitChar (d : Nat) : Char := Char.ofNat (48 + d)

/-- Value of a decimal digit character, `none` for any other character. -/
def digitVal (c : Char) : Option Nat :=
  if 48 ≤ c.toNat ∧ c.toNat ≤ 57 then some (c.toNat - 48) else none

/-- Digits of `n`, most significant first, pushed in front of `acc`; `fuel`
bounds the number of digits produced. -/
def toDigitsFuel : Nat → Nat → List Char → List Char
  | 0, _, acc => acc
  | fuel + 1, n, acc =>
    if n < 10 then digitChar n :: acc
    else toDigitsFuel fuel (n / 10) (digitChar (n % 10) :: acc)

/-- The characters of `n.toString()` for a non-negative integer `n`. -/
def natToString (n : Nat) : List Char := toDigitsFuel (n + 1) n []

/-- The characters of `s.padStart(2, '0')`. -/
def padStart2 (s : List Char) : List Char := List.replicate (2 - s.length) '0' ++ s

/-- The label of a minute of day, as built at lines 118-121 and 160:
hours and minutes, each padded to two digits, joined by a colon. -/
def timeLabel (mins : Nat) : String :=
  String.mk (padStart2 (natToString (mins / 60)) ++ ':' :: padStart2 (natToString (mins % 60)))

/-- The pieces of `s.split(':')`. -/
def splitColon : List Char → List (List Char)
  | [] => [[]]
  | c :: cs =>
    if c = ':' then [] :: splitColon cs
    else
      match splitColon cs with
      | [] => [[c]]
      | p :: ps => (c :: p) :: ps

/-- Value of a run of decimal digits read left to right from `acc`, `none` as
soon as a character is not a digit. -/
def digitsValue : List Char → Nat → Option Nat
  | [], acc => some acc
  | c :: cs, acc =>
    match digitVal c with
    | some d => digitsValue cs (10 * acc + d)
    | none => none

/-- The function `Number` on a piece of a time string that is empty or made of
decimal digits (of a value below `2 ^ 53`): the empty string is `0` and a
string of digits is its value.  Any other piece is `NaN` here, which it is not
always for `Number`: that also reads a piece with white space around it, a
sign, a fraction, an exponent or a radix prefix.  The page writes digits only
(`timeLabel`); what holds whatever strings the store returns is stated on
`calculateAvailableSlotsJs`. -/
def jsNumber (s : List Char) : Option Nat := digitsValue s 0

/-- Minutes of day read from a time string as `addToMap` and the handlers do:
`const [h, m] = s.split(':').map(Number)` then `h * 60 + m`.  A missing second
piece is `undefined`, which makes the sum `NaN`. -/
def parseHM (s : String) : Option Nat :=
  match splitColon s.data with
  | h :: m :: _ =>
    match jsNumber h, jsNumber m with
    | some hh, some mm => some (hh * 60 + mm)
    | _, _ => none
  | _ => none

/-! ## The store -/

/-- A row of `bowling_lane_bookings`, with the columns the page writes at
lines 202-219 that identify the customer, the interval and the status.  The
column `total_price` of line 212 is `totalPricePerLane`. -/
structure BookingRow where
  customer_name : String
  customer_email : String
  customer_phone : String
  booking_date : String
  start_time : String
  end_time : String
  lane_number : Nat
  payment_status : String
  booking_status : String
  payment_method : String
  stripe_payment_id : String
  deriving DecidableEq, Repr

/-- A row of `bowling_lane_holds`, as written at lines 164-171. -/
structure HoldRow where
  hold_token : String
  lane_number : Nat
  booking_date : String
  start_time : String
  end_time : String
  expires_at : Nat
  deriving DecidableEq, Repr

/-- The two tables. -/
structure Store where
  bookings : List BookingRow
  holds : List HoldRow
  deriving DecidableEq, Repr

/-- The store with no rows. -/
def Store.empty : Store := ⟨[], []⟩

/-- What the page reads of the clock: the date part of
`new Date().toISOString()`, `getHours()`, `getMinutes()` and `Date.now()`. -/
structure Clock where
  isoDate : String
  hours : Nat
  minutes : Nat
  nowMs : Nat
  deriving DecidableEq, Repr

/-! ## The availability grid (`calculateAvailableSlots`, lines 67-135) -/

/-- The `while` loop of lines 81-86: `currentMin` advances by 15 while
`currentMin + duration <= endLimit`; a start is pushed unless the date is
today and the start is within 15 minutes of now. -/
def slotLoop (isToday : Bool) (nowMinutes duration endLimit : Nat) :
    Nat → Nat → List Nat → List Nat
  | 0, _, slots => slots
  | fuel + 1, currentMin, slots =>
    if currentMin + duration ≤ endLimit then
      slotLoop isToday nowMinutes duration endLimit fuel (currentMin + 15)
        (if !isToday || decide (nowMinutes + 15 < currentMin) then slots ++ [currentMin]
         else slots)
    else slots

/-- The candidate starts of lines 73-86.  The loop body runs at most once per
minute between opening and closing, so `endLimit + 1` iterations are enough. -/
def candidateSlots (clock : Clock) (bookingDate : String) (duration : Nat) : List Nat :=
  let endLimit := CLOSE_HOUR * 60
  let isToday := decide (bookingDate = clock.isoDate)
  let nowMinutes := clock.hours * 60 + clock.minutes
  slotLoop isToday nowMinutes duration endLimit (endLimit + 1) (OPEN_HOUR * 60) []

/-- An entry of `busyMap`: `{ start, end }`, each possibly `NaN`. -/
structure Range where
  start : Option Nat
  stop : Option Nat
  deriving DecidableEq, Repr

/-- The projection `select('lane_number, start_time, end_time')`. -/
structure Item where
  lane_number : Nat
  start_time : String
  end_time : String
  deriving DecidableEq, Repr

/-- The query of line 93: bookings of the date whose status is not
`cancelled`. -/
def selectBookings (store : Store) (bookingDate : String) : List Item :=
  (store.bookings.filter
    (fun b => decide (b.booking_date = bookingDate) && decide (b.booking_status ≠ "cancelled"))).map
    (fun b => ⟨b.lane_number, b.start_time, b.end_time⟩)

/-- The query of line 94: holds of the date with `expires_at` after now. -/
def selectHolds (store : Store) (bookingDate : String) (nowMs : Nat) : List Item :=
  (store.holds.filter
    (fun h => decide (h.booking_date = bookingDate) && decide (nowMs < h.expires_at))).map
    (fun h => ⟨h.lane_number, h.start_time, h.end_time⟩)

/-- The object `busyMap`: a key that was never set reads `undefined`. -/
abbrev BusyMap := Nat → Option (List Range)

/-- Lines 96-97: an empty list under each key `1 .. TOTAL_LANES`. -/
def emptyBusyMap : BusyMap :=
  fun lane => if 1 ≤ lane ∧ lane ≤ TOTAL_LANES then some [] else none

/-- Lines 99-103: push the parsed range under the item's lane.  Pushing onto
`undefined` throws, which is `none` here. -/
def addToMap (busyMap : BusyMap) (item : Item) : Option BusyMap :=
  match busyMap item.lane_number with
  | none => none
  | some ranges =>
    some (fun lane =>
      if lane = item.lane_number then
        some (ranges ++ [⟨parseHM item.start_time, parseHM item.end_time⟩])
      else busyMap lane)

/-- Lines 105-106: `forEach(addToMap)` over the bookings, then the holds. -/
def fillBusyMap (items : List Item) : Option BusyMap :=
  items.foldlM addToMap emptyBusyMap

/-- The test of line 113, `slotStart < range.end && slotEnd > range.start`;
a comparison with `NaN` is false. -/
def rangeHits (slotStart slotEnd : Nat) (range : Range) : Bool :=
  (match range.stop with
   | some e => decide (slotStart < e)
   | none => false) &&
  (match range.start with
   | some s => decide (s < slotEnd)
   | none => false)

/-- Line 113: `busyMap[lane].some(...)`. -/
def isBusy (busyMap : BusyMap) (slotStart slotEnd lane : Nat) : Bool :=
  match busyMap lane with
  | some ranges => ranges.any (rangeHits slotStart slotEnd)
  | none => false

/-- Lines 110-115: the lanes `1 .. TOTAL_LANES`, in order, that are not
busy over the slot. -/
def freeLanes (busyMap : BusyMap) (slotStart slotEnd : Nat) : List Nat :=
  (List.range' 1 TOTAL_LANES).filter (fun lane => !isBusy busyMap slotStart slotEnd lane)

/-- An entry of `availableSlots`: `{ timeLabel, lanes }`. -/
structure Slot where
  timeLabel : String
  lanes : List Nat
  deriving DecidableEq, Repr

/-- The callback of lines 108-125: the slot for a start, or `null`. -/
def slotFor (busyMap : BusyMap) (duration laneCount slotStart : Nat) : Option Slot :=
  let slotEnd := slotStart + duration
  let free := freeLanes busyMap slotStart slotEnd
  if laneCount ≤ free.length then
    some ⟨timeLabel slotStart, free.take laneCount⟩
  else none

/-- Lines 108-126: `slots.map(...).filter(Boolean)`. -/
def validSlots (busyMap : BusyMap) (duration laneCount : Nat) (slots : List Nat) : List Slot :=
  slots.filterMap (slotFor busyMap duration laneCount)

/-- The grid that `calculateAvailableSlots` stores in `availableSlots`
(lines 72-128), or `none` when the body throws and the `catch` of line 129
reports the error.  With no candidate start the function returns early and the
grid stays empty. -/
def computeGrid (clock : Clock) (store : Store) (bookingDate : String)
    (duration laneCount : Nat) : Option (List Slot) :=
  let slots := candidateSlots clock bookingDate duration
  if slots.length = 0 then some []
  else
    match fillBusyMap (selectBookings store bookingDate ++
        selectHolds store bookingDate clock.nowMs) with
    | none => none
    | some busyMap => some (validSlots busyMap duration laneCount slots)

/-! ## The page state -/

/-- The `formData` state of lines 32-43 (the fields the handlers of this
development read or write). -/
structure FormData where
  bookingDate : String
  startTime : String
  duration : Nat
  laneCount : Nat
  selectedLanes : List Nat
  customerName : String
  customerEmail : String
  customerPhone : String
  deriving DecidableEq, Repr

/-- The React state of one open page (lines 24-47). -/
structure Session where
  currentStep : Nat
  holdToken : Option String
  holdExpiry : Option Nat
  formData : FormData
  availableSlots : List Slot
  paymentMethod : String
  deriving DecidableEq, Repr

/-- A call of `toast({ variant: 'destructive', title, description })`; a
missing description is the empty string. -/
structure Toast where
  title : String
  description : String
  deriving DecidableEq, Repr

/-- The error object a store call may answer with. -/
structure PostgrestError where
  code : String
  message : String
  deriving DecidableEq, Repr

/-- The remote store's answer to the two inserts of the page, `none` for
`error: null`.  An insert of several rows is one request: when it is accepted
every row is appended, and when it is answered with an error no row is.  The
page reads no answer of a delete (lines 56 and 229); selects and deletes are
taken as carried out. -/
structure Backend where
  insertHolds : Store → List HoldRow → Option PostgrestError
  insertBookings : Store → List BookingRow → Option PostgrestError

/-- A store that accepts every insert, as two tables without any key or
constraint do.  The schema of the store is not part of the sources, so this is
one of the stores the page may face, not the one it faces. -/
def plainTables : Backend := ⟨fun _ _ => none, fun _ _ => none⟩

/-- What a handler leaves behind: the store, the page state, the toasts it
raised and whether it navigated to the payment page. -/
structure Outcome where
  store : Store
  session : Session
  toasts : List Toast
  navigated : Bool
  deriving DecidableEq, Repr

/-- The state of a page right after mount (lines 24-47). -/
def initialSession (clock : Clock) : Session where
  currentStep := 1
  holdToken := none
  holdExpiry := none
  formData :=
    { bookingDate := clock.isoDate, startTime := "", duration := 15, laneCount := 1,
      selectedLanes := [], customerName := "", customerEmail := "", customerPhone := "" }
  availableSlots := []
  paymentMethod := "stripe"

/-- The message of the `TypeError` raised by `busyMap[lane].push` on a lane
outside `1 .. TOTAL_LANES`. -/
def pushOnUndefined : String := "Cannot read properties of undefined (reading 'push')"

/-- The function `calculateAvailableSlots` (lines 67-135) run to completion:
the selection is cleared (lines 69-70), the grid is computed against the store
and stored (line 128), and a thrown error is reported (line 131).  The store
is an argument here; `calculateAvailableSlotsM` follows it from request to
request. -/
def calculateAvailableSlots (clock : Clock) (store : Store) (sess : Session) :
    Session × List Toast :=
  let cleared : Session :=
    { sess with
      availableSlots := []
      formData := { sess.formData with startTime := "", selectedLanes := [] } }
  match computeGrid clock store sess.formData.bookingDate sess.formData.duration
      sess.formData.laneCount with
  | some grid => ({ cleared with availableSlots := grid }, [])
  | none => (cleared, [⟨"Error checking availability", pushOnUndefined⟩])

/-- The `catch` of `handleHoldAndContinue` (lines 181-183): report the
failure, then recompute the grid. -/
def holdFailed (clock : Clock) (store : Store) (sess : Session) (message : String) : Outcome :=
  let refreshed := calculateAvailableSlots clock store sess
  ⟨store, refreshed.1, ⟨"Hold Failed", message⟩ :: refreshed.2, false⟩

/-- The string `endTimeStr` of line 160 (and `endTime` of line 198): the label
of `startMins + duration`, where `NaN` renders as `NaN:NaN`. -/
def endLabel (startTime : String) (duration : Nat) : String :=
  match parseHM startTime with
  | some startMins => timeLabel (startMins + duration)
  | none => "NaN:NaN"

/-- The array `holdRecords` of lines 164-171. -/
def holdRecords (clock : Clock) (uuid : String) (form : FormData) (lanesToHold : List Nat) :
    List HoldRow :=
  lanesToHold.map (fun laneNum =>
    { hold_token := uuid
      lane_number := laneNum
      booking_date := form.bookingDate
      start_time := form.startTime
      end_time := endLabel form.startTime form.duration
      expires_at := clock.nowMs + HOLD_DURATION_MINUTES * 60000 })

/-- The handler `handleHoldAndContinue` (lines 146-187).  `uuid` is the value
of `crypto.randomUUID()`. -/
def handleHoldAndContinue (backend : Backend) (clock : Clock) (uuid : String)
    (store : Store) (sess : Session) : Outcome :=
  if sess.formData.startTime = "" then
    ⟨store, sess, [⟨"Select a time", ""⟩], false⟩
  else
    match sess.availableSlots.find? (fun s => decide (s.timeLabel = sess.formData.startTime)) with
    | none => holdFailed clock store sess "Selected time is no longer available."
    | some slot =>
      let lanesToHold := slot.lanes
      let records := holdRecords clock uuid sess.formData lanesToHold
      match backend.insertHolds store records with
      | some _ => holdFailed clock store sess "Conflict detected. Please refresh."
      | none =>
        ⟨{ store with holds := store.holds ++ records },
         { sess with
           holdToken := some uuid
           holdExpiry := some (clock.nowMs + HOLD_DURATION_MINUTES * 60000)
           formData := { sess.formData with selectedLanes := lanesToHold }
           currentStep := 2 },
         [], false⟩

/-- The array `bookingsToInsert` of lines 202-219. -/
def bookingsToInsert (sess : Session) (holdToken : String) : List BookingRow :=
  sess.formData.selectedLanes.map (fun laneNum =>
    { customer_name := sess.formData.customerName
      customer_email := sess.formData.customerEmail
      customer_phone := sess.formData.customerPhone
      booking_date := sess.formData.bookingDate
      start_time := sess.formData.startTime
      end_time := endLabel sess.formData.startTime sess.formData.duration
      lane_number := laneNum
      payment_status := "pending"
      booking_status := "confirmed"
      payment_method := sess.paymentMethod
      stripe_payment_id := holdToken })

/-- The message of the `TypeError` raised by `data[0].id` on an empty
result. -/
def idOfUndefined : String := "Cannot read properties of undefined (reading 'id')"

/-- The handler `handleBook` (lines 189-244): insert one booking per selected
lane, delete the holds of the token, navigate.  With no selected lane the
insert returns no row and reading `data[0].id` throws after the holds are
deleted. -/
def handleBook (backend : Backend) (store : Store) (sess : Session) : Outcome :=
  match sess.holdToken with
  | none => ⟨store, sess, [⟨"Booking Failed", "Session expired. Please start over."⟩], false⟩
  | some holdToken =>
    if holdToken = "" then
      ⟨store, sess, [⟨"Booking Failed", "Session expired. Please start over."⟩], false⟩
    else
      let rows := bookingsToInsert sess holdToken
      match backend.insertBookings store rows with
      | some error => ⟨store, sess, [⟨"Booking Failed", error.message⟩], false⟩
      | none =>
        let store1 : Store :=
          { bookings := store.bookings ++ rows
            holds := store.holds.filter (fun h => decide (h.hold_token ≠ holdToken)) }
        if rows.isEmpty then ⟨store1, sess, [⟨"Booking Failed", idOfUndefined⟩], false⟩
        else ⟨store1, sess, [], true⟩

/-- The sweep of lines 54-59, run once on mount: delete the holds whose
`expires_at` is before now. -/
def cleanup (clock : Clock) (store : Store) : Store :=
  { store with holds := store.holds.filter (fun h => !decide (h.expires_at < clock.nowMs)) }

/-! ## Several pages against one store -/

/-- What a user can do on the page. -/
inductive Action where
  /-- Open the page: initial state, the sweep, and the first grid. -/
  | load
  /-- Change date, duration or lane count in step 1; the effect of lines 61-65
  recomputes the grid when one of them changed and all are set. -/
  | setInputs (bookingDate : String) (duration laneCount : Nat)
  /-- Click the button of a slot of the displayed grid (step 1). -/
  | pick (timeLabel : String)
  /-- Click `Continue` in step 1: `handleHoldAndContinue`. -/
  | holdAndContinue
  /-- Type the customer's details in step 2. -/
  | fill (name email phone : String)
  /-- Click `Next` in step 2. -/
  | next
  /-- Click `Cancel` in step 2 (back to step 1). -/
  | cancel
  /-- Click `Back` in step 3 (back to step 2). -/
  | back
  /-- Click `Pay & Confirm` in step 3: `handleBook`. -/
  | book
  deriving DecidableEq, Repr

/-- One store and the pages open against it, by client number; `none` is a
client that has not opened the page. -/
structure World where
  store : Store
  sessions : Nat → Option Session

/-- The world before anyone opened the page, on an empty store. -/
def World.initial : World := ⟨Store.empty, fun _ => none⟩

/-- An action of one client, with the clock and the UUID drawn when it runs. -/
structure Event where
  client : Nat
  clock : Clock
  uuid : String
  action : Action
  deriving DecidableEq, Repr

/-- Replace the page of one client. -/
def World.put (w : World) (store : Store) (client : Nat) (sess : Session) : World :=
  ⟨store, fun c => if c = client then some sess else w.sessions c⟩

/-- The effect of an action on an open page, as a whole operation.  A control
that the current step does not render does nothing. -/
def act (backend : Backend) (clock : Clock) (uuid : String) (store : Store) (sess : Session) :
    Action → Store × Session
  | .load =>
    let store1 := cleanup clock store
    (store1, (calculateAvailableSlots clock store1 (initialSession clock)).1)
  | .setInputs bookingDate duration laneCount =>
    if sess.currentStep = 1 ∧
        (bookingDate, duration, laneCount) ≠
          (sess.formData.bookingDate, sess.formData.duration, sess.formData.laneCount) then
      let sess1 : Session :=
        { sess with
          formData := { sess.formData with
            bookingDate := bookingDate, duration := duration, laneCount := laneCount } }
      if bookingDate = "" then (store, sess1)
      else (store, (calculateAvailableSlots clock store sess1).1)
    else (store, sess)
  | .pick timeLabel =>
    if sess.currentStep = 1 ∧ timeLabel ∈ sess.availableSlots.map Slot.timeLabel then
      (store, { sess with formData := { sess.formData with startTime := timeLabel } })
    else (store, sess)
  | .holdAndContinue =>
    if sess.currentStep = 1 ∧ sess.formData.startTime ≠ "" then
      let out := handleHoldAndContinue backend clock uuid store sess
      (out.store, out.session)
    else (store, sess)
  | .fill name email phone =>
    if sess.currentStep = 2 then
      (store, { sess with formData := { sess.formData with
        customerName := name, customerEmail := email, customerPhone := phone } })
    else (store, sess)
  | .next =>
    if sess.currentStep = 2 ∧ sess.formData.customerName ≠ "" ∧
        sess.formData.customerEmail ≠ "" then
      (store, { sess with currentStep := 3 })
    else (store, sess)
  | .cancel =>
    if sess.currentStep = 2 then (store, { sess with currentStep := 1 }) else (store, sess)
  | .back =>
    if sess.currentStep = 3 then (store, { sess with currentStep := 2 }) else (store, sess)
  | .book =>
    if sess.currentStep = 3 then
      let out := handleBook backend store sess
      (out.store, out.session)
    else (store, sess)

/-- One event: `load` opens (or reloads) the client's page, any other action
needs an open page. -/
def step (backend : Backend) (w : World) (e : Event) : World :=
  match e.action, w.sessions e.client with
  | .load, _ =>
    let r := act backend e.clock e.uuid w.store (initialSession e.clock) .load
    w.put r.1 e.client r.2
  | a, some sess =>
    let r := act backend e.clock e.uuid w.store sess a
    w.put r.1 e.client r.2
  | _, none => w

/-- A finite sequence of events, each run as a whole. -/
def run (backend : Backend) (w : World) (events : List Event) : World :=
  events.foldl (step backend) w

/-! ## Active intervals and the no-overlap invariant -/

/-- An interval of the store: a lane, a date and the minutes of day that
`addToMap` reads from the row's time strings. -/
structure Interval where
  lane : Nat
  date : String
  start : Option Nat
  stop : Option Nat
  deriving DecidableEq, Repr

/-- The active intervals at `nowMs`: the bookings whose status is not
`cancelled`, then the holds with `expires_at` after `nowMs`. -/
def activeIntervals (store : Store) (nowMs : Nat) : List Interval :=
  (store.bookings.filter (fun b => decide (b.booking_status ≠ "cancelled"))).map
      (fun b => ⟨b.lane_number, b.booking_date, parseHM b.start_time, parseHM b.end_time⟩) ++
  (store.holds.filter (fun h => decide (nowMs < h.expires_at))).map
      (fun h => ⟨h.lane_number, h.booking_date, parseHM h.start_time, parseHM h.end_time⟩)

/-- Half-open overlap of an interval with the window `[s, e)`:
`s < stop` and `start < e`. -/
def Interval.overlaps (iv : Interval) (s e : Nat) : Prop :=
  ∃ a b, iv.start = some a ∧ iv.stop = some b ∧ s < b ∧ a < e

/-- Two intervals conflict when they are on the same lane and date and overlap
half-open. -/
def Interval.conflicts (x y : Interval) : Prop :=
  x.lane = y.lane ∧ x.date = y.date ∧
    ∃ a b, x.start = some a ∧ x.stop = some b ∧ y.overlaps a b

/-- No two active intervals of the store conflict. -/
def NoDoubleBooking (store : Store) (nowMs : Nat) : Prop :=
  (activeIntervals store nowMs).Pairwise (fun x y => ¬ x.conflicts y)

/-- The lane has no active interval on the date that overlaps `[s, e)`. -/
def LaneFree (store : Store) (nowMs : Nat) (date : String) (lane s e : Nat) : Prop :=
  ∀ iv ∈ activeIntervals store nowMs, iv.lane = lane → iv.date = date → ¬ iv.overlaps s e

/-! ## Deciding overlap on concrete stores -/

instance Interval.decidableOverlaps (iv : Interval) (s e : Nat) : Decidable (iv.overlaps s e) :=
  match hs : iv.start, he : iv.stop with
  | some a, some b =>
    if h : s < b ∧ a < e then isTrue ⟨a, b, hs, he, h.1, h.2⟩
    else isFalse (fun ⟨a', b', ha, hb, h1, h2⟩ => by
      rw [hs] at ha
      rw [he] at hb
      cases ha
      cases hb
      exact h ⟨h1, h2⟩)
  | none, _ => isFalse (fun ⟨a', b', ha, _, _, _⟩ => by
      rw [hs] at ha
      cases ha)
  | some _, none => isFalse (fun ⟨a', b', _, hb, _, _⟩ => by
      rw [he] at hb
      cases hb)

instance Interval.decidableConflicts (x y : Interval) : Decidable (x.conflicts y) :=
  match hs : x.start, he : x.stop with
  | some a, some b =>
    if h : x.lane = y.lane ∧ x.date = y.date ∧ y.overlaps a b then
      isTrue ⟨h.1, h.2.1, a, b, hs, he, h.2.2⟩
    else isFalse (fun ⟨h1, h2, a', b', ha, hb, hov⟩ => by
      rw [hs] at ha
      rw [he] at hb
      cases ha
      cases hb
      exact h ⟨h1, h2, hov⟩)
  | none, _ => isFalse (fun ⟨_, _, a', b', ha, _, _⟩ => by
      rw [hs] at ha
      cases ha)
  | some _, none => isFalse (fun ⟨_, _, a', b', _, hb, _⟩ => by
      rw [he] at hb
      cases hb)

instance NoDoubleBooking.decidable (store : Store) (nowMs : Nat) :
    Decidable (NoDoubleBooking store nowMs) :=
  inferInstanceAs (Decidable
    ((activeIntervals store nowMs).Pairwise (fun (x y : Interval) => ¬ x.conflicts y)))

instance LaneFree.decidable (store : Store) (nowMs : Nat) (date : String) (lane s e : Nat) :
    Decidable (LaneFree store nowMs date lane s e) :=
  inferInstanceAs (Decidable (∀ iv ∈ activeIntervals store nowMs,
    iv.lane = lane → iv.date = date → ¬ iv.overlaps s e))

/-! ## Auxiliary definitions for the statements -/

/-- Number of starts `cur + 15 k` with `cur + 15 k + duration ≤ endLimit`. -/
def numStarts (duration endLimit cur : Nat) : Nat :=
  if cur + duration ≤ endLimit then (endLimit - duration - cur) / 15 + 1 else 0

/-- The starts between opening and closing for a duration: `780 + 15 k` for
each `k` with `780 + 15 k + duration ≤ 1320`, ascending. -/
def allStarts (duration : Nat) : List Nat :=
  (List.range (numStarts duration (CLOSE_HOUR * 60) (OPEN_HOUR * 60))).map
    (fun k => OPEN_HOUR * 60 + 15 * k)

/-- The range `addToMap` pushes for an item. -/
def Item.range (item : Item) : Range := ⟨parseHM item.start_time, parseHM item.end_time⟩

/-! ## A sample day -/

/-- A clock on 31 May 2024 at 10:00. -/
def sampleClock : Clock := ⟨"2024-05-31", 10, 0, 1717142400000⟩

/-- A confirmed booking of lane 3 from 18:00 to 19:00 on 1 June 2024. -/
def sampleBooking : BookingRow where
  customer_name := "Ada"
  customer_email := "ada@example.org"
  customer_phone := "555"
  booking_date := "2024-06-01"
  start_time := "18:00"
  end_time := "19:00"
  lane_number := 3
  payment_status := "pending"
  booking_status := "confirmed"
  payment_method := "stripe"
  stripe_payment_id := "tok-0"

/-- A store holding only `sampleBooking`. -/
def sampleStore : Store := ⟨[sampleBooking], []⟩

/-- A page in step 1 asking for a date, a duration and a lane count, with
nothing selected and no grid yet. -/
def askFor (bookingDate : String) (duration laneCount : Nat) : Session where
  currentStep := 1
  holdToken := none
  holdExpiry := none
  formData :=
    { bookingDate := bookingDate, startTime := "", duration := duration, laneCount := laneCount,
      selectedLanes := [], customerName := "", customerEmail := "", customerPhone := "" }
  availableSlots := []
  paymentMethod := "stripe"

/-! ## Backends and scenarios for the statements -/

/-- A store that answers every insert with the same error. -/
def answering (error : PostgrestError) : Backend :=
  ⟨fun _ _ => some error, fun _ _ => some error⟩

/-- The error of a unique-key violation. -/
def duplicateKey : PostgrestError :=
  ⟨"23505", "duplicate key value violates unique constraint"⟩

/-- The error the store's gateway answers when it cannot reach the database. -/
def databaseDown : PostgrestError :=
  ⟨"PGRST000", "Database connection error. Retrying the connection."⟩

/-- Two tables, each with a unique key on lane, date and start time: an
insert is refused when one of its rows repeats the key of a stored row. -/
def keyedTables : Backend where
  insertHolds := fun store rows =>
    if rows.any (fun r => store.holds.any (fun h =>
        decide (h.lane_number = r.lane_number ∧ h.booking_date = r.booking_date ∧
          h.start_time = r.start_time))) then some duplicateKey
    else none
  insertBookings := fun store rows =>
    if rows.any (fun r => store.bookings.any (fun b =>
        decide (b.lane_number = r.lane_number ∧ b.booking_date = r.booking_date ∧
          b.start_time = r.start_time))) then some duplicateKey
    else none

/-- The page of a client, or a blank page for a client that has none. -/
def World.page (w : World) (client : Nat) : Session :=
  (w.sessions client).getD (initialSession ⟨"", 0, 0, 0⟩)

/-- The clock of 31 May 2024, `minutesLater` minutes after 10:00. -/
def clockAt (minutesLater : Nat) : Clock :=
  ⟨"2024-05-31", 10 + minutesLater / 60, minutesLater % 60, 1717142400000 + minutesLater * 60000⟩

/-- Two pages ask for one lane for an hour on 1 June 2024 and are shown the
same grid; each then picks 13:00 and clicks `Continue`. -/
def staleGridEvents : List Event :=
  [⟨0, clockAt 0, "uuid-a0", .load⟩,
   ⟨0, clockAt 0, "uuid-a1", .setInputs "2024-06-01" 60 1⟩,
   ⟨1, clockAt 1, "uuid-b0", .load⟩,
   ⟨1, clockAt 1, "uuid-b1", .setInputs "2024-06-01" 60 1⟩,
   ⟨0, clockAt 2, "uuid-a2", .pick "13:00"⟩,
   ⟨1, clockAt 2, "uuid-b2", .pick "13:00"⟩,
   ⟨0, clockAt 3, "uuid-a3", .holdAndContinue⟩,
   ⟨1, clockAt 3, "uuid-b3", .holdAndContinue⟩]

/-- A page holds lane 1 at 13:00 and lets the hold run out; a second page,
opened 40 minutes later, holds the same lane; the first page then clicks
`Pay & Confirm`. -/
def staleCommitEvents : List Event :=
  [⟨0, clockAt 0, "uuid-a0", .load⟩,
   ⟨0, clockAt 0, "uuid-a1", .setInputs "2024-06-01" 60 1⟩,
   ⟨0, clockAt 2, "uuid-a2", .pick "13:00"⟩,
   ⟨0, clockAt 3, "uuid-a3", .holdAndContinue⟩,
   ⟨0, clockAt 4, "uuid-a4", .fill "Ada" "ada@example.org" "555"⟩,
   ⟨0, clockAt 5, "uuid-a5", .next⟩,
   ⟨1, clockAt 40, "uuid-b0", .load⟩,
   ⟨1, clockAt 40, "uuid-b1", .setInputs "2024-06-01" 60 1⟩,
   ⟨1, clockAt 41, "uuid-b2", .pick "13:00"⟩,
   ⟨1, clockAt 41, "uuid-b3", .holdAndContinue⟩,
   ⟨0, clockAt 42, "uuid-a6", .book⟩]

/-- A page is shown the grid for eight lanes; a second page then holds lane 1
at 13:00; the first page picks 13:00 from the grid it was shown. -/
def lostLaneEvents : List Event :=
  [⟨0, clockAt 0, "uuid-a0", .load⟩,
   ⟨0, clockAt 0, "uuid-a1", .setInputs "2024-06-01" 60 8⟩,
   ⟨1, clockAt 1, "uuid-b0", .load⟩,
   ⟨1, clockAt 1, "uuid-b1", .setInputs "2024-06-01" 60 1⟩,
   ⟨1, clockAt 2, "uuid-b2", .pick "13:00"⟩,
   ⟨1, clockAt 3, "uuid-b3", .holdAndContinue⟩,
   ⟨0, clockAt 4, "uuid-a2", .pick "13:00"⟩]

/-- A page holds lanes 1 to 7 at 13:00; two more pages then ask for one lane
and are both shown lane 8 at 13:00, and both pick it. -/
def lastLaneEvents : List Event :=
  [⟨2, clockAt 0, "uuid-c0", .load⟩,
   ⟨2, clockAt 0, "uuid-c1", .setInputs "2024-06-01" 60 7⟩,
   ⟨2, clockAt 1, "uuid-c2", .pick "13:00"⟩,
   ⟨2, clockAt 1, "uuid-c3", .holdAndContinue⟩,
   ⟨0, clockAt 2, "uuid-a0", .load⟩,
   ⟨0, clockAt 2, "uuid-a1", .setInputs "2024-06-01" 60 1⟩,
   ⟨1, clockAt 2, "uuid-b0", .load⟩,
   ⟨1, clockAt 2, "uuid-b1", .setInputs "2024-06-01" 60 1⟩,
   ⟨0, clockAt 3, "uuid-a2", .pick "13:00"⟩,
   ⟨1, clockAt 3, "uuid-b2", .pick "13:00"⟩]

/-- A page holds lane 1 at 13:00, then goes back to step 1 with `Cancel`. -/
def heldThenCancelledEvents : List Event :=
  [⟨0, clockAt 0, "uuid-a0", .load⟩,
   ⟨0, clockAt 0, "uuid-a1", .setInputs "2024-06-01" 60 1⟩,
   ⟨0, clockAt 2, "uuid-a2", .pick "13:00"⟩,
   ⟨0, clockAt 3, "uuid-a3", .holdAndContinue⟩,
   ⟨0, clockAt 4, "uuid-a4", .cancel⟩]

/-- A page that was shown the grid of the empty store for two lanes for an
hour on 1 June 2024 and has a start time picked. -/
def pickedOnEmptyStore (startTime : String) : Session :=
  let shown := (calculateAvailableSlots sampleClock Store.empty (askFor "2024-06-01" 60 2)).1
  { shown with formData := { shown.formData with startTime := startTime } }

/-- The number of lanes `1 .. TOTAL_LANES` with no active interval of the date
overlapping `[s, e)`. -/
def freeLaneCount (store : Store) (nowMs : Nat) (date : String) (s e : Nat) : Nat :=
  ((List.range' 1 TOTAL_LANES).filter
    (fun lane => decide (LaneFree store nowMs date lane s e))).length

/-! ## The configuration-driven page (`handleBook`, lines 280-305)

The page of `src/horizons-export-.../src/pages/BowlingBookingPage.jsx` keeps
the hold it was given by the store in three state variables and, on
`Pay & Confirm`, only checks them and navigates. -/

/-- The hold state of the configuration-driven page (lines 69-74) and the
payment method.  `holdExpiry` is the time value of the `Date` built from the
store's `hold_expires_at`. -/
structure Configured.Page where
  currentStep : Nat
  holdToken : Option String
  holdExpiry : Option Nat
  holdBookingId : Option String
  paymentMethod : String
  deriving DecidableEq, Repr

/-- Where `navigate` goes: the query parameters `method`, `bookingId` and
`token` of `/payment-success`. -/
structure Configured.Target where
  method : String
  bookingId : String
  token : String
  deriving DecidableEq, Repr

/-- What `handleBook` leaves behind: the page state, the toasts it raised and
the navigation, if any. -/
structure Configured.Outcome where
  page : Configured.Page
  toasts : List Toast
  navigated : Option Configured.Target
  deriving DecidableEq, Repr

/-- The state variables right after mount: no hold. -/
def Configured.initialPage : Configured.Page where
  currentStep := 1
  holdToken := none
  holdExpiry := none
  holdBookingId := none
  paymentMethod := "stripe"

/-- The handler `handleBook` of the configuration-driven page (lines 280-305)
at the instant `nowMs`: the expiry test of line 283, then the presence test of
line 286, then the navigation of lines 291-294.  `null` and the empty string
are falsy. -/
def Configured.handleBook (nowMs : Nat) (page : Configured.Page) : Configured.Outcome :=
  match page.holdExpiry with
  | none => ⟨page, [⟨"Booking Failed", "Session expired. Please start over."⟩], none⟩
  | some holdExpiry =>
    if holdExpiry ≤ nowMs then
      ⟨page, [⟨"Booking Failed", "Session expired. Please start over."⟩], none⟩
    else
      match page.holdToken, page.holdBookingId with
      | some holdToken, some holdBookingId =>
        if holdToken = "" ∨ holdBookingId = "" then
          ⟨page, [⟨"Booking Failed", "Missing hold. Please start over."⟩], none⟩
        else
          ⟨page, [],
            some ⟨if page.paymentMethod = "stripe" then "card" else "paypal",
              holdBookingId, holdToken⟩⟩
      | _, _ => ⟨page, [⟨"Booking Failed", "Missing hold. Please start over."⟩], none⟩

/-! ## The cancellation page (`checkCancellationValidity`, lines 65-84 of
`src/src/pages/CancelBookingPage.jsx`) -/

/-- The state `checkCancellationValidity` writes (lines 31-34). -/
structure CancelView where
  error : String
  canCancel : Bool
  timeRemaining : String
  deriving DecidableEq, Repr

/-- The state right after mount. -/
def CancelView.initial : CancelView := ⟨"", false, ""⟩

/-- The function `checkCancellationValidity` (lines 65-84).  `dateOf` is the
`Date` constructor on the string `booking_date + 'T' + start_time`, giving the
time value in milliseconds or `none` for an invalid date; `nowMs` is
`new Date()`.  Both time values are whole milliseconds, so the test
`diffMs / (1000 * 60 * 60) > 8` of line 77 holds exactly when
`diffMs > 8 * (1000 * 60 * 60)`, and it is false for an invalid date. -/
def checkCancellationValidity (dateOf : String → Option Nat) (nowMs : Nat)
    (bookingData : BookingRow) (view : CancelView) : CancelView :=
  if bookingData.booking_status = "cancelled" then
    { view with error := "This booking is already cancelled.", canCancel := false }
  else
    match dateOf (bookingData.booking_date ++ "T" ++ bookingData.start_time) with
    | some bookingDateTime =>
      let diffMs : Int := (bookingDateTime : Int) - (nowMs : Int)
      if diffMs > 8 * (1000 * 60 * 60) then
        { view with
          canCancel := true
          timeRemaining := String.mk (natToString (diffMs.toNat / (1000 * 60 * 60))) ++ " hours" }
      else
        { view with
          canCancel := false
          error := "Cancellations are only allowed more than 8 hours before the reservation." }
    | none =>
      { view with
        canCancel := false
        error := "Cancellations are only allowed more than 8 hours before the reservation." }

/-! ## Scenarios for the commit -/

/-- A page holds lane 1 at 13:00 on 1 June 2024 three minutes after 10:00,
enters the customer's details and reaches step 3. -/
def heldWithDetailsEvents : List Event :=
  [⟨0, clockAt 0, "uuid-a0", .load⟩,
   ⟨0, clockAt 0, "uuid-a1", .setInputs "2024-06-01" 60 1⟩,
   ⟨0, clockAt 2, "uuid-a2", .pick "13:00"⟩,
   ⟨0, clockAt 3, "uuid-a3", .holdAndContinue⟩,
   ⟨0, clockAt 4, "uuid-a4", .fill "Ada" "ada@example.org" "555"⟩,
   ⟨0, clockAt 5, "uuid-a5", .next⟩]

/-- The page of `heldWithDetailsEvents` reaches step 3 holding lane 1; a
second page then holds lane 2 for the same hour. -/
def twoHoldersEvents : List Event :=
  heldWithDetailsEvents ++
  [⟨1, clockAt 6, "uuid-b0", .load⟩,
   ⟨1, clockAt 6, "uuid-b1", .setInputs "2024-06-01" 60 1⟩,
   ⟨1, clockAt 7, "uuid-b2", .pick "13:00"⟩,
   ⟨1, clockAt 8, "uuid-b3", .holdAndContinue⟩]

/-- A `Date` constructor that knows two strings: 18:00 on 1 June 2024, the
sample booking's start, at the time value `startMs`, and 18:02 two minutes
later. -/
def sampleDateOf (startMs : Nat) : String → Option Nat :=
  fun s =>
    if s = "2024-06-01T18:00" then some startMs
    else if s = "2024-06-01T18:02" then some (startMs + 120000)
    else none

/-- The sample booking moved to 18:02. -/
def laterBooking : BookingRow := { sampleBooking with start_time := "18:02", end_time := "19:02" }

/-- The sample booking, cancelled. -/
def cancelledBooking : BookingRow := { sampleBooking with booking_status := "cancelled" }

/-! ## Stores without their inactive rows -/

/-- The store without its inactive rows at `nowMs`: the bookings whose status
is `cancelled` and the holds with `expires_at` at or before `nowMs` are
removed. -/
def removeInactive (nowMs : Nat) (store : Store) : Store where
  bookings := store.bookings.filter (fun b => !decide (b.booking_status = "cancelled"))
  holds := store.holds.filter (fun h => !decide (h.expires_at ≤ nowMs))

/-- A store with a cancelled booking of lane 1 and an expired hold of lane 2
at 13:00 on 1 June 2024, besides `sampleBooking`. -/
def storeWithInactive : Store where
  bookings :=
    [{ sampleBooking with
        lane_number := 1
        start_time := "13:00"
        end_time := "14:00"
        booking_status := "cancelled" },
     sampleBooking]
  holds := [⟨"tok-old", 2, "2024-06-01", "13:00", "14:00", sampleClock.nowMs⟩]

/-- A store whose only row is an active hold of lane 9 at 13:00 on 1 June
2024. -/
def storeWithLaneNine : Store where
  bookings := []
  holds := [⟨"tok-9", 9, "2024-06-01", "13:00", "14:00", sampleClock.nowMs + 1800000⟩]

/-- The click on a slot button (line 342): the slot's label becomes the
selected start time. -/
def pickSlot (sess : Session) (timeLabel : String) : Session :=
  { sess with formData := { sess.formData with startTime := timeLabel } }

/-! ## The configuration-driven page: its state and handlers

The rest of the state of the configuration-driven page, as far as its handlers
read it to decide what they do with the hold, and the handlers as functions of
the state and of what the store's remote procedures answer. -/

/-- An entry of `availableSlots` (lines 178-184): the start timestamp the
store gave and the label shown. -/
structure Configured.GridSlot where
  startAt : String
  timeLabel : String
  deriving DecidableEq, Repr

/-- The row `create_lane_booking_hold` answers (lines 242-250): a missing or
falsy field is `none`; `hold_expires_at` is a timestamp, held as the time
value of the `Date` built from it. -/
structure Configured.HoldResponse where
  public_token : Option String
  hold_expires_at : Option Nat
  booking_id : Option String
  deriving DecidableEq, Repr

/-- The state of the configuration-driven page: the hold state, whether the
configuration is loaded (`cfg`), the selected start time, the grid and the
customer fields that `Next` tests. -/
structure Configured.View where
  page : Configured.Page
  cfg : Bool
  startTime : String
  availableSlots : List Configured.GridSlot
  customerName : String
  customerEmail : String
  deriving DecidableEq, Repr

/-- The state right after mount (lines 57-88). -/
def Configured.initialView : Configured.View where
  page := Configured.initialPage
  cfg := false
  startTime := ""
  availableSlots := []
  customerName := ""
  customerEmail := ""

/-- The function `fetchGrid` (lines 163-197) given the store's answer: the
grid is emptied, then set to the slots answered; on an error it stays
empty. -/
def Configured.fetchGrid (answer : Option (List Configured.GridSlot))
    (view : Configured.View) : Configured.View :=
  { view with availableSlots := answer.getD [] }

/-- The `catch` of `handleHoldAndContinue` (lines 266-273): report, then fetch
the grid again. -/
def Configured.holdFailed (message : String) (refetched : Option (List Configured.GridSlot))
    (view : Configured.View) : Configured.View × List Toast :=
  (Configured.fetchGrid refetched view, [⟨"Hold Failed", message⟩])

/-- The handler `handleHoldAndContinue` of the configuration-driven page
(lines 207-277), given the answer of `create_lane_booking_hold` (an error, or
the row, possibly missing) and the answer of the grid fetch of the failure
path. -/
def Configured.handleHoldAndContinue
    (response : Except PostgrestError (Option Configured.HoldResponse))
    (refetched : Option (List Configured.GridSlot)) (view : Configured.View) :
    Configured.View × List Toast :=
  if view.cfg = false then (view, [⟨"Missing config", ""⟩])
  else if view.startTime = "" then (view, [⟨"Select a time", ""⟩])
  else
    match view.availableSlots.find? (fun s => decide (s.timeLabel = view.startTime)) with
    | none =>
      Configured.holdFailed "Selected time is no longer available. Please choose another."
        refetched view
    | some slot =>
      if slot.startAt = "" then
        Configured.holdFailed "Selected time is no longer available. Please choose another."
          refetched view
      else
        match response with
        | .error error => Configured.holdFailed error.message refetched view
        | .ok none => Configured.holdFailed "Hold created but missing token/expiry." refetched view
        | .ok (some row) =>
          match row.public_token, row.hold_expires_at, row.booking_id with
          | some token, some expiry, some bookingId =>
            if token = "" ∨ bookingId = "" then
              Configured.holdFailed "Hold created but missing token/expiry." refetched view
            else
              ({ view with
                  page := { view.page with
                    holdToken := some token
                    holdExpiry := some expiry
                    holdBookingId := some bookingId
                    currentStep := 2 } }, [])
          | _, _, _ =>
            Configured.holdFailed "Hold created but missing token/expiry." refetched view

/-- What happens on the configuration-driven page. -/
inductive Configured.Action where
  /-- The configuration request of lines 91-128 is answered, with a usable row
  or not; with a usable row the effect of lines 150-161 then fetches the
  grid. -/
  | configLoaded (ok : Bool) (grid : Option (List Configured.GridSlot))
  /-- Date, duration or lane count changes (lines 150-161): the selection is
  reset and the grid fetched, once the configuration is loaded. -/
  | inputsChanged (grid : Option (List Configured.GridSlot))
  /-- Click the button of a slot of the grid (step 1). -/
  | pick (timeLabel : String)
  /-- Click `Continue` in step 1. -/
  | holdAndContinue (response : Except PostgrestError (Option Configured.HoldResponse))
      (refetched : Option (List Configured.GridSlot))
  /-- Type the name and the email in step 2. -/
  | fill (name email : String)
  /-- Click `Next` in step 2. -/
  | next
  /-- Click `Cancel` in step 2. -/
  | cancel
  /-- Click `Back` in step 3. -/
  | back
  /-- Choose a payment method in step 3. -/
  | pay (method : String)
  /-- Click `Pay & Confirm` in step 3 at the instant `nowMs`. -/
  | book (nowMs : Nat)

/-- The effect of an action on the page; a control that the current step does
not render does nothing. -/
def Configured.step (view : Configured.View) : Configured.Action → Configured.View
  | .configLoaded ok grid =>
    if ok then
      Configured.fetchGrid grid { view with cfg := true, availableSlots := [], startTime := "" }
    else view
  | .inputsChanged grid =>
    if view.page.currentStep = 1 ∧ view.cfg = true then
      Configured.fetchGrid grid { view with availableSlots := [], startTime := "" }
    else view
  | .pick timeLabel =>
    if view.page.currentStep = 1 ∧
        timeLabel ∈ view.availableSlots.map Configured.GridSlot.timeLabel then
      { view with startTime := timeLabel }
    else view
  | .holdAndContinue response refetched =>
    if view.page.currentStep = 1 ∧ view.startTime ≠ "" then
      (Configured.handleHoldAndContinue response refetched view).1
    else view
  | .fill name email =>
    if view.page.currentStep = 2 then { view with customerName := name, customerEmail := email }
    else view
  | .next =>
    if view.page.currentStep = 2 ∧ view.customerName ≠ "" ∧ view.customerEmail ≠ "" then
      { view with page := { view.page with currentStep := 3 } }
    else view
  | .cancel =>
    if view.page.currentStep = 2 then { view with page := { view.page with currentStep := 1 } }
    else view
  | .back =>
    if view.page.currentStep = 3 then { view with page := { view.page with currentStep := 2 } }
    else view
  | .pay method =>
    if view.page.currentStep = 3 then
      { view with page := { view.page with paymentMethod := method } }
    else view
  | .book nowMs =>
    if view.page.currentStep = 3 then
      { view with page := (Configured.handleBook nowMs view.page).page }
    else view

/-- A finite sequence of actions from a state. -/
def Configured.run (view : Configured.View) (actions : List Configured.Action) :
    Configured.View :=
  actions.foldl Configured.step view

/-- The hold state is either all unset, or all set with a token and a booking
id that are not empty. -/
def Configured.HoldConsistent (page : Configured.Page) : Prop :=
  (page.holdToken = none ∧ page.holdExpiry = none ∧ page.holdBookingId = none) ∨
  ∃ token expiry bookingId,
    page.holdToken = some token ∧ token ≠ "" ∧ page.holdExpiry = some expiry ∧
      page.holdBookingId = some bookingId ∧ bookingId ≠ ""

/-! ## The grid query as requests to the store -/

/-- A computation against the remote store: from the store it finds, the
value it returns and the store it leaves. -/
abbrev StoreM (α : Type) := Store → α × Store

/-- The request of line 93, `from('bowling_lane_bookings').select(...)` with
its two filters: it answers the rows and leaves the store as it is. -/
def selectBookingsRequest (bookingDate : String) : StoreM (List Item) :=
  fun store => (selectBookings store bookingDate, store)

/-- The request of line 94, `from('bowling_lane_holds').select(...)` with its
two filters: it answers the rows and leaves the store as it is. -/
def selectHoldsRequest (bookingDate : String) (nowMs : Nat) : StoreM (List Item) :=
  fun store => (selectHolds store bookingDate nowMs, store)

/-- The request of line 173, `from('bowling_lane_holds').insert(holdRecords)`:
it answers the error, or appends the rows. -/
def insertHoldsRequest (backend : Backend) (records : List HoldRow) :
    StoreM (Option PostgrestError) :=
  fun store =>
    match backend.insertHolds store records with
    | some error => (some error, store)
    | none => (none, { store with holds := store.holds ++ records })

/-- The function `calculateAvailableSlots` (lines 67-135) with the store
passed from request to request: the candidate starts are computed first and
the function returns before any request when there is none (lines 88-91);
otherwise it sends the request of line 93, then the request of line 94, and
builds the grid from the two answers (lines 96-128). -/
def calculateAvailableSlotsM (clock : Clock) (sess : Session) : StoreM (Session × List Toast) :=
  fun store =>
    let cleared : Session :=
      { sess with
        availableSlots := []
        formData := { sess.formData with startTime := "", selectedLanes := [] } }
    let slots := candidateSlots clock sess.formData.bookingDate sess.formData.duration
    if slots.length = 0 then ((cleared, []), store)
    else
      let bookings := selectBookingsRequest sess.formData.bookingDate store
      let holds := selectHoldsRequest sess.formData.bookingDate clock.nowMs bookings.2
      match fillBusyMap (bookings.1 ++ holds.1) with
      | none => ((cleared, [⟨"Error checking availability", pushOnUndefined⟩]), holds.2)
      | some busyMap =>
        (({ cleared with
            availableSlots :=
              validSlots busyMap sess.formData.duration sess.formData.laneCount slots }, []),
          holds.2)

/-- The handler `handleHoldAndContinue` (lines 146-187) with the store passed
from request to request: the insert of line 173, and on a failure the requests
of the grid query that the `catch` of line 183 runs. -/
def handleHoldAndContinueM (backend : Backend) (clock : Clock) (uuid : String)
    (sess : Session) : StoreM (Session × List Toast) :=
  fun store =>
    if sess.formData.startTime = "" then ((sess, [⟨"Select a time", ""⟩]), store)
    else
      match sess.availableSlots.find? (fun s => decide (s.timeLabel = sess.formData.startTime)) with
      | none =>
        let refreshed := calculateAvailableSlotsM clock sess store
        ((refreshed.1.1,
          ⟨"Hold Failed", "Selected time is no longer available."⟩ :: refreshed.1.2), refreshed.2)
      | some slot =>
        let inserted :=
          insertHoldsRequest backend (holdRecords clock uuid sess.formData slot.lanes) store
        match inserted.1 with
        | some _ =>
          let refreshed := calculateAvailableSlotsM clock sess inserted.2
          ((refreshed.1.1,
            ⟨"Hold Failed", "Conflict detected. Please refresh."⟩ :: refreshed.1.2), refreshed.2)
        | none =>
          (({ sess with
              holdToken := some uuid
              holdExpiry := some (clock.nowMs + HOLD_DURATION_MINUTES * 60000)
              formData := { sess.formData with selectedLanes := slot.lanes }
              currentStep := 2 }, []), inserted.2)

/-! ## A store that refuses a repeated time window -/

/-- Modelled from the spec: the store refuses an insert of holds when one of
its rows has the lane, the date and the time window of a stored hold, the
window not being empty (section 4.2, step 5: "a uniqueness constraint on
(resourceId, date, overlapping-range) enforced at commit", of which this is
the case of identical windows).  The schema of the store is not part of the
sources.  A store with that constraint is such a store, and so is one with a
unique key on lane, date and start time (`keyedTables`); `plainTables` is
not. -/
def RefusesRepeatedHold (backend : Backend) : Prop :=
  ∀ (store : Store) (rows : List HoldRow),
    (∃ r ∈ rows, ∃ h ∈ store.holds,
      h.lane_number = r.lane_number ∧ h.booking_date = r.booking_date ∧
        h.start_time = r.start_time ∧ h.end_time = r.end_time ∧
        ∃ a b, parseHM r.start_time = some a ∧ parseHM r.end_time = some b ∧ a < b) →
    backend.insertHolds store rows ≠ none

/-- Modelled from the spec: the store refuses an insert of bookings when one
of its rows has the lane, the date and the time window of a stored booking
that is not cancelled, the window not being empty (section 3: the active
intervals of a resource never contain "two conflicting members"; section 4.3:
a commit is "idempotent under retry with the same token").  The
schema of the store is not part of the sources.  A store with a constraint on
overlapping windows is such a store, and so is one with a unique key on lane,
date and start time (`keyedTables`); `plainTables` is not. -/
def RefusesRepeatedBooking (backend : Backend) : Prop :=
  ∀ (store : Store) (rows : List BookingRow),
    (∃ r ∈ rows, ∃ b ∈ store.bookings,
      b.booking_status ≠ "cancelled" ∧ b.lane_number = r.lane_number ∧
        b.booking_date = r.booking_date ∧ b.start_time = r.start_time ∧
        b.end_time = r.end_time ∧
        ∃ s e, parseHM r.start_time = some s ∧ parseHM r.end_time = some e ∧ s < e) →
    backend.insertBookings store rows ≠ none

/-! ## The grid over JavaScript numbers

The grid of lines 96-126 once more, with the entries of `busyMap` as
JavaScript numbers and the reading of a stored time string as a parameter
`read`: the value of `h * 60 + m` that lines 100-102 compute from the string
with `split(':')`, `Number` on each piece and double arithmetic.  A statement
proved for every `read` holds for the reading of the page, whatever strings
the store holds. -/

/-- A JavaScript number by its exact value: `NaN`, an infinity, or the
rational `± mantissa * 2 ^ exponent`.  Every finite double is such a value;
`-0` is the one with `negative` set and mantissa `0`. -/
inductive JsNumber where
  | nan
  | infinity (negative : Bool)
  | finite (negative : Bool) (mantissa : Nat) (exponent : Int)
  deriving DecidableEq, Repr

/-- The number of a non-negative integer `n`, exactly (a double when `n` is
below `2 ^ 53`). -/
def JsNumber.ofNat (n : Nat) : JsNumber := .finite false n 0

/-- The comparison `x > n` (or `n < x`) with a non-negative integer `n`; a
comparison with `NaN` is false. -/
def JsNumber.gtNat : JsNumber → Nat → Bool
  | .nan, _ => false
  | .infinity negative, _ => !negative
  | .finite true _ _, _ => false
  | .finite false m (Int.ofNat k), n => decide (n < m * 2 ^ k)
  | .finite false m (Int.negSucc k), n => decide (n * 2 ^ (k + 1) < m)

/-- The comparison `x < n` (or `n > x`) with a non-negative integer `n`; a
comparison with `NaN` is false, and `-0 < 0` is false. -/
def JsNumber.ltNat : JsNumber → Nat → Bool
  | .nan, _ => false
  | .infinity negative, _ => negative
  | .finite true m _, n => decide (0 < m) || decide (0 < n)
  | .finite false m (Int.ofNat k), n => decide (m * 2 ^ k < n)
  | .finite false m (Int.negSucc k), n => decide (m < n * 2 ^ (k + 1))

/-- An entry of `busyMap`, `{ start, end }`, as JavaScript numbers. -/
structure JsRange where
  start : JsNumber
  stop : JsNumber
  deriving DecidableEq, Repr

/-- The object `busyMap` with entries of JavaScript numbers. -/
abbrev JsBusyMap := Nat → Option (List JsRange)

/-- Lines 96-97: an empty list under each key `1 .. TOTAL_LANES`. -/
def emptyBusyMapJs : JsBusyMap :=
  fun lane => if 1 ≤ lane ∧ lane ≤ TOTAL_LANES then some [] else none

/-- Lines 99-103: push `{ start: read(start_time), end: read(end_time) }`
under the item's lane.  Pushing onto `undefined` throws, which is `none`. -/
def addToMapJs (read : String → JsNumber) (busyMap : JsBusyMap) (item : Item) :
    Option JsBusyMap :=
  match busyMap item.lane_number with
  | none => none
  | some ranges =>
    some (fun lane =>
      if lane = item.lane_number then
        some (ranges ++ [⟨read item.start_time, read item.end_time⟩])
      else busyMap lane)

/-- Lines 105-106: `forEach(addToMap)` over the bookings, then the holds. -/
def fillBusyMapJs (read : String → JsNumber) (items : List Item) : Option JsBusyMap :=
  items.foldlM (addToMapJs read) emptyBusyMapJs

/-- The test of line 113, `slotStart < range.end && slotEnd > range.start`. -/
def rangeHitsJs (slotStart slotEnd : Nat) (range : JsRange) : Bool :=
  range.stop.gtNat slotStart && range.start.ltNat slotEnd

/-- Line 113: `busyMap[lane].some(...)`. -/
def isBusyJs (busyMap : JsBusyMap) (slotStart slotEnd lane : Nat) : Bool :=
  match busyMap lane with
  | some ranges => ranges.any (rangeHitsJs slotStart slotEnd)
  | none => false

/-- Lines 110-115: the lanes `1 .. TOTAL_LANES`, in order, that are not
busy over the slot. -/
def freeLanesJs (busyMap : JsBusyMap) (slotStart slotEnd : Nat) : List Nat :=
  (List.range' 1 TOTAL_LANES).filter (fun lane => !isBusyJs busyMap slotStart slotEnd lane)

/-- The callback of lines 108-125: the slot for a start, or `null`. -/
def slotForJs (busyMap : JsBusyMap) (duration laneCount slotStart : Nat) : Option Slot :=
  let slotEnd := slotStart + duration
  let free := freeLanesJs busyMap slotStart slotEnd
  if laneCount ≤ free.length then
    some ⟨timeLabel slotStart, free.take laneCount⟩
  else none

/-- Lines 108-126: `slots.map(...).filter(Boolean)`. -/
def validSlotsJs (busyMap : JsBusyMap) (duration laneCount : Nat) (slots : List Nat) :
    List Slot :=
  slots.filterMap (slotForJs busyMap duration laneCount)

/-- The grid of lines 72-128, or `none` when the body throws.  With no
candidate start the function returns early and the grid stays empty. -/
def computeGridJs (read : String → JsNumber) (clock : Clock) (store : Store)
    (bookingDate : String) (duration laneCount : Nat) : Option (List Slot) :=
  let slots := candidateSlots clock bookingDate duration
  if slots.length = 0 then some []
  else
    match fillBusyMapJs read (selectBookings store bookingDate ++
        selectHolds store bookingDate clock.nowMs) with
    | none => none
    | some busyMap => some (validSlotsJs busyMap duration laneCount slots)

/-- The function `calculateAvailableSlots` (lines 67-135) over JavaScript
numbers, for a reading `read` of the stored time strings. -/
def calculateAvailableSlotsJs (read : String → JsNumber) (clock : Clock) (store : Store)
    (sess : Session) : Session × List Toast :=
  let cleared : Session :=
    { sess with
      availableSlots := []
      formData := { sess.formData with startTime := "", selectedLanes := [] } }
  match computeGridJs read clock store sess.formData.bookingDate sess.formData.duration
      sess.formData.laneCount with
  | some grid => ({ cleared with availableSlots := grid }, [])
  | none => (cleared, [⟨"Error checking availability", pushOnUndefined⟩])

/-- An active row as an interval: its lane, its date, and the numbers read
from its two time strings. -/
structure JsInterval where
  lane : Nat
  date : String
  start : JsNumber
  stop : JsNumber
  deriving DecidableEq, Repr

/-- The active intervals at `nowMs` under a reading: the bookings whose status
is not `cancelled`, then the holds with `expires_at` after `nowMs`. -/
def activeIntervalsJs (read : String → JsNumber) (store : Store) (nowMs : Nat) :
    List JsInterval :=
  (store.bookings.filter (fun b => decide (b.booking_status ≠ "cancelled"))).map
      (fun b => ⟨b.lane_number, b.booking_date, read b.start_time, read b.end_time⟩) ++
  (store.holds.filter (fun h => decide (nowMs < h.expires_at))).map
      (fun h => ⟨h.lane_number, h.booking_date, read h.start_time, read h.end_time⟩)

/-- Half-open overlap of an interval `[a, b)` with the window `[s, e)`:
`s < b` and `a < e`. -/
def JsInterval.overlaps (iv : JsInterval) (s e : Nat) : Prop :=
  iv.stop.gtNat s = true ∧ iv.start.ltNat e = true

/-- The lane has no active interval on the date that overlaps `[s, e)`. -/
def LaneFreeJs (read : String → JsNumber) (store : Store) (nowMs : Nat) (date : String)
    (lane s e : Nat) : Prop :=
  ∀ iv ∈ activeIntervalsJs read store nowMs, iv.lane = lane → iv.date = date → ¬ iv.overlaps s e

instance JsInterval.decidableOverlaps (iv : JsInterval) (s e : Nat) :
    Decidable (iv.overlaps s e) :=
  inferInstanceAs (Decidable (iv.stop.gtNat s = true ∧ iv.start.ltNat e = true))

instance LaneFreeJs.decidable (read : String → JsNumber) (store : Store) (nowMs : Nat)
    (date : String) (lane s e : Nat) : Decidable (LaneFreeJs read store nowMs date lane s e) :=
  inferInstanceAs (Decidable (∀ iv ∈ activeIntervalsJs read store nowMs,
    iv.lane = lane → iv.date = date → ¬ iv.overlaps s e))

/-- The reading of the strings that `parseHM` covers: the minutes it reads,
and `NaN` where it reads none. -/
def readMinutes (s : String) : JsNumber :=
  match parseHM s with
  | some mins => JsNumber.ofNat mins
  | none => JsNumber.nan

/-- Drop the blanks at the start of a piece. -/
def dropBlanks : List Char → List Char
  | [] => []
  | c :: cs => if c = ' ' then dropBlanks cs else c :: cs

/-- Drop the blanks at both ends of a piece, as `Number` does before it reads
the digits. -/
def trimBlanks (s : List Char) : List Char := (dropBlanks (dropBlanks s).reverse).reverse

/-- A reading that takes pieces of decimal digits with blanks around them, as
`Number` does: `"18:00  "` reads as 1080. -/
def readPadded (s : String) : JsNumber :=
  match splitColon s.data with
  | h :: m :: _ =>
    match jsNumber (trimBlanks h), jsNumber (trimBlanks m) with
    | some hh, some mm => JsNumber.ofNat (hh * 60 + mm)
    | _, _ => JsNumber.nan
  | _ => JsNumber.nan

/-- The sample day with the times of the booking of lane 3 padded with blanks,
as a column of fixed width returns them. -/
def storeWithPaddedRow : Store :=
  ⟨[{ sampleBooking with start_time := "18:00   ", end_time := "19:00   " }], []⟩

/-- A range of `busyMap` as JavaScript numbers. -/
def Range.toJs (r : Range) : JsRange :=
  ⟨match r.start with
   | some n => JsNumber.ofNat n
   | none => JsNumber.nan,
   match r.stop with
   | some n => JsNumber.ofNat n
   | none => JsNumber.nan⟩

/-- A busy map with its entries as JavaScript numbers. -/
def BusyMap.toJs (m : BusyMap) : JsBusyMap := fun lane => (m lane).map (List.map Range.toJs)

/-! ## The price (`calculateTotal`, lines 137-144, and line 212)

Prices are computed in doubles.  A product or a quotient of two doubles is
the exact product or quotient rounded to the nearest double, ties to the even
mantissa. -/

/-- The fraction `num / den` divided by `2 ^ e`, as a fraction. -/
def scaleByPow2 (num den : Nat) : Int → Nat × Nat
  | Int.ofNat k => (num, den * 2 ^ k)
  | Int.negSucc k => (num * 2 ^ (k + 1), den)

/-- The number of binary digits of `n`, counted by halving; `fuel` bounds the
number of halvings. -/
def bitLengthFuel : Nat → Nat → Nat
  | 0, _ => 0
  | fuel + 1, n => if n = 0 then 0 else bitLengthFuel fuel (n / 2) + 1

/-- The number of binary digits of `n`: `n` halvings are enough. -/
def bitLength (n : Nat) : Nat := bitLengthFuel n n

/-- The integer part of the binary logarithm of `num / den`, for `num` and
`den` positive: the difference of the bit lengths, or one less when
`num / den` is below that power of two. -/
def floorLog2 (num den : Nat) : Int :=
  let l : Int := (bitLength num : Int) - (bitLength den : Int)
  if (scaleByPow2 num den l).1 < (scaleByPow2 num den l).2 then l - 1 else l

/-- The fraction `num / den` rounded to the nearest integer, ties to the even
one. -/
def roundHalfEven (num den : Nat) : Nat :=
  let q := num / den
  let r := num % den
  if 2 * r < den then q
  else if den < 2 * r then q + 1
  else if q % 2 = 0 then q
  else q + 1

/-- The double nearest to `± num / den`, ties to the even mantissa: the
mantissa has 53 bits, the exponent of its last bit is at least `-1074`
(below, the doubles are subnormal), and a result of `2 ^ 1024` or more is an
infinity. -/
def roundDouble (negative : Bool) (num den : Nat) : JsNumber :=
  if num = 0 ∨ den = 0 then .finite negative 0 0
  else
    let e : Int := max (floorLog2 num den - 52) (-1074)
    let m := roundHalfEven (scaleByPow2 num den e).1 (scaleByPow2 num den e).2
    if 971 < e ∨ (e = 971 ∧ m = 2 ^ 53) then .infinity negative
    else .finite negative m e

/-- The exact value `mantissa * 2 ^ exponent` as a fraction. -/
def dyadicFraction (mantissa : Nat) : Int → Nat × Nat
  | Int.ofNat k => (mantissa * 2 ^ k, 1)
  | Int.negSucc k => (mantissa, 2 ^ (k + 1))

/-- The product `x * y` of two doubles. -/
def JsNumber.mul : JsNumber → JsNumber → JsNumber
  | .nan, _ => .nan
  | _, .nan => .nan
  | .infinity s, .infinity t => .infinity (s != t)
  | .infinity s, .finite t n _ => if n = 0 then .nan else .infinity (s != t)
  | .finite s m _, .infinity t => if m = 0 then .nan else .infinity (s != t)
  | .finite s m e, .finite t n f =>
    roundDouble (s != t) ((dyadicFraction m e).1 * (dyadicFraction n f).1)
      ((dyadicFraction m e).2 * (dyadicFraction n f).2)

/-- The quotient `x / y` of two doubles. -/
def JsNumber.div : JsNumber → JsNumber → JsNumber
  | .nan, _ => .nan
  | _, .nan => .nan
  | .infinity _, .infinity _ => .nan
  | .infinity s, .finite t _ _ => .infinity (s != t)
  | .finite s _ _, .infinity t => .finite (s != t) 0 0
  | .finite s m e, .finite t n f =>
    if n = 0 then
      if m = 0 then .nan else .infinity (s != t)
    else
      roundDouble (s != t) ((dyadicFraction m e).1 * (dyadicFraction n f).2)
        ((dyadicFraction m e).2 * (dyadicFraction n f).1)

/-- The string `x.toFixed(2)` by what it denotes: a decimal with two digits
after the point, `± cents / 100`, or, for `NaN`, an infinity and a number of
`10 ^ 21` or more, the string of the number itself. -/
inductive Fixed2 where
  | decimal (negative : Bool) (cents : Nat)
  | plain (x : JsNumber)
  deriving DecidableEq, Repr

/-- The method `x.toFixed(2)`: below `10 ^ 21` the integer `n` for which
`n / 100` is nearest to the exact value of `|x|`, the larger one of two, with
the sign of `x` when `x < 0`. -/
def JsNumber.toFixed2 : JsNumber → Fixed2
  | .nan => .plain .nan
  | .infinity s => .plain (.infinity s)
  | .finite s m (Int.ofNat k) =>
    if 10 ^ 21 ≤ m * 2 ^ k then .plain (.finite s m (Int.ofNat k))
    else .decimal (s && decide (m ≠ 0)) (m * 2 ^ k * 100)
  | .finite s m (Int.negSucc k) =>
    if 10 ^ 21 * 2 ^ (k + 1) ≤ m then .plain (.finite s m (Int.negSucc k))
    else .decimal (s && decide (m ≠ 0)) ((m * 100 * 2 + 2 ^ (k + 1)) / 2 ^ (k + 2))

/-- The function `parseFloat` on a string that `toFixed(2)` returned: the
double nearest to the decimal, or the number whose string it is. -/
def parseFloat : Fixed2 → JsNumber
  | .decimal s cents => roundDouble s cents 100
  | .plain x => x

/-- The function `parseInt` on the decimal digits of `n`: the double nearest
to `n`, which is `n` itself below `2 ^ 53`. -/
def parseInt (n : Nat) : JsNumber := roundDouble false n 1

/-- The function `calculateTotal` (lines 137-144).  `getDay` is the calendar
of the browser, `new Date(date).getDay()`, with `none` for `NaN`. -/
def calculateTotal (getDay : String → Option Nat) (form : FormData) : Fixed2 :=
  if form.bookingDate = "" then .decimal false 0
  else
    let d := getDay form.bookingDate
    let isWeekend := decide (d = some 5) || decide (d = some 6)
    let pricePerHour := if isWeekend then JsNumber.ofNat 18 else JsNumber.ofNat 15
    let durationHours := (parseInt form.duration).div (JsNumber.ofNat 60)
    let lanes := if form.laneCount = 0 then JsNumber.ofNat 1 else parseInt form.laneCount
    ((pricePerHour.mul durationHours).mul lanes).toFixed2

/-- The `total_price` of each row of `bookingsToInsert` (line 212), one per
lane of `selectedLanes`: `totalPrice` is the string `calculateTotal` returned
(line 199). -/
def totalPricePerLane (getDay : String → Option Nat) (form : FormData) : List Fixed2 :=
  form.selectedLanes.map (fun _ =>
    ((parseFloat (calculateTotal getDay form)).div
      (JsNumber.ofNat form.selectedLanes.length)).toFixed2)

/-- The form of a booking of the lanes `1 .. n` on 1 June 2024 for `duration`
minutes, `n` lanes asked for. -/
def lanesFor (n duration : Nat) : FormData where
  bookingDate := "2024-06-01"
  startTime := "13:00"
  duration := duration
  laneCount := n
  selectedLanes := List.range' 1 n
  customerName := "Ada"
  customerEmail := "ada@example.org"
  customerPhone := "555"

/-- The split of the price is exact on a form: the estimated total and the
per-lane prices are decimals, and the per-lane prices sum to the total. -/
def splitsExactly (getDay : String → Option Nat) (form : FormData) : Bool :=
  match calculateTotal getDay form with
  | .decimal false total =>
    (totalPricePerLane getDay form).all (fun p =>
      match p with
      | .decimal false _ => true
      | _ => false) &&
    decide (((totalPricePerLane getDay form).map (fun p =>
      match p with
      | .decimal false cents => cents
      | _ => 0)).sum = total)
  | _ => false

/-! ## Lemmas on the candidate starts -/

theorem numStarts_step (duration endLimit cur : Nat) (h : cur + duration ≤ endLimit) :
    numStarts duration endLimit cur = numStarts duration endLimit (cur + 15) + 1 := by
  unfold numStarts
  rw [if_pos h]
  split
  · omega
  · have : (endLimit - duration - cur) / 15 = 0 := by
      apply Nat.div_eq_of_lt
      omega
    omega

theorem numStarts_le (duration endLimit cur : Nat) :
    numStarts duration endLimit cur ≤ endLimit + 1 := by
  unfold numStarts
  split
  · have : (endLimit - duration - cur) / 15 ≤ endLimit - duration - cur := Nat.div_le_self _ _
    omega
  · omega

/-- With enough fuel the loop appends, in ascending order, the starts
`cur + 15 k` that fit before `endLimit` and pass the lead-time test. -/
theorem slotLoop_eq (isToday : Bool) (nowMinutes duration endLimit : Nat) :
    ∀ (fuel cur : Nat) (acc : List Nat), numStarts duration endLimit cur ≤ fuel →
      slotLoop isToday nowMinutes duration endLimit fuel cur acc =
        acc ++ ((List.range (numStarts duration endLimit cur)).map (fun k => cur + 15 * k)).filter
          (fun t => !isToday || decide (nowMinutes + 15 < t)) := by
  intro fuel
  induction fuel with
  | zero =>
    intro cur acc h
    have h0 : numStarts duration endLimit cur = 0 := by omega
    simp [slotLoop, h0]
  | succ fuel ih =>
    intro cur acc h
    unfold slotLoop
    by_cases hc : cur + duration ≤ endLimit
    · rw [if_pos hc]
      have hs := numStarts_step duration endLimit cur hc
      rw [ih (cur + 15) _ (by omega), hs, List.range_succ_eq_map, List.map_cons, List.map_map]
      have hfun : ((fun k => cur + 15 * k) ∘ Nat.succ) = (fun k => cur + 15 + 15 * k) := by
        funext k
        simp only [Function.comp, Nat.succ_eq_add_one]
        omega
      rw [hfun]
      by_cases hk : (!isToday || decide (nowMinutes + 15 < cur)) = true
      · rw [if_pos hk]
        simp only [Nat.mul_zero, Nat.add_zero, List.filter_cons, hk, if_true,
          List.append_assoc, List.singleton_append]
      · rw [if_neg hk]
        simp only [Nat.mul_zero, Nat.add_zero, List.filter_cons, hk, Bool.false_eq_true, if_false]
    · rw [if_neg hc]
      have h0 : numStarts duration endLimit cur = 0 := by
        unfold numStarts
        rw [if_neg hc]
      simp [h0]

/-- The candidate starts are all starts that pass the lead-time test. -/
theorem candidateSlots_eq (clock : Clock) (bookingDate : String) (duration : Nat) :
    candidateSlots clock bookingDate duration =
      (allStarts duration).filter (fun t =>
        !decide (bookingDate = clock.isoDate) ||
          decide (clock.hours * 60 + clock.minutes + 15 < t)) := by
  unfold candidateSlots allStarts
  simp only []
  rw [slotLoop_eq _ _ _ _ _ _ _ (numStarts_le _ _ _)]
  simp

/-! ## Lemmas on the busy map -/

/-- When every push succeeds, each key holds what it held before followed by
the ranges of the items of that lane, in order. -/
theorem foldlM_addToMap (items : List Item) :
    ∀ (m m' : BusyMap), items.foldlM addToMap m = some m' →
      ∀ lane, m' lane =
        (m lane).map (fun rs =>
          rs ++ (items.filter (fun it => decide (it.lane_number = lane))).map Item.range) := by
  induction items with
  | nil =>
    intro m m' h lane
    simp only [List.foldlM, pure, Option.some.injEq] at h
    subst h
    cases m lane <;> simp
  | cons item rest ih =>
    intro m m' h lane
    simp only [List.foldlM, bind, Option.bind] at h
    cases hstep : addToMap m item with
    | none => simp [hstep] at h
    | some m1 =>
      rw [hstep] at h
      have hrest := ih m1 m' h lane
      rw [hrest]
      unfold addToMap at hstep
      cases hm : m item.lane_number with
      | none => simp [hm] at hstep
      | some ranges =>
        rw [hm] at hstep
        simp only [Option.some.injEq] at hstep
        subst hstep
        by_cases hl : lane = item.lane_number
        · subst hl
          simp [hm, Item.range]
        · have hl' : ¬ item.lane_number = lane := fun h => hl h.symm
          simp only [hl, if_false, List.filter_cons, hl', decide_False, Bool.false_eq_true]

/-- After a successful fill, the key of a lane `1 .. TOTAL_LANES` holds the
ranges of the items of that lane. -/
theorem fillBusyMap_lane (items : List Item) (busyMap : BusyMap)
    (h : fillBusyMap items = some busyMap) (lane : Nat)
    (h1 : 1 ≤ lane) (h8 : lane ≤ TOTAL_LANES) :
    busyMap lane =
      some ((items.filter (fun it => decide (it.lane_number = lane))).map Item.range) := by
  have := foldlM_addToMap items emptyBusyMap busyMap h lane
  rw [this]
  simp [emptyBusyMap, h1, h8]

/-- The test of line 113 is the half-open overlap of the range with the
slot. -/
theorem rangeHits_iff (s e : Nat) (r : Range) :
    rangeHits s e r = true ↔ ∃ a b, r.start = some a ∧ r.stop = some b ∧ s < b ∧ a < e := by
  obtain ⟨st, en⟩ := r
  cases st <;> cases en <;> simp [rangeHits, and_comm]

/-- The items the grid reads are the active intervals of the date. -/
theorem exists_item_iff (store : Store) (date : String) (nowMs lane : Nat) (p : Range → Prop) :
    (∃ it ∈ selectBookings store date ++ selectHolds store date nowMs,
        it.lane_number = lane ∧ p it.range) ↔
      ∃ iv ∈ activeIntervals store nowMs, iv.lane = lane ∧ iv.date = date ∧ p ⟨iv.start, iv.stop⟩ := by
  constructor
  · rintro ⟨it, hit, hlane, hp⟩
    rw [List.mem_append] at hit
    rcases hit with hit | hit
    · simp only [selectBookings, List.mem_map, List.mem_filter, Bool.and_eq_true,
        decide_eq_true_eq] at hit
      obtain ⟨b, ⟨hb, hd, hs⟩, rfl⟩ := hit
      refine ⟨⟨b.lane_number, b.booking_date, parseHM b.start_time, parseHM b.end_time⟩,
        ?_, hlane, hd, hp⟩
      simp only [activeIntervals, List.mem_append, List.mem_map, List.mem_filter,
        decide_eq_true_eq]
      exact Or.inl ⟨b, ⟨hb, hs⟩, rfl⟩
    · simp only [selectHolds, List.mem_map, List.mem_filter, Bool.and_eq_true,
        decide_eq_true_eq] at hit
      obtain ⟨h, ⟨hh, hd, hs⟩, rfl⟩ := hit
      refine ⟨⟨h.lane_number, h.booking_date, parseHM h.start_time, parseHM h.end_time⟩,
        ?_, hlane, hd, hp⟩
      simp only [activeIntervals, List.mem_append, List.mem_map, List.mem_filter,
        decide_eq_true_eq]
      exact Or.inr ⟨h, ⟨hh, hs⟩, rfl⟩
  · rintro ⟨iv, hiv, hlane, hdate, hp⟩
    simp only [activeIntervals, List.mem_append, List.mem_map, List.mem_filter,
      decide_eq_true_eq] at hiv
    rcases hiv with ⟨b, ⟨hb, hs⟩, rfl⟩ | ⟨h, ⟨hh, hs⟩, rfl⟩
    · refine ⟨⟨b.lane_number, b.start_time, b.end_time⟩, ?_, hlane, hp⟩
      rw [List.mem_append]
      left
      simp only [selectBookings, List.mem_map, List.mem_filter, Bool.and_eq_true,
        decide_eq_true_eq]
      exact ⟨b, ⟨hb, hdate, hs⟩, rfl⟩
    · refine ⟨⟨h.lane_number, h.start_time, h.end_time⟩, ?_, hlane, hp⟩
      rw [List.mem_append]
      right
      simp only [selectHolds, List.mem_map, List.mem_filter, Bool.and_eq_true,
        decide_eq_true_eq]
      exact ⟨h, ⟨hh, hdate, hs⟩, rfl⟩

/-- On a filled busy map, a lane `1 .. TOTAL_LANES` is not busy over a slot
exactly when it has no active interval of the date overlapping the slot. -/
theorem isBusy_eq_false_iff (store : Store) (date : String) (nowMs : Nat) (busyMap : BusyMap)
    (h : fillBusyMap (selectBookings store date ++ selectHolds store date nowMs) = some busyMap)
    (s e lane : Nat) (h1 : 1 ≤ lane) (h8 : lane ≤ TOTAL_LANES) :
    isBusy busyMap s e lane = false ↔ LaneFree store nowMs date lane s e := by
  rw [← Bool.not_eq_true, not_iff_comm]
  unfold isBusy
  rw [fillBusyMap_lane _ _ h lane h1 h8]
  simp only [List.any_eq_true, List.mem_map, List.mem_filter, decide_eq_true_eq]
  have key := exists_item_iff store date nowMs lane
    (fun r => ∃ a b, r.start = some a ∧ r.stop = some b ∧ s < b ∧ a < e)
  constructor
  · intro hfree
    have : ∃ iv ∈ activeIntervals store nowMs, iv.lane = lane ∧ iv.date = date ∧
        ∃ a b, iv.start = some a ∧ iv.stop = some b ∧ s < b ∧ a < e := by
      by_contra hcon
      apply hfree
      intro iv hiv hl hd hov
      exact hcon ⟨iv, hiv, hl, hd, hov⟩
    obtain ⟨it, hit, hl, hp⟩ := key.mpr this
    exact ⟨it.range, ⟨it, ⟨hit, hl⟩, rfl⟩, (rangeHits_iff s e it.range).mpr hp⟩
  · rintro ⟨r, ⟨it, ⟨hit, hl⟩, rfl⟩, hr⟩ hfree
    obtain ⟨iv, hiv, hl', hd, hov⟩ := key.mp ⟨it, hit, hl, (rangeHits_iff s e it.range).mp hr⟩
    exact hfree iv hiv hl' hd hov

/-- The free lanes of a slot, on a filled busy map: ascending, within
`1 .. TOTAL_LANES`, and exactly the lanes with no overlapping active
interval. -/
theorem mem_freeLanes_iff (store : Store) (date : String) (nowMs : Nat) (busyMap : BusyMap)
    (h : fillBusyMap (selectBookings store date ++ selectHolds store date nowMs) = some busyMap)
    (s e lane : Nat) :
    lane ∈ freeLanes busyMap s e ↔
      1 ≤ lane ∧ lane ≤ TOTAL_LANES ∧ LaneFree store nowMs date lane s e := by
  unfold freeLanes
  simp only [List.mem_filter, List.mem_range', Bool.not_eq_true']
  constructor
  · rintro ⟨⟨i, hi, rfl⟩, hb⟩
    have h1 : 1 ≤ 1 + 1 * i := by omega
    have h8 : 1 + 1 * i ≤ TOTAL_LANES := by omega
    exact ⟨h1, h8, (isBusy_eq_false_iff store date nowMs busyMap h s e _ h1 h8).mp hb⟩
  · rintro ⟨h1, h8, hf⟩
    refine ⟨⟨lane - 1, by omega, by omega⟩, ?_⟩
    exact (isBusy_eq_false_iff store date nowMs busyMap h s e _ h1 h8).mpr hf

theorem freeLanes_sorted (busyMap : BusyMap) (s e : Nat) :
    (freeLanes busyMap s e).Pairwise (· < ·) := by
  unfold freeLanes
  apply List.Pairwise.filter
  exact List.pairwise_lt_range' 1 TOTAL_LANES

/-- In an ascending list, an element left out of the first `n` is above each
of the first `n`. -/
theorem lt_of_mem_of_not_mem_take (xs : List Nat) (hs : xs.Pairwise (· < ·)) (n l : Nat)
    (hl : l ∈ xs) (hn : l ∉ xs.take n) : ∀ m ∈ xs.take n, m < l := by
  intro m hm
  rw [← List.take_append_drop n xs] at hs hl
  rw [List.mem_append] at hl
  rcases hl with hl | hl
  · exact absurd hl hn
  · exact (List.pairwise_append.mp hs).2.2 m hm l hl

/-- Every slot of the stored grid comes from a candidate start through the
callback of lines 108-125, on the busy map filled from the store. -/
theorem mem_availableSlots (clock : Clock) (store : Store) (sess : Session) (slot : Slot)
    (h : slot ∈ (calculateAvailableSlots clock store sess).1.availableSlots) :
    ∃ busyMap,
      fillBusyMap (selectBookings store sess.formData.bookingDate ++
        selectHolds store sess.formData.bookingDate clock.nowMs) = some busyMap ∧
      ∃ s ∈ candidateSlots clock sess.formData.bookingDate sess.formData.duration,
        slotFor busyMap sess.formData.duration sess.formData.laneCount s = some slot := by
  unfold calculateAvailableSlots at h
  cases hg : computeGrid clock store sess.formData.bookingDate sess.formData.duration
      sess.formData.laneCount with
  | none => simp [hg] at h
  | some grid =>
    simp only [hg] at h
    unfold computeGrid at hg
    simp only [] at hg
    split at hg
    · simp only [Option.some.injEq] at hg
      subst hg
      simp at h
    · cases hf : fillBusyMap (selectBookings store sess.formData.bookingDate ++
          selectHolds store sess.formData.bookingDate clock.nowMs) with
      | none => simp [hf] at hg
      | some busyMap =>
        simp only [hf, Option.some.injEq] at hg
        subst hg
        refine ⟨busyMap, rfl, ?_⟩
        simpa [validSlots, List.mem_filterMap] using h

/-- What the callback returns when it returns a slot. -/
theorem slotFor_eq_some (busyMap : BusyMap) (duration laneCount s : Nat) (slot : Slot)
    (h : slotFor busyMap duration laneCount s = some slot) :
    laneCount ≤ (freeLanes busyMap s (s + duration)).length ∧
      slot.timeLabel = timeLabel s ∧
      slot.lanes = (freeLanes busyMap s (s + duration)).take laneCount := by
  unfold slotFor at h
  simp only [] at h
  split at h
  · rename_i hle
    simp only [Option.some.injEq] at h
    subst h
    exact ⟨hle, rfl, rfl⟩
  · simp at h

/-! ## The grid: emitted slots -/

/-- C2. Every slot that `calculateAvailableSlots` emits is the label of a
candidate start `s` for which at least `laneCount` distinct lanes among
`1 .. 8` have no active interval of the date overlapping `[s, s + duration)`. -/
theorem calculateAvailableSlots_enough_free (clock : Clock) (store : Store) (sess : Session)
    (slot : Slot) (h : slot ∈ (calculateAvailableSlots clock store sess).1.availableSlots) :
    ∃ s ∈ candidateSlots clock sess.formData.bookingDate sess.formData.duration,
      slot.timeLabel = timeLabel s ∧
      ∃ free : List Nat, free.Nodup ∧ sess.formData.laneCount ≤ free.length ∧
        ∀ lane ∈ free, 1 ≤ lane ∧ lane ≤ TOTAL_LANES ∧
          LaneFree store clock.nowMs sess.formData.bookingDate lane s
            (s + sess.formData.duration) := by
  obtain ⟨busyMap, hfill, s, hs, hslot⟩ := mem_availableSlots clock store sess slot h
  obtain ⟨hle, hlabel, _⟩ := slotFor_eq_some _ _ _ _ _ hslot
  refine ⟨s, hs, hlabel, freeLanes busyMap s (s + sess.formData.duration), ?_, hle, ?_⟩
  · exact (freeLanes_sorted busyMap s _).imp (fun hlt => Nat.ne_of_lt hlt)
  · intro lane hlane
    exact (mem_freeLanes_iff store _ _ busyMap hfill s _ lane).mp hlane

/-- C2 at the 17:00 slot of the sample day, eight lanes asked for an hour. -/
theorem calculateAvailableSlots_enough_free_witness :
    ∃ s ∈ candidateSlots sampleClock "2024-06-01" 60,
      "17:00" = timeLabel s ∧
      ∃ free : List Nat, free.Nodup ∧ 8 ≤ free.length ∧
        ∀ lane ∈ free, 1 ≤ lane ∧ lane ≤ TOTAL_LANES ∧
          LaneFree sampleStore sampleClock.nowMs "2024-06-01" lane s (s + 60) :=
  calculateAvailableSlots_enough_free sampleClock sampleStore (askFor "2024-06-01" 60 8)
    ⟨"17:00", [1, 2, 3, 4, 5, 6, 7, 8]⟩ (by decide)

/-! ## The grid on a day with nothing booked -/

theorem mem_allStarts (duration t : Nat) :
    t ∈ allStarts duration ↔ ∃ k, t = 780 + 15 * k ∧ t + duration ≤ 1320 := by
  unfold allStarts numStarts
  simp only [OPEN_HOUR, CLOSE_HOUR, List.mem_map, List.mem_range]
  constructor
  · rintro ⟨k, hk, rfl⟩
    refine ⟨k, rfl, ?_⟩
    split at hk <;> omega
  · rintro ⟨k, rfl, hk⟩
    refine ⟨k, ?_, rfl⟩
    split <;> omega

theorem allStarts_sorted (duration : Nat) : (allStarts duration).Pairwise (· < ·) := by
  unfold allStarts
  rw [List.pairwise_map]
  exact (List.pairwise_lt_range _).imp (fun h => by omega)

/-- With no item read from the store, every lane is free over every slot. -/
theorem freeLanes_emptyBusyMap (s e : Nat) :
    freeLanes emptyBusyMap s e = List.range' 1 TOTAL_LANES := by
  unfold freeLanes
  rw [List.filter_eq_self]
  intro lane _
  unfold isBusy emptyBusyMap
  by_cases h : 1 ≤ lane ∧ lane ≤ TOTAL_LANES <;> simp [h]

theorem take_rangeFrom_eq (n : Nat) : ∀ (m s : Nat),
    (List.range' s m).take n = List.range' s (min n m) := by
  induction n with
  | zero => intro m s; simp
  | succ n ih =>
    intro m s
    cases m with
    | zero => simp
    | succ m => simp [List.range'_succ, ih, Nat.succ_min_succ]

/-- With no active interval, both queries of lines 93-94 return no row. -/
theorem select_nil_of_no_active (store : Store) (date : String) (nowMs : Nat)
    (h : activeIntervals store nowMs = []) :
    selectBookings store date ++ selectHolds store date nowMs = [] := by
  unfold activeIntervals at h
  rw [List.append_eq_nil] at h
  obtain ⟨hb, hh⟩ := h
  rw [List.map_eq_nil_iff, List.filter_eq_nil_iff] at hb hh
  unfold selectBookings selectHolds
  rw [List.append_eq_nil, List.map_eq_nil_iff, List.map_eq_nil_iff, List.filter_eq_nil_iff,
    List.filter_eq_nil_iff]
  constructor
  · intro b hmem hp
    rw [Bool.and_eq_true] at hp
    exact hb b hmem hp.2
  · intro r hmem hp
    rw [Bool.and_eq_true] at hp
    exact hh r hmem hp.2

/-- C4. With no active interval in the store, a date other than today and a
lane count of at most 8 (in particular from 1 to 8), `calculateAvailableSlots` emits one slot per start
`780 + 15 k` with `780 + 15 k + duration ≤ 1320` (from 13:00 to 22:00 less the
duration, every 15 minutes), in ascending order and each once, and nothing
else; each slot lists lanes `1 .. laneCount`. -/
theorem calculateAvailableSlots_empty_day (clock : Clock) (store : Store) (sess : Session)
    (hactive : activeIntervals store clock.nowMs = [])
    (hdate : sess.formData.bookingDate ≠ clock.isoDate)
    (h8 : sess.formData.laneCount ≤ 8) :
    ∃ starts : List Nat,
      (calculateAvailableSlots clock store sess).1.availableSlots =
        starts.map (fun t => ⟨timeLabel t, List.range' 1 sess.formData.laneCount⟩) ∧
      starts.Pairwise (· < ·) ∧
      ∀ t, t ∈ starts ↔ ∃ k, t = 780 + 15 * k ∧ t + sess.formData.duration ≤ 1320 := by
  refine ⟨allStarts sess.formData.duration, ?_, allStarts_sorted _, mem_allStarts _⟩
  have hcand : candidateSlots clock sess.formData.bookingDate sess.formData.duration =
      allStarts sess.formData.duration := by
    rw [candidateSlots_eq]
    simp [hdate]
  have hslot : ∀ t, slotFor emptyBusyMap sess.formData.duration sess.formData.laneCount t =
      some ⟨timeLabel t, List.range' 1 sess.formData.laneCount⟩ := by
    intro t
    unfold slotFor
    simp only [freeLanes_emptyBusyMap, List.length_range', TOTAL_LANES, h8, if_true]
    rw [take_rangeFrom_eq, Nat.min_eq_left h8]
  have hvalid : ∀ ts : List Nat,
      validSlots emptyBusyMap sess.formData.duration sess.formData.laneCount ts =
        ts.map (fun t => ⟨timeLabel t, List.range' 1 sess.formData.laneCount⟩) := by
    intro ts
    induction ts with
    | nil => rfl
    | cons t ts ih =>
      unfold validSlots at ih ⊢
      rw [List.filterMap_cons, hslot t, ih, List.map_cons]
  have hgrid : computeGrid clock store sess.formData.bookingDate sess.formData.duration
      sess.formData.laneCount =
      some ((allStarts sess.formData.duration).map
        (fun t => ⟨timeLabel t, List.range' 1 sess.formData.laneCount⟩)) := by
    unfold computeGrid
    simp only [hcand, select_nil_of_no_active store _ _ hactive]
    by_cases hlen : (allStarts sess.formData.duration).length = 0
    · rw [if_pos hlen]
      rw [List.length_eq_zero] at hlen
      rw [hlen, List.map_nil]
    · rw [if_neg hlen]
      simp only [fillBusyMap, List.foldlM, pure, hvalid]
  unfold calculateAvailableSlots
  simp only [hgrid]

/-- C4 on the sample day with an empty store, one lane for two hours: the
hypotheses hold and the grid is what the theorem says. -/
theorem calculateAvailableSlots_empty_day_witness :
    ∃ starts : List Nat,
      (calculateAvailableSlots sampleClock Store.empty (askFor "2024-06-01" 120 1)).1.availableSlots =
        starts.map (fun t => ⟨timeLabel t, List.range' 1 1⟩) ∧
      starts.Pairwise (· < ·) ∧
      ∀ t, t ∈ starts ↔ ∃ k, t = 780 + 15 * k ∧ t + 120 ≤ 1320 :=
  calculateAvailableSlots_empty_day sampleClock Store.empty (askFor "2024-06-01" 120 1)
    (by decide) (by decide) (by decide)

/-! ## The grid around one booking -/

/-- The grid for a date other than today is computed from all starts and the
items read from the store. -/
theorem availableSlots_other_day (clock : Clock) (store : Store) (sess : Session)
    (hdate : sess.formData.bookingDate ≠ clock.isoDate) (items : List Item)
    (hitems : selectBookings store sess.formData.bookingDate ++
      selectHolds store sess.formData.bookingDate clock.nowMs = items) :
    (calculateAvailableSlots clock store sess).1.availableSlots =
      if (allStarts sess.formData.duration).length = 0 then []
      else
        match fillBusyMap items with
        | none => []
        | some busyMap =>
          validSlots busyMap sess.formData.duration sess.formData.laneCount
            (allStarts sess.formData.duration) := by
  have hcand : candidateSlots clock sess.formData.bookingDate sess.formData.duration =
      allStarts sess.formData.duration := by
    rw [candidateSlots_eq]
    simp [hdate]
  unfold calculateAvailableSlots computeGrid
  simp only [hcand, hitems]
  by_cases hlen : (allStarts sess.formData.duration).length = 0
  · simp only [hlen, if_true]
  · simp only [hlen, if_false]
    cases fillBusyMap items <;> rfl

/-- C5. With a single reservation, on lane 3 from 18:00 to 19:00, on a date
that is not today, the grid for that date with duration 60 and 8 lanes has no
18:00 slot and has the 17:00 and the 19:00 slots. -/
theorem calculateAvailableSlots_around_booking (clock : Clock) (sess : Session)
    (booking : BookingRow)
    (hduration : sess.formData.duration = 60) (hcount : sess.formData.laneCount = 8)
    (htoday : sess.formData.bookingDate ≠ clock.isoDate)
    (hlane : booking.lane_number = 3)
    (hstart : booking.start_time = "18:00") (hend : booking.end_time = "19:00")
    (hdate : booking.booking_date = sess.formData.bookingDate)
    (hstatus : booking.booking_status ≠ "cancelled") :
    "18:00" ∉ ((calculateAvailableSlots clock ⟨[booking], []⟩ sess).1.availableSlots).map
        Slot.timeLabel ∧
    "17:00" ∈ ((calculateAvailableSlots clock ⟨[booking], []⟩ sess).1.availableSlots).map
        Slot.timeLabel ∧
    "19:00" ∈ ((calculateAvailableSlots clock ⟨[booking], []⟩ sess).1.availableSlots).map
        Slot.timeLabel := by
  have hitems : selectBookings ⟨[booking], []⟩ sess.formData.bookingDate ++
      selectHolds ⟨[booking], []⟩ sess.formData.bookingDate clock.nowMs =
      [⟨3, "18:00", "19:00"⟩] := by
    simp [selectBookings, selectHolds, hdate, hstatus, hlane, hstart, hend]
  rw [availableSlots_other_day clock _ sess htoday _ hitems, hduration, hcount]
  decide

/-- C5 on the sample day: the hypotheses hold for `sampleBooking`. -/
theorem calculateAvailableSlots_around_booking_witness :
    "18:00" ∉ ((calculateAvailableSlots sampleClock ⟨[sampleBooking], []⟩
        (askFor "2024-06-01" 60 8)).1.availableSlots).map Slot.timeLabel ∧
    "17:00" ∈ ((calculateAvailableSlots sampleClock ⟨[sampleBooking], []⟩
        (askFor "2024-06-01" 60 8)).1.availableSlots).map Slot.timeLabel ∧
    "19:00" ∈ ((calculateAvailableSlots sampleClock ⟨[sampleBooking], []⟩
        (askFor "2024-06-01" 60 8)).1.availableSlots).map Slot.timeLabel :=
  calculateAvailableSlots_around_booking sampleClock (askFor "2024-06-01" 60 8) sampleBooking
    rfl rfl (by decide) rfl rfl rfl rfl (by decide)

/-! ## Time labels read back -/

theorem digitVal_digitChar (d : Nat) (h : d < 10) : digitVal (digitChar d) = some d := by
  interval_cases d <;> rfl

theorem digitsValue_append (xs ys : List Char) :
    ∀ a, digitsValue (xs ++ ys) a = (digitsValue xs a).bind (digitsValue ys) := by
  induction xs with
  | nil => intro a; rfl
  | cons c cs ih =>
    intro a
    simp only [List.cons_append, digitsValue]
    cases digitVal c with
    | none => rfl
    | some d => exact ih _

theorem toDigitsFuel_append (fuel : Nat) :
    ∀ (n : Nat) (acc : List Char), toDigitsFuel fuel n acc = toDigitsFuel fuel n [] ++ acc := by
  induction fuel with
  | zero => intro n acc; rfl
  | succ fuel ih =>
    intro n acc
    unfold toDigitsFuel
    split
    · rfl
    · rw [ih (n / 10) (digitChar (n % 10) :: acc), ih (n / 10) [digitChar (n % 10)]]
      simp

/-- Reading the digits of `n.toString()` gives `n` back. -/
theorem digitsValue_toDigitsFuel (fuel : Nat) :
    ∀ n, n < fuel → digitsValue (toDigitsFuel fuel n []) 0 = some n := by
  induction fuel with
  | zero => intro n h; omega
  | succ fuel ih =>
    intro n h
    unfold toDigitsFuel
    split
    · rename_i h10
      simp [digitsValue, digitVal_digitChar n h10]
    · rename_i h10
      rw [toDigitsFuel_append, digitsValue_append, ih (n / 10) (by omega)]
      simp only [Option.bind, digitsValue, digitVal_digitChar (n % 10) (Nat.mod_lt n (by omega))]
      congr 1
      omega

theorem jsNumber_padStart2_natToString (n : Nat) :
    jsNumber (padStart2 (natToString n)) = some n := by
  unfold jsNumber padStart2
  rw [digitsValue_append]
  have hzeros : ∀ k, digitsValue (List.replicate k '0') 0 = some 0 := by
    intro k
    induction k with
    | zero => rfl
    | succ k ih =>
      rw [List.replicate_succ]
      unfold digitsValue
      have : digitVal '0' = some 0 := rfl
      rw [this]
      exact ih
  rw [hzeros]
  exact digitsValue_toDigitsFuel (n + 1) n (by omega)

/-- A string that reads as a number has no colon. -/
theorem no_colon_of_digitsValue (xs : List Char) :
    ∀ a v, digitsValue xs a = some v → ':' ∉ xs := by
  induction xs with
  | nil => intro a v _; simp
  | cons c cs ih =>
    intro a v h
    unfold digitsValue at h
    cases hc : digitVal c with
    | none => simp [hc] at h
    | some d =>
      rw [hc] at h
      have hcs := ih _ _ h
      have hne : c ≠ ':' := by
        rintro rfl
        have : digitVal ':' = none := rfl
        rw [this] at hc
        exact absurd hc (by simp)
      simp only [List.mem_cons, not_or]
      exact ⟨fun h => hne h.symm, hcs⟩

theorem splitColon_of_no_colon (xs : List Char) (h : ':' ∉ xs) : splitColon xs = [xs] := by
  induction xs with
  | nil => rfl
  | cons c cs ih =>
    simp only [List.mem_cons, not_or] at h
    unfold splitColon
    rw [if_neg (fun hc => h.1 hc.symm), ih h.2]

theorem splitColon_append_colon (xs ys : List Char) (h : ':' ∉ xs) :
    splitColon (xs ++ ':' :: ys) = xs :: splitColon ys := by
  induction xs with
  | nil => simp [splitColon]
  | cons c cs ih =>
    simp only [List.mem_cons, not_or] at h
    rw [List.cons_append, splitColon, if_neg (fun hc => h.1 hc.symm), ih h.2]

/-- Parsing the label of a minute of day gives the minute back. -/
theorem parseHM_timeLabel (mins : Nat) : parseHM (timeLabel mins) = some mins := by
  unfold parseHM timeLabel
  have hh := jsNumber_padStart2_natToString (mins / 60)
  have hm := jsNumber_padStart2_natToString (mins % 60)
  simp only []
  rw [splitColon_append_colon _ _ (no_colon_of_digitsValue _ _ _ hh),
    splitColon_of_no_colon _ (no_colon_of_digitsValue _ _ _ hm)]
  simp only [hh, hm]
  congr 1
  omega

/-- The end label of a slot label is the label of the slot's end. -/
theorem endLabel_timeLabel (s duration : Nat) :
    endLabel (timeLabel s) duration = timeLabel (s + duration) := by
  unfold endLabel
  rw [parseHM_timeLabel]

/-! ## Creating a hold -/

/-- The three ways `handleHoldAndContinue` ends, by what it was given. -/
theorem handleHoldAndContinue_cases (backend : Backend) (clock : Clock) (uuid : String)
    (store : Store) (sess : Session) :
    (sess.formData.startTime = "" ∧
      handleHoldAndContinue backend clock uuid store sess =
        ⟨store, sess, [⟨"Select a time", ""⟩], false⟩) ∨
    (sess.formData.startTime ≠ "" ∧
      ∃ message, handleHoldAndContinue backend clock uuid store sess =
        holdFailed clock store sess message) ∨
    (∃ slot,
      sess.availableSlots.find? (fun s => decide (s.timeLabel = sess.formData.startTime)) =
        some slot ∧
      handleHoldAndContinue backend clock uuid store sess =
        ⟨{ store with holds := store.holds ++ holdRecords clock uuid sess.formData slot.lanes },
         { sess with
           holdToken := some uuid
           holdExpiry := some (clock.nowMs + HOLD_DURATION_MINUTES * 60000)
           formData := { sess.formData with selectedLanes := slot.lanes }
           currentStep := 2 },
         [], false⟩) := by
  unfold handleHoldAndContinue
  by_cases hstart : sess.formData.startTime = ""
  · exact Or.inl ⟨hstart, by rw [if_pos hstart]⟩
  · right
    rw [if_neg hstart]
    cases hfind : sess.availableSlots.find?
        (fun s => decide (s.timeLabel = sess.formData.startTime)) with
    | none => exact Or.inl ⟨hstart, _, rfl⟩
    | some slot =>
      simp only []
      cases hins : backend.insertHolds store (holdRecords clock uuid sess.formData slot.lanes) with
      | some err => exact Or.inl ⟨hstart, _, rfl⟩
      | none => exact Or.inr ⟨slot, rfl, rfl⟩

/-- C10. When `handleHoldAndContinue` succeeds (it raises no toast), the
selected slot is the first slot of the grid whose label is the selected start
time, the bookings table is unchanged, and the holds table has gained exactly
one row per lane of that slot, in order: each with the token drawn for this
call, the booking date, the selected label as start time, the label of start
plus duration as end time, and `expires_at` 30 minutes after now. -/
theorem handleHoldAndContinue_success_rows (backend : Backend) (clock : Clock) (uuid : String)
    (store : Store) (sess : Session)
    (h : (handleHoldAndContinue backend clock uuid store sess).toasts = []) :
    ∃ slot,
      sess.availableSlots.find? (fun s => decide (s.timeLabel = sess.formData.startTime)) =
        some slot ∧
      slot.timeLabel = sess.formData.startTime ∧
      (handleHoldAndContinue backend clock uuid store sess).store.bookings = store.bookings ∧
      (handleHoldAndContinue backend clock uuid store sess).store.holds =
        store.holds ++ slot.lanes.map (fun lane =>
          { hold_token := uuid
            lane_number := lane
            booking_date := sess.formData.bookingDate
            start_time := slot.timeLabel
            end_time := endLabel slot.timeLabel sess.formData.duration
            expires_at := clock.nowMs + 30 * 60000 }) ∧
      ∀ s, slot.timeLabel = timeLabel s →
        endLabel slot.timeLabel sess.formData.duration =
          timeLabel (s + sess.formData.duration) := by
  rcases handleHoldAndContinue_cases backend clock uuid store sess with
    ⟨_, heq⟩ | ⟨_, message, heq⟩ | ⟨slot, hfind, heq⟩
  · rw [heq] at h
    simp at h
  · rw [heq] at h
    simp [holdFailed] at h
  · have hlabel : slot.timeLabel = sess.formData.startTime := by
      have := List.find?_some hfind
      simpa using this
    refine ⟨slot, hfind, hlabel, ?_, ?_, ?_⟩
    · rw [heq]
    · rw [heq]
      simp only [holdRecords, hlabel, HOLD_DURATION_MINUTES]
    · intro s hs
      rw [hs, endLabel_timeLabel]

/-- C10 on a page that picked 13:00 for two lanes on the empty store. -/
theorem handleHoldAndContinue_success_rows_witness :
    ∃ slot,
      (pickedOnEmptyStore "13:00").availableSlots.find?
          (fun s => decide (s.timeLabel = (pickedOnEmptyStore "13:00").formData.startTime)) =
        some slot ∧
      slot.timeLabel = (pickedOnEmptyStore "13:00").formData.startTime ∧
      (handleHoldAndContinue plainTables sampleClock "uuid-1" Store.empty
        (pickedOnEmptyStore "13:00")).store.bookings = Store.empty.bookings ∧
      (handleHoldAndContinue plainTables sampleClock "uuid-1" Store.empty
        (pickedOnEmptyStore "13:00")).store.holds =
        Store.empty.holds ++ slot.lanes.map (fun lane =>
          { hold_token := "uuid-1"
            lane_number := lane
            booking_date := (pickedOnEmptyStore "13:00").formData.bookingDate
            start_time := slot.timeLabel
            end_time := endLabel slot.timeLabel (pickedOnEmptyStore "13:00").formData.duration
            expires_at := sampleClock.nowMs + 30 * 60000 }) ∧
      ∀ s, slot.timeLabel = timeLabel s →
        endLabel slot.timeLabel (pickedOnEmptyStore "13:00").formData.duration =
          timeLabel (s + (pickedOnEmptyStore "13:00").formData.duration) :=
  handleHoldAndContinue_success_rows plainTables sampleClock "uuid-1" Store.empty
    (pickedOnEmptyStore "13:00") (by decide)

/-- C8, as the page has it. `handleHoldAndContinue` either fails or succeeds.
When it fails (it raises a toast) the store is exactly as before, so no
requested hold row is in place, and `holdToken`, `holdExpiry` and
`currentStep` are unchanged; `selectedLanes` is unchanged when no start time
was selected and is emptied otherwise.  When it succeeds every lane of the
selected slot has its hold row with the new token. -/
theorem handleHoldAndContinue_all_or_nothing (backend : Backend) (clock : Clock) (uuid : String)
    (store : Store) (sess : Session) :
    ((handleHoldAndContinue backend clock uuid store sess).toasts ≠ [] ∧
      (handleHoldAndContinue backend clock uuid store sess).store = store ∧
      (handleHoldAndContinue backend clock uuid store sess).session.holdToken = sess.holdToken ∧
      (handleHoldAndContinue backend clock uuid store sess).session.holdExpiry =
        sess.holdExpiry ∧
      (handleHoldAndContinue backend clock uuid store sess).session.currentStep =
        sess.currentStep ∧
      (handleHoldAndContinue backend clock uuid store sess).session.formData.selectedLanes =
        if sess.formData.startTime = "" then sess.formData.selectedLanes else []) ∨
    ((handleHoldAndContinue backend clock uuid store sess).toasts = [] ∧
      ∃ slot,
        sess.availableSlots.find? (fun s => decide (s.timeLabel = sess.formData.startTime)) =
          some slot ∧
        (handleHoldAndContinue backend clock uuid store sess).session.formData.selectedLanes =
          slot.lanes ∧
        ∀ lane ∈ slot.lanes,
          ∃ row ∈ (handleHoldAndContinue backend clock uuid store sess).store.holds,
            row.hold_token = uuid ∧ row.lane_number = lane ∧
            row.booking_date = sess.formData.bookingDate ∧
            row.start_time = sess.formData.startTime) := by
  rcases handleHoldAndContinue_cases backend clock uuid store sess with
    ⟨hstart, heq⟩ | ⟨hstart, message, heq⟩ | ⟨slot, hfind, heq⟩
  · left
    rw [heq]
    simp [hstart]
  · left
    rw [heq]
    unfold holdFailed calculateAvailableSlots
    simp only [hstart, if_false]
    cases computeGrid clock store sess.formData.bookingDate sess.formData.duration
      sess.formData.laneCount <;> simp
  · right
    rw [heq]
    refine ⟨rfl, slot, hfind, rfl, ?_⟩
    intro lane hlane
    refine ⟨⟨uuid, lane, sess.formData.bookingDate, sess.formData.startTime,
      endLabel sess.formData.startTime sess.formData.duration,
      clock.nowMs + HOLD_DURATION_MINUTES * 60000⟩, ?_, rfl, rfl, rfl, rfl⟩
    simp only [List.mem_append, holdRecords, List.mem_map]
    exact Or.inr ⟨lane, hlane, rfl⟩

/-- C8 does not hold as stated: a failed hold empties `selectedLanes`.  On a
store with a unique key, a page that holds lane 1, goes back with `Cancel` and
clicks `Continue` again is refused, and its `selectedLanes` goes from `[1]` to
`[]`. -/
theorem handleHoldAndContinue_failure_empties_selection :
    (handleHoldAndContinue keyedTables (clockAt 5) "uuid-a5"
      (run keyedTables World.initial heldThenCancelledEvents).store
      ((run keyedTables World.initial heldThenCancelledEvents).page 0)).toasts =
        [⟨"Hold Failed", "Conflict detected. Please refresh."⟩] ∧
    ((run keyedTables World.initial heldThenCancelledEvents).page 0).formData.selectedLanes =
      [1] ∧
    (handleHoldAndContinue keyedTables (clockAt 5) "uuid-a5"
      (run keyedTables World.initial heldThenCancelledEvents).store
      ((run keyedTables World.initial heldThenCancelledEvents).page 0)).session.formData.selectedLanes =
        [] := by
  decide

/-! ## Holds against a grid that is no longer current -/

/-- C6 at a failing input. On two plain tables, a page that was shown the grid
for eight lanes picks 13:00 after another page has taken lane 1 for that
hour: seven lanes are free, eight are asked for, and `handleHoldAndContinue`
raises no toast, moves to step 2 and inserts eight hold rows. -/
theorem handleHoldAndContinue_trusts_stale_grid :
    ((run plainTables World.initial lostLaneEvents).page 0).formData.laneCount = 8 ∧
    ((run plainTables World.initial lostLaneEvents).page 0).formData.startTime = "13:00" ∧
    freeLaneCount (run plainTables World.initial lostLaneEvents).store (clockAt 5).nowMs
      "2024-06-01" 780 840 = 7 ∧
    (handleHoldAndContinue plainTables (clockAt 5) "uuid-a5"
      (run plainTables World.initial lostLaneEvents).store
      ((run plainTables World.initial lostLaneEvents).page 0)).toasts = [] ∧
    (handleHoldAndContinue plainTables (clockAt 5) "uuid-a5"
      (run plainTables World.initial lostLaneEvents).store
      ((run plainTables World.initial lostLaneEvents).page 0)).session.currentStep = 2 ∧
    (handleHoldAndContinue plainTables (clockAt 5) "uuid-a5"
      (run plainTables World.initial lostLaneEvents).store
      ((run plainTables World.initial lostLaneEvents).page 0)).store.holds.length =
        (run plainTables World.initial lostLaneEvents).store.holds.length + 8 := by
  decide

/-- C9 at a failing input. A page that picked 13:00 reports a unique-key
violation and an unreachable database with the same toast. -/
theorem handleHoldAndContinue_same_report :
    (handleHoldAndContinue (answering duplicateKey) sampleClock "uuid-1" Store.empty
      (pickedOnEmptyStore "13:00")).toasts =
        [⟨"Hold Failed", "Conflict detected. Please refresh."⟩] ∧
    (handleHoldAndContinue (answering databaseDown) sampleClock "uuid-1" Store.empty
      (pickedOnEmptyStore "13:00")).toasts =
        [⟨"Hold Failed", "Conflict detected. Please refresh."⟩] ∧
    duplicateKey ≠ databaseDown := by
  decide

/-- C1 at two failing inputs. On two plain tables, two pages shown the same
grid both hold lane 1 at 13:00, and the two active holds overlap.  On tables
with a unique key, a page whose hold ran out still commits, and its booking
overlaps the active hold another page took on the lane in the meantime. -/
theorem run_breaks_no_double_booking :
    ¬ NoDoubleBooking (run plainTables World.initial staleGridEvents).store (clockAt 4).nowMs ∧
    ¬ NoDoubleBooking (run keyedTables World.initial staleCommitEvents).store
      (clockAt 43).nowMs := by
  decide

/-- What two plain tables make of the same clicks. With lanes 1 to 7 held at
13:00, two pages that were both shown lane 8 click `Continue` one after the
other: one lane is free before, and both end in step 2, each with a token and
with lane 8 selected. -/
theorem both_holds_succeed_on_last_lane :
    freeLaneCount (run plainTables World.initial lastLaneEvents).store (clockAt 4).nowMs
      "2024-06-01" 780 840 = 1 ∧
    ((run plainTables World.initial
      (lastLaneEvents ++ [⟨0, clockAt 4, "uuid-a3", .holdAndContinue⟩,
        ⟨1, clockAt 4, "uuid-b3", .holdAndContinue⟩])).page 0).currentStep = 2 ∧
    ((run plainTables World.initial
      (lastLaneEvents ++ [⟨0, clockAt 4, "uuid-a3", .holdAndContinue⟩,
        ⟨1, clockAt 4, "uuid-b3", .holdAndContinue⟩])).page 1).currentStep = 2 ∧
    ((run plainTables World.initial
      (lastLaneEvents ++ [⟨0, clockAt 4, "uuid-a3", .holdAndContinue⟩,
        ⟨1, clockAt 4, "uuid-b3", .holdAndContinue⟩])).page 0).holdToken = some "uuid-a3" ∧
    ((run plainTables World.initial
      (lastLaneEvents ++ [⟨0, clockAt 4, "uuid-a3", .holdAndContinue⟩,
        ⟨1, clockAt 4, "uuid-b3", .holdAndContinue⟩])).page 1).holdToken = some "uuid-b3" ∧
    ((run plainTables World.initial
      (lastLaneEvents ++ [⟨0, clockAt 4, "uuid-a3", .holdAndContinue⟩,
        ⟨1, clockAt 4, "uuid-b3", .holdAndContinue⟩])).page 0).formData.selectedLanes = [8] ∧
    ((run plainTables World.initial
      (lastLaneEvents ++ [⟨0, clockAt 4, "uuid-a3", .holdAndContinue⟩,
        ⟨1, clockAt 4, "uuid-b3", .holdAndContinue⟩])).page 1).formData.selectedLanes = [8] := by
  decide

/-! ## Two holds on a store that refuses a repeated time window -/

/-- A unique key on lane, date and start time of the holds refuses a hold on
the window of a stored hold. -/
theorem keyedTables_refusesRepeatedHold : RefusesRepeatedHold keyedTables := by
  intro store rows h
  obtain ⟨r, hr, row, hrow, h1, h2, h3, _⟩ := h
  simp only [keyedTables, List.any_eq_true, decide_eq_true_eq]
  rw [if_pos ⟨r, hr, row, hrow, h1, h2, h3⟩]
  simp

/-- A unique key on lane, date and start time of the bookings refuses a
booking on the window of a stored booking. -/
theorem keyedTables_refusesRepeatedBooking : RefusesRepeatedBooking keyedTables := by
  intro store rows h
  obtain ⟨r, hr, row, hrow, _, h1, h2, h3, _⟩ := h
  simp only [keyedTables, List.any_eq_true, decide_eq_true_eq]
  rw [if_pos ⟨r, hr, row, hrow, h1, h2, h3⟩]
  simp

/-- A time label is not the empty string. -/
theorem timeLabel_ne_empty (mins : Nat) : timeLabel mins ≠ "" := by
  intro h
  have := congrArg String.data h
  simp [timeLabel] at this

/-- C7. On a store that refuses a hold on the window of a stored hold, when
two pages were both shown the same single lane for the same date, start time
and duration, both picked it, and `handleHoldAndContinue` runs on the one and
then on the other, the store accepting the insert that comes first: the first
page succeeds (no toast, step 2, its token, the lane selected, one hold row on
the lane), and the second receives `Hold Failed` with `Conflict detected.
Please refresh.`, stays where it was without a token or a lane, and leaves the
store as the first left it.  Each handler sends one insert, so the two orders
of the inserts are the two ways of naming the pages. -/
theorem handleHoldAndContinue_one_of_two_succeeds (backend : Backend)
    (hkey : RefusesRepeatedHold backend) (clockA clockB : Clock) (uuidA uuidB : String)
    (store : Store) (sessA sessB : Session) (lane s : Nat)
    (hlabel : sessA.formData.startTime = timeLabel s)
    (hpos : 0 < sessA.formData.duration)
    (hsame : sessB.formData.startTime = sessA.formData.startTime)
    (hdur : sessB.formData.duration = sessA.formData.duration)
    (hdate : sessB.formData.bookingDate = sessA.formData.bookingDate)
    (hA : (sessA.availableSlots.find?
      (fun s => decide (s.timeLabel = sessA.formData.startTime))).map Slot.lanes = some [lane])
    (hB : (sessB.availableSlots.find?
      (fun s => decide (s.timeLabel = sessB.formData.startTime))).map Slot.lanes = some [lane])
    (hacc : backend.insertHolds store (holdRecords clockA uuidA sessA.formData [lane]) = none) :
    (handleHoldAndContinue backend clockA uuidA store sessA).toasts = [] ∧
    (handleHoldAndContinue backend clockA uuidA store sessA).session.currentStep = 2 ∧
    (handleHoldAndContinue backend clockA uuidA store sessA).session.holdToken = some uuidA ∧
    (handleHoldAndContinue backend clockA uuidA store sessA).session.formData.selectedLanes =
      [lane] ∧
    (handleHoldAndContinue backend clockA uuidA store sessA).store.holds =
      store.holds ++ holdRecords clockA uuidA sessA.formData [lane] ∧
    (handleHoldAndContinue backend clockB uuidB
      (handleHoldAndContinue backend clockA uuidA store sessA).store sessB).toasts.head? =
      some ⟨"Hold Failed", "Conflict detected. Please refresh."⟩ ∧
    (handleHoldAndContinue backend clockB uuidB
      (handleHoldAndContinue backend clockA uuidA store sessA).store sessB).store =
      (handleHoldAndContinue backend clockA uuidA store sessA).store ∧
    (handleHoldAndContinue backend clockB uuidB
      (handleHoldAndContinue backend clockA uuidA store sessA).store sessB).session.holdToken =
      sessB.holdToken ∧
    (handleHoldAndContinue backend clockB uuidB
      (handleHoldAndContinue backend clockA uuidA store sessA).store sessB).session.currentStep =
      sessB.currentStep ∧
    (handleHoldAndContinue backend clockB uuidB
      (handleHoldAndContinue backend clockA uuidA store sessA).store
      sessB).session.formData.selectedLanes = [] := by
  have hstart : sessA.formData.startTime ≠ "" := by
    rw [hlabel]
    exact timeLabel_ne_empty s
  cases hfA : sessA.availableSlots.find?
      (fun s => decide (s.timeLabel = sessA.formData.startTime)) with
  | none => simp [hfA] at hA
  | some slotA =>
    cases hfB : sessB.availableSlots.find?
        (fun s => decide (s.timeLabel = sessB.formData.startTime)) with
    | none => simp [hfB] at hB
    | some slotB =>
      rw [hfA] at hA
      rw [hfB] at hB
      simp only [Option.map_some', Option.some.injEq] at hA hB
      have hoA : handleHoldAndContinue backend clockA uuidA store sessA =
          ⟨{ store with holds := store.holds ++ holdRecords clockA uuidA sessA.formData [lane] },
           { sessA with
             holdToken := some uuidA
             holdExpiry := some (clockA.nowMs + HOLD_DURATION_MINUTES * 60000)
             formData := { sessA.formData with selectedLanes := [lane] }
             currentStep := 2 },
           [], false⟩ := by
        unfold handleHoldAndContinue
        rw [if_neg hstart, hfA]
        simp only [hA, hacc]
      rw [hoA]
      have hstartB : sessB.formData.startTime ≠ "" := by rw [hsame]; exact hstart
      have hrefuse : backend.insertHolds
          { store with holds := store.holds ++ holdRecords clockA uuidA sessA.formData [lane] }
          (holdRecords clockB uuidB sessB.formData [lane]) ≠ none := by
        apply hkey
        refine ⟨⟨uuidB, lane, sessB.formData.bookingDate, sessB.formData.startTime,
            endLabel sessB.formData.startTime sessB.formData.duration,
            clockB.nowMs + HOLD_DURATION_MINUTES * 60000⟩, by simp [holdRecords],
          ⟨uuidA, lane, sessA.formData.bookingDate, sessA.formData.startTime,
            endLabel sessA.formData.startTime sessA.formData.duration,
            clockA.nowMs + HOLD_DURATION_MINUTES * 60000⟩, by simp [holdRecords],
          rfl, hdate.symm, hsame.symm, ?_, s, s + sessA.formData.duration, ?_, ?_, ?_⟩
        · show endLabel sessA.formData.startTime sessA.formData.duration =
            endLabel sessB.formData.startTime sessB.formData.duration
          rw [hsame, hdur]
        · show parseHM sessB.formData.startTime = some s
          rw [hsame, hlabel, parseHM_timeLabel]
        · show parseHM (endLabel sessB.formData.startTime sessB.formData.duration) =
            some (s + sessA.formData.duration)
          rw [hsame, hdur, hlabel, endLabel_timeLabel, parseHM_timeLabel]
        · omega
      have hoB : handleHoldAndContinue backend clockB uuidB
          { store with holds := store.holds ++ holdRecords clockA uuidA sessA.formData [lane] }
          sessB =
          holdFailed clockB
            { store with holds := store.holds ++ holdRecords clockA uuidA sessA.formData [lane] }
            sessB "Conflict detected. Please refresh." := by
        unfold handleHoldAndContinue
        rw [if_neg hstartB, hfB]
        simp only [hB]
        cases hins : backend.insertHolds
            { store with holds := store.holds ++ holdRecords clockA uuidA sessA.formData [lane] }
            (holdRecords clockB uuidB sessB.formData [lane]) with
        | none => exact absurd hins hrefuse
        | some _ => rfl
      rw [hoB]
      refine ⟨rfl, rfl, rfl, rfl, rfl, rfl, rfl, ?_, ?_, ?_⟩
      all_goals
        unfold holdFailed calculateAvailableSlots
        simp only []
        split <;> rfl

/-- C7 on tables with a unique key, with lanes 1 to 7 held at 13:00 and two
pages that were both shown lane 8 and picked it. -/
theorem handleHoldAndContinue_one_of_two_succeeds_witness :
    (handleHoldAndContinue keyedTables (clockAt 4) "uuid-a3"
      (run keyedTables World.initial lastLaneEvents).store
      ((run keyedTables World.initial lastLaneEvents).page 0)).toasts = [] ∧
    (handleHoldAndContinue keyedTables (clockAt 4) "uuid-a3"
      (run keyedTables World.initial lastLaneEvents).store
      ((run keyedTables World.initial lastLaneEvents).page 0)).session.currentStep = 2 ∧
    (handleHoldAndContinue keyedTables (clockAt 4) "uuid-a3"
      (run keyedTables World.initial lastLaneEvents).store
      ((run keyedTables World.initial lastLaneEvents).page 0)).session.holdToken =
      some "uuid-a3" ∧
    (handleHoldAndContinue keyedTables (clockAt 4) "uuid-a3"
      (run keyedTables World.initial lastLaneEvents).store
      ((run keyedTables World.initial lastLaneEvents).page 0)).session.formData.selectedLanes =
      [8] ∧
    (handleHoldAndContinue keyedTables (clockAt 4) "uuid-a3"
      (run keyedTables World.initial lastLaneEvents).store
      ((run keyedTables World.initial lastLaneEvents).page 0)).store.holds =
      (run keyedTables World.initial lastLaneEvents).store.holds ++
        holdRecords (clockAt 4) "uuid-a3"
          ((run keyedTables World.initial lastLaneEvents).page 0).formData [8] ∧
    (handleHoldAndContinue keyedTables (clockAt 4) "uuid-b3"
      (handleHoldAndContinue keyedTables (clockAt 4) "uuid-a3"
        (run keyedTables World.initial lastLaneEvents).store
        ((run keyedTables World.initial lastLaneEvents).page 0)).store
      ((run keyedTables World.initial lastLaneEvents).page 1)).toasts.head? =
      some ⟨"Hold Failed", "Conflict detected. Please refresh."⟩ ∧
    (handleHoldAndContinue keyedTables (clockAt 4) "uuid-b3"
      (handleHoldAndContinue keyedTables (clockAt 4) "uuid-a3"
        (run keyedTables World.initial lastLaneEvents).store
        ((run keyedTables World.initial lastLaneEvents).page 0)).store
      ((run keyedTables World.initial lastLaneEvents).page 1)).store =
      (handleHoldAndContinue keyedTables (clockAt 4) "uuid-a3"
        (run keyedTables World.initial lastLaneEvents).store
        ((run keyedTables World.initial lastLaneEvents).page 0)).store ∧
    (handleHoldAndContinue keyedTables (clockAt 4) "uuid-b3"
      (handleHoldAndContinue keyedTables (clockAt 4) "uuid-a3"
        (run keyedTables World.initial lastLaneEvents).store
        ((run keyedTables World.initial lastLaneEvents).page 0)).store
      ((run keyedTables World.initial lastLaneEvents).page 1)).session.holdToken =
      ((run keyedTables World.initial lastLaneEvents).page 1).holdToken ∧
    (handleHoldAndContinue keyedTables (clockAt 4) "uuid-b3"
      (handleHoldAndContinue keyedTables (clockAt 4) "uuid-a3"
        (run keyedTables World.initial lastLaneEvents).store
        ((run keyedTables World.initial lastLaneEvents).page 0)).store
      ((run keyedTables World.initial lastLaneEvents).page 1)).session.currentStep =
      ((run keyedTables World.initial lastLaneEvents).page 1).currentStep ∧
    (handleHoldAndContinue keyedTables (clockAt 4) "uuid-b3"
      (handleHoldAndContinue keyedTables (clockAt 4) "uuid-a3"
        (run keyedTables World.initial lastLaneEvents).store
        ((run keyedTables World.initial lastLaneEvents).page 0)).store
      ((run keyedTables World.initial lastLaneEvents).page 1)).session.formData.selectedLanes =
      [] :=
  handleHoldAndContinue_one_of_two_succeeds keyedTables keyedTables_refusesRepeatedHold
    (clockAt 4) (clockAt 4) "uuid-a3" "uuid-b3"
    (run keyedTables World.initial lastLaneEvents).store
    ((run keyedTables World.initial lastLaneEvents).page 0)
    ((run keyedTables World.initial lastLaneEvents).page 1) 8 780
    (by decide) (by decide) (by decide) (by decide) (by decide) (by decide) (by decide)
    (by decide)

/-! ## Committing a hold -/

/-- The ways `handleBook` ends: it fails with a toast and without navigating,
or it inserts the rows of `bookingsToInsert`, deletes the holds of the token
and navigates. -/
theorem handleBook_cases (backend : Backend) (store : Store) (sess : Session) :
    ((handleBook backend store sess).navigated = false ∧
      (handleBook backend store sess).toasts ≠ []) ∨
    (∃ holdToken, sess.holdToken = some holdToken ∧ holdToken ≠ "" ∧
      bookingsToInsert sess holdToken ≠ [] ∧
      handleBook backend store sess =
        ⟨{ bookings := store.bookings ++ bookingsToInsert sess holdToken
           holds := store.holds.filter (fun h => decide (h.hold_token ≠ holdToken)) },
         sess, [], true⟩) := by
  unfold handleBook
  cases htok : sess.holdToken with
  | none => left; simp
  | some holdToken =>
    simp only []
    by_cases hempty : holdToken = ""
    · left
      simp [hempty]
    · rw [if_neg hempty]
      cases hins : backend.insertBookings store (bookingsToInsert sess holdToken) with
      | some error => left; simp
      | none =>
        simp only []
        by_cases hrows : bookingsToInsert sess holdToken = []
        · left
          simp [hrows]
        · right
          have hne : (bookingsToInsert sess holdToken).isEmpty = false := by
            cases hb : bookingsToInsert sess holdToken with
            | nil => exact absurd hb hrows
            | cons _ _ => rfl
          refine ⟨holdToken, rfl, hempty, hrows, ?_⟩
          simp [hne]

/-- C11 at a failing input. A page holds lane 1 at 10:03, so the hold expires
at 10:33; at 10:40 the hold is expired, and `handleBook` on that page raises
no toast, navigates and inserts the booking row: no step of it reads the clock
or `holdExpiry`. -/
theorem handleBook_commits_expired_hold :
    ((run plainTables World.initial heldWithDetailsEvents).page 0).holdToken = some "uuid-a3" ∧
    ((run plainTables World.initial heldWithDetailsEvents).page 0).holdExpiry =
      some ((clockAt 3).nowMs + 30 * 60000) ∧
    (clockAt 3).nowMs + 30 * 60000 < (clockAt 40).nowMs ∧
    (run plainTables World.initial heldWithDetailsEvents).store.bookings = [] ∧
    (handleBook plainTables (run plainTables World.initial heldWithDetailsEvents).store
      ((run plainTables World.initial heldWithDetailsEvents).page 0)).toasts = [] ∧
    (handleBook plainTables (run plainTables World.initial heldWithDetailsEvents).store
      ((run plainTables World.initial heldWithDetailsEvents).page 0)).navigated = true ∧
    ((handleBook plainTables (run plainTables World.initial heldWithDetailsEvents).store
      ((run plainTables World.initial heldWithDetailsEvents).page 0)).store.bookings.map
        (fun b => (b.lane_number, b.booking_date, b.start_time, b.end_time))) =
      [(1, "2024-06-01", "13:00", "14:00")] := by
  decide

/-- What two plain tables make of a second call. `handleBook` run twice in a
row on a page holding lane 1 navigates both times; after the first run the
bookings table has one row for lane 1 and after the second it has two. -/
theorem handleBook_twice_duplicates :
    ((handleBook plainTables (run plainTables World.initial heldWithDetailsEvents).store
      ((run plainTables World.initial heldWithDetailsEvents).page 0)).store.bookings.map
        BookingRow.lane_number) = [1] ∧
    (handleBook plainTables
      (handleBook plainTables (run plainTables World.initial heldWithDetailsEvents).store
        ((run plainTables World.initial heldWithDetailsEvents).page 0)).store
      (handleBook plainTables (run plainTables World.initial heldWithDetailsEvents).store
        ((run plainTables World.initial heldWithDetailsEvents).page 0)).session).navigated =
      true ∧
    ((handleBook plainTables
      (handleBook plainTables (run plainTables World.initial heldWithDetailsEvents).store
        ((run plainTables World.initial heldWithDetailsEvents).page 0)).store
      (handleBook plainTables (run plainTables World.initial heldWithDetailsEvents).store
        ((run plainTables World.initial heldWithDetailsEvents).page 0)).session).store.bookings.map
        BookingRow.lane_number) = [1, 1] := by
  decide

/-- C13. On a store that refuses a booking on the window of a stored booking,
`handleBook` called a second time right after a call that succeeded, with the
same hold token and form data, changes nothing: after the first call the
bookings table has gained one row per held lane, in order, and after the
second call the store is as the first call left it; the second call does not
navigate. -/
theorem handleBook_twice_keeps_rows (backend : Backend) (hkey : RefusesRepeatedBooking backend)
    (store : Store) (sess : Session) (s : Nat)
    (hlabel : sess.formData.startTime = timeLabel s)
    (hpos : 0 < sess.formData.duration)
    (hnav : (handleBook backend store sess).navigated = true) :
    (handleBook backend store sess).session = sess ∧
    (∃ rows : List BookingRow,
      (handleBook backend store sess).store.bookings = store.bookings ++ rows ∧
      rows.map BookingRow.lane_number = sess.formData.selectedLanes) ∧
    (handleBook backend (handleBook backend store sess).store
      (handleBook backend store sess).session).store = (handleBook backend store sess).store ∧
    (handleBook backend (handleBook backend store sess).store
      (handleBook backend store sess).session).navigated = false := by
  rcases handleBook_cases backend store sess with ⟨hno, _⟩ | ⟨holdToken, htok, hne, hrows, hout⟩
  · rw [hno] at hnav
    cases hnav
  · rw [hout]
    have hrefuse : backend.insertBookings
        { bookings := store.bookings ++ bookingsToInsert sess holdToken
          holds := store.holds.filter (fun h => decide (h.hold_token ≠ holdToken)) }
        (bookingsToInsert sess holdToken) ≠ none := by
      apply hkey
      cases hb : bookingsToInsert sess holdToken with
      | nil => exact absurd hb hrows
      | cons r rest =>
        have hr : r ∈ bookingsToInsert sess holdToken := by rw [hb]; exact List.mem_cons_self _ _
        simp only [bookingsToInsert, List.mem_map] at hr
        obtain ⟨l, _, rfl⟩ := hr
        refine ⟨_, List.mem_cons_self _ _, _, List.mem_append_right _ (List.mem_cons_self _ _),
          ?_, rfl, rfl, rfl, rfl, s, s + sess.formData.duration, ?_, ?_, ?_⟩
        · show "confirmed" ≠ "cancelled"
          decide
        · show parseHM sess.formData.startTime = some s
          rw [hlabel, parseHM_timeLabel]
        · show parseHM (endLabel sess.formData.startTime sess.formData.duration) =
            some (s + sess.formData.duration)
          rw [hlabel, endLabel_timeLabel, parseHM_timeLabel]
        · omega
    refine ⟨rfl, ⟨bookingsToInsert sess holdToken, rfl, ?_⟩, ?_, ?_⟩
    · rw [bookingsToInsert, List.map_map]
      exact List.map_id'' (fun _ => rfl) _
    all_goals
      unfold handleBook
      simp only [htok, if_neg hne]
      cases hins : backend.insertBookings
          { bookings := store.bookings ++ bookingsToInsert sess holdToken
            holds := store.holds.filter (fun h => decide (h.hold_token ≠ holdToken)) }
          (bookingsToInsert sess holdToken) with
      | none => exact absurd hins hrefuse
      | some _ => rfl

/-- C13 on tables with a unique key, on a page that holds lane 1 at 13:00 and
reached step 3. -/
theorem handleBook_twice_keeps_rows_witness :
    (handleBook keyedTables (run keyedTables World.initial heldWithDetailsEvents).store
      ((run keyedTables World.initial heldWithDetailsEvents).page 0)).session =
      (run keyedTables World.initial heldWithDetailsEvents).page 0 ∧
    (∃ rows : List BookingRow,
      (handleBook keyedTables (run keyedTables World.initial heldWithDetailsEvents).store
        ((run keyedTables World.initial heldWithDetailsEvents).page 0)).store.bookings =
        (run keyedTables World.initial heldWithDetailsEvents).store.bookings ++ rows ∧
      rows.map BookingRow.lane_number =
        ((run keyedTables World.initial heldWithDetailsEvents).page 0).formData.selectedLanes) ∧
    (handleBook keyedTables
      (handleBook keyedTables (run keyedTables World.initial heldWithDetailsEvents).store
        ((run keyedTables World.initial heldWithDetailsEvents).page 0)).store
      (handleBook keyedTables (run keyedTables World.initial heldWithDetailsEvents).store
        ((run keyedTables World.initial heldWithDetailsEvents).page 0)).session).store =
      (handleBook keyedTables (run keyedTables World.initial heldWithDetailsEvents).store
        ((run keyedTables World.initial heldWithDetailsEvents).page 0)).store ∧
    (handleBook keyedTables
      (handleBook keyedTables (run keyedTables World.initial heldWithDetailsEvents).store
        ((run keyedTables World.initial heldWithDetailsEvents).page 0)).store
      (handleBook keyedTables (run keyedTables World.initial heldWithDetailsEvents).store
        ((run keyedTables World.initial heldWithDetailsEvents).page 0)).session).navigated =
      false :=
  handleBook_twice_keeps_rows keyedTables keyedTables_refusesRepeatedBooking
    (run keyedTables World.initial heldWithDetailsEvents).store
    ((run keyedTables World.initial heldWithDetailsEvents).page 0) 780
    (by decide) (by decide) (by decide)

/-- C15. When `handleBook` succeeds (it navigates), the bookings table has
gained exactly one row per lane of `selectedLanes`, in order, and no other
row; each new row carries the date and the start time of the form, the label
of start plus duration as end time, and the entered name, email and phone. -/
theorem handleBook_success_rows (backend : Backend) (store : Store) (sess : Session)
    (h : (handleBook backend store sess).navigated = true) :
    ∃ rows : List BookingRow,
      (handleBook backend store sess).store.bookings = store.bookings ++ rows ∧
      rows.map BookingRow.lane_number = sess.formData.selectedLanes ∧
      (∀ row ∈ rows,
        row.booking_date = sess.formData.bookingDate ∧
        row.start_time = sess.formData.startTime ∧
        row.end_time = endLabel sess.formData.startTime sess.formData.duration ∧
        row.customer_name = sess.formData.customerName ∧
        row.customer_email = sess.formData.customerEmail ∧
        row.customer_phone = sess.formData.customerPhone) ∧
      ∀ s, sess.formData.startTime = timeLabel s →
        endLabel sess.formData.startTime sess.formData.duration =
          timeLabel (s + sess.formData.duration) := by
  rcases handleBook_cases backend store sess with ⟨hnav, _⟩ | ⟨holdToken, _, _, _, heq⟩
  · rw [hnav] at h
    exact absurd h (by simp)
  · refine ⟨bookingsToInsert sess holdToken, by rw [heq], ?_, ?_, ?_⟩
    · unfold bookingsToInsert
      rw [List.map_map]
      exact List.map_id'' (fun _ => rfl) _
    · intro row hrow
      simp only [bookingsToInsert, List.mem_map] at hrow
      obtain ⟨lane, _, rfl⟩ := hrow
      exact ⟨rfl, rfl, rfl, rfl, rfl, rfl⟩
    · intro s hs
      rw [hs, endLabel_timeLabel]

/-- C15 on the page that holds lane 1 at 13:00 and has entered its details. -/
theorem handleBook_success_rows_witness :
    ∃ rows : List BookingRow,
      (handleBook plainTables (run plainTables World.initial heldWithDetailsEvents).store
        ((run plainTables World.initial heldWithDetailsEvents).page 0)).store.bookings =
        (run plainTables World.initial heldWithDetailsEvents).store.bookings ++ rows ∧
      rows.map BookingRow.lane_number =
        ((run plainTables World.initial heldWithDetailsEvents).page 0).formData.selectedLanes ∧
      (∀ row ∈ rows,
        row.booking_date =
          ((run plainTables World.initial heldWithDetailsEvents).page 0).formData.bookingDate ∧
        row.start_time =
          ((run plainTables World.initial heldWithDetailsEvents).page 0).formData.startTime ∧
        row.end_time =
          endLabel ((run plainTables World.initial heldWithDetailsEvents).page 0).formData.startTime
            ((run plainTables World.initial heldWithDetailsEvents).page 0).formData.duration ∧
        row.customer_name =
          ((run plainTables World.initial heldWithDetailsEvents).page 0).formData.customerName ∧
        row.customer_email =
          ((run plainTables World.initial heldWithDetailsEvents).page 0).formData.customerEmail ∧
        row.customer_phone =
          ((run plainTables World.initial heldWithDetailsEvents).page 0).formData.customerPhone) ∧
      ∀ s, ((run plainTables World.initial heldWithDetailsEvents).page 0).formData.startTime =
          timeLabel s →
        endLabel ((run plainTables World.initial heldWithDetailsEvents).page 0).formData.startTime
            ((run plainTables World.initial heldWithDetailsEvents).page 0).formData.duration =
          timeLabel
            (s + ((run plainTables World.initial heldWithDetailsEvents).page 0).formData.duration) :=
  handleBook_success_rows plainTables (run plainTables World.initial heldWithDetailsEvents).store
    ((run plainTables World.initial heldWithDetailsEvents).page 0) (by decide)

/-- C16 does not hold as stated: the row `handleBook` inserts for the page
that holds lane 1 has `booking_status` equal to `confirmed`, not `pending`. -/
theorem handleBook_status_not_pending :
    (handleBook plainTables (run plainTables World.initial heldWithDetailsEvents).store
      ((run plainTables World.initial heldWithDetailsEvents).page 0)).store.bookings.map
        BookingRow.booking_status = ["confirmed"] ∧
    "confirmed" ≠ "pending" := by
  decide

/-- C16, as the page has it. After `handleBook` the bookings table is the
table before followed by the rows it created, and every row it created has
`booking_status` equal to `confirmed` and `payment_status` equal to
`pending`. -/
theorem handleBook_new_rows_status (backend : Backend) (store : Store) (sess : Session) :
    ∃ rows : List BookingRow,
      (handleBook backend store sess).store.bookings = store.bookings ++ rows ∧
      ∀ row ∈ rows, row.booking_status = "confirmed" ∧ row.payment_status = "pending" := by
  have hrows : ∀ holdToken, ∀ row ∈ bookingsToInsert sess holdToken,
      row.booking_status = "confirmed" ∧ row.payment_status = "pending" := by
    intro holdToken row hmem
    simp only [bookingsToInsert, List.mem_map] at hmem
    obtain ⟨lane, _, rfl⟩ := hmem
    exact ⟨rfl, rfl⟩
  unfold handleBook
  cases htok : sess.holdToken with
  | none => exact ⟨[], by simp, by simp⟩
  | some holdToken =>
    simp only []
    by_cases hempty : holdToken = ""
    · rw [if_pos hempty]
      exact ⟨[], by simp, by simp⟩
    · rw [if_neg hempty]
      cases hins : backend.insertBookings store (bookingsToInsert sess holdToken) with
      | some error => exact ⟨[], by simp, by simp⟩
      | none =>
        refine ⟨bookingsToInsert sess holdToken, ?_, hrows holdToken⟩
        simp only []
        split <;> rfl

/-- C17. When `handleBook` succeeds (it navigates), the holds table is the
table before without the rows of the committed token: no row with that token
is left, and the rows with another token are all there, unchanged and in the
same order. -/
theorem handleBook_deletes_own_holds (backend : Backend) (store : Store) (sess : Session)
    (h : (handleBook backend store sess).navigated = true) :
    ∃ holdToken, sess.holdToken = some holdToken ∧
      (∀ row ∈ (handleBook backend store sess).store.holds, row.hold_token ≠ holdToken) ∧
      (handleBook backend store sess).store.holds =
        store.holds.filter (fun row => decide (row.hold_token ≠ holdToken)) := by
  rcases handleBook_cases backend store sess with ⟨hnav, _⟩ | ⟨holdToken, htok, _, _, heq⟩
  · rw [hnav] at h
    exact absurd h (by simp)
  · refine ⟨holdToken, htok, ?_, by rw [heq]⟩
    intro row hrow
    rw [heq] at hrow
    simp only [List.mem_filter, decide_eq_true_eq] at hrow
    exact hrow.2

/-- C17 on a store with the holds of two pages: the first page commits. -/
theorem handleBook_deletes_own_holds_witness :
    ∃ holdToken, ((run plainTables World.initial twoHoldersEvents).page 0).holdToken =
        some holdToken ∧
      (∀ row ∈ (handleBook plainTables (run plainTables World.initial twoHoldersEvents).store
          ((run plainTables World.initial twoHoldersEvents).page 0)).store.holds,
        row.hold_token ≠ holdToken) ∧
      (handleBook plainTables (run plainTables World.initial twoHoldersEvents).store
          ((run plainTables World.initial twoHoldersEvents).page 0)).store.holds =
        (run plainTables World.initial twoHoldersEvents).store.holds.filter
          (fun row => decide (row.hold_token ≠ holdToken)) :=
  handleBook_deletes_own_holds plainTables (run plainTables World.initial twoHoldersEvents).store
    ((run plainTables World.initial twoHoldersEvents).page 0) (by decide)

/-! ## The configuration-driven page: `Pay & Confirm` -/

/-- C12. In the configuration-driven page, `handleBook` navigates exactly when
`holdExpiry` is set and later than now and `holdToken` and `holdBookingId` are
set and not empty; and whenever `holdExpiry` is set and not later than now,
equality included, it raises the session-expired toast and does not
navigate. -/
theorem Configured.handleBook_navigates_iff (nowMs : Nat) (page : Configured.Page) :
    (((Configured.handleBook nowMs page).navigated ≠ none) ↔
      ∃ holdExpiry holdToken holdBookingId,
        page.holdExpiry = some holdExpiry ∧ nowMs < holdExpiry ∧
        page.holdToken = some holdToken ∧ holdToken ≠ "" ∧
        page.holdBookingId = some holdBookingId ∧ holdBookingId ≠ "") ∧
    (∀ holdExpiry, page.holdExpiry = some holdExpiry → holdExpiry ≤ nowMs →
      (Configured.handleBook nowMs page).toasts =
        [⟨"Booking Failed", "Session expired. Please start over."⟩] ∧
      (Configured.handleBook nowMs page).navigated = none) := by
  obtain ⟨step, token, expiry, bookingId, method⟩ := page
  unfold Configured.handleBook
  constructor
  · cases expiry with
    | none => simp
    | some e =>
      by_cases hle : e ≤ nowMs
      · simp [hle]
      · have hlt : nowMs < e := by omega
        cases token with
        | none => simp [hle]
        | some t =>
          cases bookingId with
          | none => simp [hle]
          | some b =>
            by_cases ht : t = "" <;> by_cases hb : b = "" <;> simp [hle, hlt, ht, hb]
  · intro e he hle
    simp only [Option.some.injEq] at he
    subst he
    simp [hle]

/-- C14 does not hold as stated: with `holdToken`, `holdBookingId` and
`holdExpiry` all unset, `handleBook` raises the session-expired toast, not the
missing-hold toast. -/
theorem Configured.handleBook_no_hold_reports_expired :
    (Configured.handleBook 1717142400000 Configured.initialPage).toasts =
      [⟨"Booking Failed", "Session expired. Please start over."⟩] ∧
    (Configured.handleBook 1717142400000 Configured.initialPage).toasts ≠
      [⟨"Booking Failed", "Missing hold. Please start over."⟩] := by
  decide

/-- C14, as the page has it. With `holdExpiry` unset `handleBook` raises the
session-expired toast, the one it raises for an expired hold; it raises the
missing-hold toast, which is a different one, exactly when `holdExpiry` is set
and later than now while `holdToken` or `holdBookingId` is unset or empty. -/
theorem Configured.handleBook_missing_hold_iff (nowMs : Nat) (page : Configured.Page) :
    (page.holdExpiry = none →
      (Configured.handleBook nowMs page).toasts =
        [⟨"Booking Failed", "Session expired. Please start over."⟩]) ∧
    ((Configured.handleBook nowMs page).toasts =
        [⟨"Booking Failed", "Missing hold. Please start over."⟩] ↔
      ∃ holdExpiry, page.holdExpiry = some holdExpiry ∧ nowMs < holdExpiry ∧
        (page.holdToken = none ∨ page.holdToken = some "" ∨
          page.holdBookingId = none ∨ page.holdBookingId = some "")) ∧
    (⟨"Booking Failed", "Missing hold. Please start over."⟩ : Toast) ≠
      ⟨"Booking Failed", "Session expired. Please start over."⟩ := by
  obtain ⟨step, token, expiry, bookingId, method⟩ := page
  unfold Configured.handleBook
  refine ⟨?_, ?_, by decide⟩
  · intro h
    simp only at h
    subst h
    rfl
  · have hmsg : ¬ ("Session expired. Please start over." = "Missing hold. Please start over.") := by
      decide
    cases expiry with
    | none => simp [hmsg]
    | some e =>
      by_cases hle : e ≤ nowMs
      · simp [hle, hmsg]
      · have hlt : nowMs < e := by omega
        cases token with
        | none => simp [hle, hlt]
        | some t =>
          cases bookingId with
          | none => simp [hle, hlt]
          | some b =>
            by_cases ht : t = "" <;> by_cases hb : b = "" <;> simp [hle, hlt, ht, hb]

/-! ## The cancellation cutoff -/

/-- For a booking that is not cancelled and whose start is a valid date,
`canCancel` is set exactly when the start is more than 8 hours after now. -/
theorem checkCancellationValidity_canCancel (dateOf : String → Option Nat) (nowMs : Nat)
    (bookingData : BookingRow) (view : CancelView) (startMs : Nat)
    (hstatus : bookingData.booking_status ≠ "cancelled")
    (hstart : dateOf (bookingData.booking_date ++ "T" ++ bookingData.start_time) = some startMs) :
    (checkCancellationValidity dateOf nowMs bookingData view).canCancel =
      decide (nowMs + 8 * 3600000 < startMs) := by
  unfold checkCancellationValidity
  rw [if_neg hstatus, hstart]
  simp only []
  by_cases h : nowMs + 8 * 3600000 < startMs
  · have hd : ((startMs : Int) - (nowMs : Int)) > 8 * (1000 * 60 * 60) := by omega
    rw [if_pos hd]
    simp [h]
  · have hd : ¬ ((startMs : Int) - (nowMs : Int)) > 8 * (1000 * 60 * 60) := by omega
    rw [if_neg hd]
    simp [h]

/-- C18 at a failing input. For the sample booking, not cancelled, starting
exactly 8 hours after now, `checkCancellationValidity` denies the cancellation
with the too-late message; one millisecond earlier it allows it. -/
theorem checkCancellationValidity_denies_at_cutoff :
    sampleBooking.booking_status ≠ "cancelled" ∧
    sampleDateOf 1717257600000 (sampleBooking.booking_date ++ "T" ++ sampleBooking.start_time) =
      some 1717257600000 ∧
    (checkCancellationValidity (sampleDateOf 1717257600000) (1717257600000 - 8 * 3600000)
      sampleBooking CancelView.initial).canCancel = false ∧
    (checkCancellationValidity (sampleDateOf 1717257600000) (1717257600000 - 8 * 3600000)
      sampleBooking CancelView.initial).error =
        "Cancellations are only allowed more than 8 hours before the reservation." ∧
    (checkCancellationValidity (sampleDateOf 1717257600000) (1717257600000 - 8 * 3600000 - 1)
      sampleBooking CancelView.initial).canCancel = true := by
  decide

/-- C19. For every instant now, `checkCancellationValidity` denies the
cancellation of a booking, not cancelled, that starts at now + 8 hours - 1
minute, and allows that of one that starts at now + 8 hours + 1 minute. -/
theorem checkCancellationValidity_around_cutoff (dateOf : String → Option Nat) (nowMs : Nat)
    (early late : BookingRow) (view : CancelView)
    (hearly : early.booking_status ≠ "cancelled")
    (hlate : late.booking_status ≠ "cancelled")
    (hearlyStart : dateOf (early.booking_date ++ "T" ++ early.start_time) =
      some (nowMs + 8 * 3600000 - 60000))
    (hlateStart : dateOf (late.booking_date ++ "T" ++ late.start_time) =
      some (nowMs + 8 * 3600000 + 60000)) :
    (checkCancellationValidity dateOf nowMs early view).canCancel = false ∧
    (checkCancellationValidity dateOf nowMs late view).canCancel = true := by
  rw [checkCancellationValidity_canCancel dateOf nowMs early view _ hearly hearlyStart,
    checkCancellationValidity_canCancel dateOf nowMs late view _ hlate hlateStart]
  constructor
  · rw [decide_eq_false_iff_not]
    omega
  · rw [decide_eq_true_eq]
    omega

/-- C19 one minute after the cutoff of the sample booking: the sample booking
starts 8 hours less a minute from now, the later one 8 hours and a minute. -/
theorem checkCancellationValidity_around_cutoff_witness :
    (checkCancellationValidity (sampleDateOf 1717257600000) 1717228860000 sampleBooking
      CancelView.initial).canCancel = false ∧
    (checkCancellationValidity (sampleDateOf 1717257600000) 1717228860000 laterBooking
      CancelView.initial).canCancel = true :=
  checkCancellationValidity_around_cutoff (sampleDateOf 1717257600000) 1717228860000
    sampleBooking laterBooking CancelView.initial (by decide) (by decide) (by decide) (by decide)

/-- C20. For a booking whose status is `cancelled`, `checkCancellationValidity`
sets `canCancel` to false and the already-cancelled message, whatever the
start of the booking, the clock and the state before. -/
theorem checkCancellationValidity_cancelled (dateOf : String → Option Nat) (nowMs : Nat)
    (bookingData : BookingRow) (view : CancelView)
    (h : bookingData.booking_status = "cancelled") :
    (checkCancellationValidity dateOf nowMs bookingData view).canCancel = false ∧
    (checkCancellationValidity dateOf nowMs bookingData view).error =
      "This booking is already cancelled." := by
  unfold checkCancellationValidity
  rw [if_pos h]
  exact ⟨rfl, rfl⟩

/-- C20 on the cancelled sample booking, a day before its start. -/
theorem checkCancellationValidity_cancelled_witness :
    (checkCancellationValidity (sampleDateOf 1717257600000) 1717171200000 cancelledBooking
      CancelView.initial).canCancel = false ∧
    (checkCancellationValidity (sampleDateOf 1717257600000) 1717171200000 cancelledBooking
      CancelView.initial).error = "This booking is already cancelled." :=
  checkCancellationValidity_cancelled (sampleDateOf 1717257600000) 1717171200000 cancelledBooking
    CancelView.initial (by decide)

/-! ## What the grid reads -/

theorem selectBookings_removeInactive (store : Store) (date : String) (nowMs : Nat) :
    selectBookings (removeInactive nowMs store) date = selectBookings store date := by
  unfold selectBookings removeInactive
  simp only [List.filter_filter]
  congr 1
  apply List.filter_congr
  intro b _
  by_cases h1 : b.booking_date = date <;> by_cases h2 : b.booking_status = "cancelled" <;>
    simp [h1, h2]

theorem selectHolds_removeInactive (store : Store) (date : String) (nowMs : Nat) :
    selectHolds (removeInactive nowMs store) date nowMs = selectHolds store date nowMs := by
  unfold selectHolds removeInactive
  simp only [List.filter_filter]
  congr 1
  apply List.filter_congr
  intro h _
  by_cases h1 : h.booking_date = date <;> by_cases h2 : nowMs < h.expires_at
  · have : ¬ h.expires_at ≤ nowMs := by omega
    simp [h1, h2, this]
  · simp [h1, h2]
  · simp [h1, h2]
  · simp [h1, h2]

/-- C21. For every store, clock and page, `calculateAvailableSlots` gives the
same result (grid, page state and toasts) on the store as on the store with
every cancelled booking and every hold with `expires_at <= now` removed. -/
theorem calculateAvailableSlots_ignores_inactive (clock : Clock) (store : Store)
    (sess : Session) :
    calculateAvailableSlots clock (removeInactive clock.nowMs store) sess =
      calculateAvailableSlots clock store sess := by
  unfold calculateAvailableSlots computeGrid
  simp only [selectBookings_removeInactive, selectHolds_removeInactive]

/-! ## Lead time, dates and the sweep -/

/-- Two minutes of day with the same label are equal. -/
theorem timeLabel_injective (a b : Nat) (h : timeLabel a = timeLabel b) : a = b := by
  have ha := parseHM_timeLabel a
  rw [h, parseHM_timeLabel] at ha
  exact (Option.some.inj ha).symm

/-- C22. For the current date the candidate starts are exactly the starts
`780 + 15 k` that fit before closing and lie more than 15 minutes after now:
every start `t <= nowMinutes + 15` is dropped and no later one is; for any
other date they are all the starts that fit.  No slot of the grid for the
current date starts within the buffer. -/
theorem calculateAvailableSlots_lead_time (clock : Clock) (store : Store) (sess : Session) :
    (sess.formData.bookingDate = clock.isoDate →
      ∀ t, t ∈ candidateSlots clock sess.formData.bookingDate sess.formData.duration ↔
        (∃ k, t = 780 + 15 * k ∧ t + sess.formData.duration ≤ 1320) ∧
          clock.hours * 60 + clock.minutes + 15 < t) ∧
    (sess.formData.bookingDate ≠ clock.isoDate →
      ∀ t, t ∈ candidateSlots clock sess.formData.bookingDate sess.formData.duration ↔
        ∃ k, t = 780 + 15 * k ∧ t + sess.formData.duration ≤ 1320) ∧
    (sess.formData.bookingDate = clock.isoDate →
      ∀ slot ∈ (calculateAvailableSlots clock store sess).1.availableSlots,
        ∀ t, slot.timeLabel = timeLabel t → clock.hours * 60 + clock.minutes + 15 < t) := by
  have hcand := candidateSlots_eq clock sess.formData.bookingDate sess.formData.duration
  refine ⟨?_, ?_, ?_⟩
  · intro htoday t
    rw [hcand, List.mem_filter, mem_allStarts]
    simp [htoday]
  · intro hother t
    rw [hcand, List.mem_filter, mem_allStarts]
    simp [hother]
  · intro htoday slot hslot t ht
    obtain ⟨busyMap, _, s, hs, hfor⟩ := mem_availableSlots clock store sess slot hslot
    obtain ⟨_, hlabel, _⟩ := slotFor_eq_some _ _ _ _ _ hfor
    have hst : s = t := timeLabel_injective s t (by rw [← hlabel, ht])
    subst hst
    rw [hcand, List.mem_filter] at hs
    simpa [htoday] using hs.2

/-- C23 at two failing inputs. On 31 May 2024 the grid query for 1 January
2020, a date before today, raises no toast and returns all 33 slots of a
one-hour booking, and so does the grid query for 31 December 2999. -/
theorem calculateAvailableSlots_accepts_any_date :
    (calculateAvailableSlots sampleClock Store.empty (askFor "2020-01-01" 60 1)).2 = [] ∧
    (calculateAvailableSlots sampleClock Store.empty
      (askFor "2020-01-01" 60 1)).1.availableSlots.length = 33 ∧
    (calculateAvailableSlots sampleClock Store.empty (askFor "2999-12-31" 60 1)).2 = [] ∧
    (calculateAvailableSlots sampleClock Store.empty
      (askFor "2999-12-31" 60 1)).1.availableSlots.length = 33 := by
  decide

/-- The grid query does not look at where the date lies: for every date other
than today the only toast it can raise is the one of a thrown `push`, and when
the rows read for the date fill the busy map the grid is built from all the
starts that fit before closing. -/
theorem calculateAvailableSlots_any_other_date (clock : Clock) (store : Store) (sess : Session)
    (hdate : sess.formData.bookingDate ≠ clock.isoDate) :
    ((calculateAvailableSlots clock store sess).2 = [] ∨
      (calculateAvailableSlots clock store sess).2 =
        [⟨"Error checking availability", pushOnUndefined⟩]) ∧
    ∀ busyMap,
      fillBusyMap (selectBookings store sess.formData.bookingDate ++
        selectHolds store sess.formData.bookingDate clock.nowMs) = some busyMap →
      (calculateAvailableSlots clock store sess).2 = [] ∧
      (calculateAvailableSlots clock store sess).1.availableSlots =
        validSlots busyMap sess.formData.duration sess.formData.laneCount
          (allStarts sess.formData.duration) := by
  have hcand : candidateSlots clock sess.formData.bookingDate sess.formData.duration =
      allStarts sess.formData.duration := by
    rw [candidateSlots_eq]
    simp [hdate]
  unfold calculateAvailableSlots computeGrid
  simp only [hcand]
  by_cases hlen : (allStarts sess.formData.duration).length = 0
  · rw [if_pos hlen]
    refine ⟨Or.inl rfl, ?_⟩
    intro busyMap _
    rw [List.length_eq_zero] at hlen
    simp [hlen, validSlots]
  · rw [if_neg hlen]
    cases hfill : fillBusyMap (selectBookings store sess.formData.bookingDate ++
        selectHolds store sess.formData.bookingDate clock.nowMs) with
    | none => exact ⟨Or.inr rfl, fun _ h => by simp at h⟩
    | some busyMap =>
      refine ⟨Or.inl rfl, ?_⟩
      intro busyMap' h
      simp only [Option.some.injEq] at h
      subst h
      exact ⟨rfl, rfl⟩

/-- Passing the store through the requests of the grid query gives back the
store it found, with the page state and the toasts of
`calculateAvailableSlots` on that store. -/
theorem calculateAvailableSlotsM_eq (clock : Clock) (store : Store) (sess : Session) :
    calculateAvailableSlotsM clock sess store =
      (calculateAvailableSlots clock store sess, store) := by
  unfold calculateAvailableSlotsM calculateAvailableSlots computeGrid
  simp only [selectBookingsRequest, selectHoldsRequest]
  split
  · rfl
  · split <;> rfl

/-- Passing the store through the requests of `handleHoldAndContinue` gives
the store, the page state and the toasts of the handler: its insert is where
the store changes. -/
theorem handleHoldAndContinueM_eq (backend : Backend) (clock : Clock) (uuid : String)
    (store : Store) (sess : Session) :
    handleHoldAndContinueM backend clock uuid sess store =
      (((handleHoldAndContinue backend clock uuid store sess).session,
        (handleHoldAndContinue backend clock uuid store sess).toasts),
       (handleHoldAndContinue backend clock uuid store sess).store) := by
  unfold handleHoldAndContinueM handleHoldAndContinue
  split
  · rfl
  · split
    · simp only [calculateAvailableSlotsM_eq, holdFailed]
    · rename_i slot _
      simp only [insertHoldsRequest]
      cases backend.insertHolds store (holdRecords clock uuid sess.formData slot.lanes) with
      | none => rfl
      | some e => simp only [calculateAvailableSlotsM_eq, holdFailed]

/-- C24. The grid query only reads: for every clock, page state and store,
`calculateAvailableSlots` run with the store passed from request to request
leaves the store it found, bookings and holds, exactly as it was; what it
returns is the page state and the toasts of `calculateAvailableSlots` on that
store. -/
theorem calculateAvailableSlotsM_only_reads (clock : Clock) (store : Store) (sess : Session) :
    (calculateAvailableSlotsM clock sess store).2 = store ∧
    (calculateAvailableSlotsM clock sess store).2.bookings = store.bookings ∧
    (calculateAvailableSlotsM clock sess store).2.holds = store.holds ∧
    (calculateAvailableSlotsM clock sess store).1 = calculateAvailableSlots clock store sess := by
  rw [calculateAvailableSlotsM_eq]
  exact ⟨rfl, rfl, rfl, rfl⟩

/-- What the sweep does: the bookings are untouched and the holds kept are
those with `expires_at` at or after now. -/
theorem cleanup_eq (clock : Clock) (store : Store) :
    (cleanup clock store).bookings = store.bookings ∧
    ∀ row, row ∈ (cleanup clock store).holds ↔ row ∈ store.holds ∧ clock.nowMs ≤ row.expires_at := by
  refine ⟨rfl, ?_⟩
  intro row
  simp [cleanup, List.mem_filter]

/-- C25 at a failing input. On a store with a hold whose `expires_at` is
exactly now, the sweep deletes nothing: the hold is still in the table, though
the grid's query of line 94 no longer reads it. -/
theorem cleanup_keeps_hold_expiring_now :
    storeWithInactive.holds.map HoldRow.expires_at = [sampleClock.nowMs] ∧
    (cleanup sampleClock storeWithInactive).holds = storeWithInactive.holds ∧
    selectHolds storeWithInactive "2024-06-01" sampleClock.nowMs = [] := by
  decide

/-! ## Rows read back, and the grid's completeness -/

/-- C29. When the selected start time is the label of the minute `s`, every
hold row of `holdRecords` and every booking row of `bookingsToInsert` is read
back by `addToMap` as the range from `s` to `s + duration`. -/
theorem written_rows_read_back (clock : Clock) (uuid holdToken : String) (sess : Session)
    (lanesToHold : List Nat) (s : Nat) (hs : sess.formData.startTime = timeLabel s) :
    (∀ row ∈ holdRecords clock uuid sess.formData lanesToHold,
      Item.range ⟨row.lane_number, row.start_time, row.end_time⟩ =
        ⟨some s, some (s + sess.formData.duration)⟩) ∧
    (∀ row ∈ bookingsToInsert sess holdToken,
      Item.range ⟨row.lane_number, row.start_time, row.end_time⟩ =
        ⟨some s, some (s + sess.formData.duration)⟩) := by
  constructor
  · intro row hrow
    simp only [holdRecords, List.mem_map] at hrow
    obtain ⟨lane, _, rfl⟩ := hrow
    simp only [Item.range, hs, endLabel_timeLabel, parseHM_timeLabel]
  · intro row hrow
    simp only [bookingsToInsert, List.mem_map] at hrow
    obtain ⟨lane, _, rfl⟩ := hrow
    simp only [Item.range, hs, endLabel_timeLabel, parseHM_timeLabel]

/-- C29 on the page that picked 13:00 for an hour: `s` is 780. -/
theorem written_rows_read_back_witness :
    (∀ row ∈ holdRecords sampleClock "uuid-1" (pickedOnEmptyStore "13:00").formData [1, 2],
      Item.range ⟨row.lane_number, row.start_time, row.end_time⟩ =
        ⟨some 780, some (780 + (pickedOnEmptyStore "13:00").formData.duration)⟩) ∧
    (∀ row ∈ bookingsToInsert (pickedOnEmptyStore "13:00") "uuid-1",
      Item.range ⟨row.lane_number, row.start_time, row.end_time⟩ =
        ⟨some 780, some (780 + (pickedOnEmptyStore "13:00").formData.duration)⟩) :=
  written_rows_read_back sampleClock "uuid-1" "uuid-1" (pickedOnEmptyStore "13:00") [1, 2] 780
    (by decide)

/-- C28 does not hold as stated: with an active hold of lane 9 in the store,
the grid for an hour on one lane is empty and the error toast is raised,
though all of the lanes 1 to 8 are free at 13:00. -/
theorem calculateAvailableSlots_empty_on_lane_nine :
    (calculateAvailableSlots sampleClock storeWithLaneNine
      (askFor "2024-06-01" 60 1)).1.availableSlots = [] ∧
    (calculateAvailableSlots sampleClock storeWithLaneNine (askFor "2024-06-01" 60 1)).2 =
      [⟨"Error checking availability", pushOnUndefined⟩] ∧
    780 ∈ candidateSlots sampleClock "2024-06-01" 60 ∧
    freeLaneCount storeWithLaneNine sampleClock.nowMs "2024-06-01" 780 840 = 8 := by
  decide

/-! ## The grid over JavaScript numbers: lemmas -/

/-- When every push succeeds, each key holds what it held before followed by
the ranges read from the items of that lane, in order. -/
theorem foldlM_addToMapJs (read : String → JsNumber) (items : List Item) :
    ∀ (m m' : JsBusyMap), items.foldlM (addToMapJs read) m = some m' →
      ∀ lane, m' lane =
        (m lane).map (fun rs =>
          rs ++ (items.filter (fun it => decide (it.lane_number = lane))).map
            (fun it => ⟨read it.start_time, read it.end_time⟩)) := by
  induction items with
  | nil =>
    intro m m' h lane
    simp only [List.foldlM, pure, Option.some.injEq] at h
    subst h
    cases m lane <;> simp
  | cons item rest ih =>
    intro m m' h lane
    simp only [List.foldlM, bind, Option.bind] at h
    cases hstep : addToMapJs read m item with
    | none => simp [hstep] at h
    | some m1 =>
      rw [hstep] at h
      have hrest := ih m1 m' h lane
      rw [hrest]
      unfold addToMapJs at hstep
      cases hm : m item.lane_number with
      | none => simp [hm] at hstep
      | some ranges =>
        rw [hm] at hstep
        simp only [Option.some.injEq] at hstep
        subst hstep
        by_cases hl : lane = item.lane_number
        · subst hl
          simp [hm]
        · have hl' : ¬ item.lane_number = lane := fun h => hl h.symm
          simp only [hl, if_false, List.filter_cons, hl', decide_False, Bool.false_eq_true]

/-- After a successful fill, the key of a lane `1 .. TOTAL_LANES` holds the
ranges read from the items of that lane. -/
theorem fillBusyMapJs_lane (read : String → JsNumber) (items : List Item) (busyMap : JsBusyMap)
    (h : fillBusyMapJs read items = some busyMap) (lane : Nat)
    (h1 : 1 ≤ lane) (h8 : lane ≤ TOTAL_LANES) :
    busyMap lane =
      some ((items.filter (fun it => decide (it.lane_number = lane))).map
        (fun it => ⟨read it.start_time, read it.end_time⟩)) := by
  have := foldlM_addToMapJs read items emptyBusyMapJs busyMap h lane
  rw [this]
  simp [emptyBusyMapJs, h1, h8]

/-- The items the grid reads are the active intervals of the date. -/
theorem exists_item_iff_js (read : String → JsNumber) (store : Store) (date : String)
    (nowMs lane : Nat) (p : JsNumber → JsNumber → Prop) :
    (∃ it ∈ selectBookings store date ++ selectHolds store date nowMs,
        it.lane_number = lane ∧ p (read it.start_time) (read it.end_time)) ↔
      ∃ iv ∈ activeIntervalsJs read store nowMs,
        iv.lane = lane ∧ iv.date = date ∧ p iv.start iv.stop := by
  constructor
  · rintro ⟨it, hit, hlane, hp⟩
    rw [List.mem_append] at hit
    rcases hit with hit | hit
    · simp only [selectBookings, List.mem_map, List.mem_filter, Bool.and_eq_true,
        decide_eq_true_eq] at hit
      obtain ⟨b, ⟨hb, hd, hs⟩, rfl⟩ := hit
      refine ⟨⟨b.lane_number, b.booking_date, read b.start_time, read b.end_time⟩,
        ?_, hlane, hd, hp⟩
      simp only [activeIntervalsJs, List.mem_append, List.mem_map, List.mem_filter,
        decide_eq_true_eq]
      exact Or.inl ⟨b, ⟨hb, hs⟩, rfl⟩
    · simp only [selectHolds, List.mem_map, List.mem_filter, Bool.and_eq_true,
        decide_eq_true_eq] at hit
      obtain ⟨h, ⟨hh, hd, hs⟩, rfl⟩ := hit
      refine ⟨⟨h.lane_number, h.booking_date, read h.start_time, read h.end_time⟩,
        ?_, hlane, hd, hp⟩
      simp only [activeIntervalsJs, List.mem_append, List.mem_map, List.mem_filter,
        decide_eq_true_eq]
      exact Or.inr ⟨h, ⟨hh, hs⟩, rfl⟩
  · rintro ⟨iv, hiv, hlane, hdate, hp⟩
    simp only [activeIntervalsJs, List.mem_append, List.mem_map, List.mem_filter,
      decide_eq_true_eq] at hiv
    rcases hiv with ⟨b, ⟨hb, hs⟩, rfl⟩ | ⟨h, ⟨hh, hs⟩, rfl⟩
    · refine ⟨⟨b.lane_number, b.start_time, b.end_time⟩, ?_, hlane, hp⟩
      rw [List.mem_append]
      left
      simp only [selectBookings, List.mem_map, List.mem_filter, Bool.and_eq_true,
        decide_eq_true_eq]
      exact ⟨b, ⟨hb, hdate, hs⟩, rfl⟩
    · refine ⟨⟨h.lane_number, h.start_time, h.end_time⟩, ?_, hlane, hp⟩
      rw [List.mem_append]
      right
      simp only [selectHolds, List.mem_map, List.mem_filter, Bool.and_eq_true,
        decide_eq_true_eq]
      exact ⟨h, ⟨hh, hdate, hs⟩, rfl⟩

/-- On a filled busy map, a lane `1 .. TOTAL_LANES` is not busy over a slot
exactly when it has no active interval of the date overlapping the slot. -/
theorem isBusyJs_eq_false_iff (read : String → JsNumber) (store : Store) (date : String)
    (nowMs : Nat) (busyMap : JsBusyMap)
    (h : fillBusyMapJs read (selectBookings store date ++ selectHolds store date nowMs) =
      some busyMap)
    (s e lane : Nat) (h1 : 1 ≤ lane) (h8 : lane ≤ TOTAL_LANES) :
    isBusyJs busyMap s e lane = false ↔ LaneFreeJs read store nowMs date lane s e := by
  rw [← Bool.not_eq_true, not_iff_comm]
  unfold isBusyJs
  rw [fillBusyMapJs_lane read _ _ h lane h1 h8]
  simp only [List.any_eq_true, List.mem_map, List.mem_filter, decide_eq_true_eq]
  have key := exists_item_iff_js read store date nowMs lane
    (fun a b => b.gtNat s = true ∧ a.ltNat e = true)
  constructor
  · intro hfree
    have : ∃ iv ∈ activeIntervalsJs read store nowMs, iv.lane = lane ∧ iv.date = date ∧
        (iv.stop.gtNat s = true ∧ iv.start.ltNat e = true) := by
      by_contra hcon
      apply hfree
      intro iv hiv hl hd hov
      exact hcon ⟨iv, hiv, hl, hd, hov⟩
    obtain ⟨it, hit, hl, hp⟩ := key.mpr this
    refine ⟨⟨read it.start_time, read it.end_time⟩, ⟨it, ⟨hit, hl⟩, rfl⟩, ?_⟩
    simp only [rangeHitsJs, Bool.and_eq_true]
    exact hp
  · rintro ⟨r, ⟨it, ⟨hit, hl⟩, rfl⟩, hr⟩ hfree
    simp only [rangeHitsJs, Bool.and_eq_true] at hr
    obtain ⟨iv, hiv, hl', hd, hov⟩ := key.mp ⟨it, hit, hl, hr⟩
    exact hfree iv hiv hl' hd hov

/-- The free lanes of a slot, on a filled busy map: within `1 .. TOTAL_LANES`
and exactly the lanes with no overlapping active interval. -/
theorem mem_freeLanesJs_iff (read : String → JsNumber) (store : Store) (date : String)
    (nowMs : Nat) (busyMap : JsBusyMap)
    (h : fillBusyMapJs read (selectBookings store date ++ selectHolds store date nowMs) =
      some busyMap)
    (s e lane : Nat) :
    lane ∈ freeLanesJs busyMap s e ↔
      1 ≤ lane ∧ lane ≤ TOTAL_LANES ∧ LaneFreeJs read store nowMs date lane s e := by
  unfold freeLanesJs
  simp only [List.mem_filter, List.mem_range', Bool.not_eq_true']
  constructor
  · rintro ⟨⟨i, hi, rfl⟩, hb⟩
    have h1 : 1 ≤ 1 + 1 * i := by omega
    have h8 : 1 + 1 * i ≤ TOTAL_LANES := by omega
    exact ⟨h1, h8, (isBusyJs_eq_false_iff read store date nowMs busyMap h s e _ h1 h8).mp hb⟩
  · rintro ⟨h1, h8, hf⟩
    refine ⟨⟨lane - 1, by omega, by omega⟩, ?_⟩
    exact (isBusyJs_eq_false_iff read store date nowMs busyMap h s e _ h1 h8).mpr hf

/-- The free lanes are listed in ascending order. -/
theorem freeLanesJs_sorted (busyMap : JsBusyMap) (s e : Nat) :
    (freeLanesJs busyMap s e).Pairwise (· < ·) := by
  unfold freeLanesJs
  apply List.Pairwise.filter
  exact List.pairwise_lt_range' 1 TOTAL_LANES

/-- Every slot of the stored grid comes from a candidate start through the
callback of lines 108-125, on the busy map filled from the store. -/
theorem mem_availableSlotsJs (read : String → JsNumber) (clock : Clock) (store : Store)
    (sess : Session) (slot : Slot)
    (h : slot ∈ (calculateAvailableSlotsJs read clock store sess).1.availableSlots) :
    ∃ busyMap,
      fillBusyMapJs read (selectBookings store sess.formData.bookingDate ++
        selectHolds store sess.formData.bookingDate clock.nowMs) = some busyMap ∧
      ∃ s ∈ candidateSlots clock sess.formData.bookingDate sess.formData.duration,
        slotForJs busyMap sess.formData.duration sess.formData.laneCount s = some slot := by
  unfold calculateAvailableSlotsJs at h
  cases hg : computeGridJs read clock store sess.formData.bookingDate sess.formData.duration
      sess.formData.laneCount with
  | none => simp [hg] at h
  | some grid =>
    simp only [hg] at h
    unfold computeGridJs at hg
    simp only [] at hg
    split at hg
    · simp only [Option.some.injEq] at hg
      subst hg
      simp at h
    · cases hf : fillBusyMapJs read (selectBookings store sess.formData.bookingDate ++
          selectHolds store sess.formData.bookingDate clock.nowMs) with
      | none => simp [hf] at hg
      | some busyMap =>
        simp only [hf, Option.some.injEq] at hg
        subst hg
        refine ⟨busyMap, rfl, ?_⟩
        simpa [validSlotsJs, List.mem_filterMap] using h

/-- What the callback returns when it returns a slot. -/
theorem slotForJs_eq_some (busyMap : JsBusyMap) (duration laneCount s : Nat) (slot : Slot)
    (h : slotForJs busyMap duration laneCount s = some slot) :
    laneCount ≤ (freeLanesJs busyMap s (s + duration)).length ∧
      slot.timeLabel = timeLabel s ∧
      slot.lanes = (freeLanesJs busyMap s (s + duration)).take laneCount := by
  unfold slotForJs at h
  simp only [] at h
  split at h
  · rename_i hle
    simp only [Option.some.injEq] at h
    subst h
    exact ⟨hle, rfl, rfl⟩
  · simp at h

/-- A push keeps every key that was set. -/
theorem addToMapJs_isSome (read : String → JsNumber) (m m' : JsBusyMap) (item : Item)
    (h : addToMapJs read m item = some m') (lane : Nat) :
    (m' lane).isSome = (m lane).isSome := by
  unfold addToMapJs at h
  cases hm : m item.lane_number with
  | none => simp [hm] at h
  | some ranges =>
    rw [hm] at h
    simp only [Option.some.injEq] at h
    subst h
    by_cases hl : lane = item.lane_number
    · subst hl
      simp [hm]
    · simp [hl]

/-- The fill succeeds when every item is on a key that is set. -/
theorem foldlM_addToMapJs_isSome (read : String → JsNumber) (items : List Item) :
    ∀ m : JsBusyMap, (∀ it ∈ items, (m it.lane_number).isSome = true) →
      ∃ m', items.foldlM (addToMapJs read) m = some m' := by
  induction items with
  | nil => intro m _; exact ⟨m, rfl⟩
  | cons item rest ih =>
    intro m h
    have hitem := h item (List.mem_cons_self _ _)
    cases hstep : addToMapJs read m item with
    | none =>
      unfold addToMapJs at hstep
      cases hm : m item.lane_number with
      | none => simp [hm] at hitem
      | some ranges => simp [hm] at hstep
    | some m1 =>
      have hrest : ∀ it ∈ rest, (m1 it.lane_number).isSome = true := by
        intro it hit
        rw [addToMapJs_isSome read m m1 item hstep]
        exact h it (List.mem_cons_of_mem _ hit)
      obtain ⟨m', hm'⟩ := ih m1 hrest
      exact ⟨m', by simp only [List.foldlM, bind, Option.bind, hstep, hm']⟩

/-- The rows the grid reads are on lanes `1 .. TOTAL_LANES` when the active
intervals of the date are. -/
theorem items_in_range_js (read : String → JsNumber) (store : Store) (date : String)
    (nowMs : Nat)
    (h : ∀ iv ∈ activeIntervalsJs read store nowMs,
      iv.date = date → 1 ≤ iv.lane ∧ iv.lane ≤ TOTAL_LANES) :
    ∀ it ∈ selectBookings store date ++ selectHolds store date nowMs,
      1 ≤ it.lane_number ∧ it.lane_number ≤ TOTAL_LANES := by
  intro it hit
  have := (exists_item_iff_js read store date nowMs it.lane_number (fun _ _ => True)).mp
    ⟨it, hit, rfl, trivial⟩
  obtain ⟨iv, hiv, hlane, hdate, _⟩ := this
  rw [← hlane]
  exact h iv hiv hdate

/-! ## The grid over JavaScript numbers: lowest free lanes, completeness -/

/-- C3. For every reading of the stored time strings, every slot that
`calculateAvailableSlots` emits is the label of a candidate start `s` and
lists exactly `laneCount` lanes, in strictly ascending order, each among
`1 .. 8` and with no active interval `[a, b)` of the date such that `s < b`
and `a < s + duration`; every other such free lane is above all the listed
ones. -/
theorem calculateAvailableSlotsJs_lowest_free (read : String → JsNumber) (clock : Clock)
    (store : Store) (sess : Session) (slot : Slot)
    (h : slot ∈ (calculateAvailableSlotsJs read clock store sess).1.availableSlots) :
    ∃ s ∈ candidateSlots clock sess.formData.bookingDate sess.formData.duration,
      slot.timeLabel = timeLabel s ∧
      slot.lanes.length = sess.formData.laneCount ∧
      slot.lanes.Pairwise (· < ·) ∧
      (∀ lane ∈ slot.lanes, 1 ≤ lane ∧ lane ≤ TOTAL_LANES ∧
        LaneFreeJs read store clock.nowMs sess.formData.bookingDate lane s
          (s + sess.formData.duration)) ∧
      (∀ lane, 1 ≤ lane → lane ≤ TOTAL_LANES →
        LaneFreeJs read store clock.nowMs sess.formData.bookingDate lane s
          (s + sess.formData.duration) →
        lane ∉ slot.lanes → ∀ m ∈ slot.lanes, m < lane) := by
  obtain ⟨busyMap, hfill, s, hs, hslot⟩ := mem_availableSlotsJs read clock store sess slot h
  obtain ⟨hle, hlabel, hlanes⟩ := slotForJs_eq_some _ _ _ _ _ hslot
  have hmem := mem_freeLanesJs_iff read store sess.formData.bookingDate clock.nowMs busyMap
    hfill s (s + sess.formData.duration)
  have hsorted := freeLanesJs_sorted busyMap s (s + sess.formData.duration)
  refine ⟨s, hs, hlabel, ?_, ?_, ?_, ?_⟩
  · rw [hlanes, List.length_take]
    omega
  · rw [hlanes]
    exact hsorted.sublist (List.take_sublist _ _)
  · intro lane hlane
    rw [hlanes] at hlane
    exact (hmem lane).mp (List.mem_of_mem_take hlane)
  · intro lane h1 h8 hfree hnot
    rw [hlanes] at hnot ⊢
    exact lt_of_mem_of_not_mem_take _ hsorted _ lane ((hmem lane).mpr ⟨h1, h8, hfree⟩) hnot

/-- C3 at the 18:00 slot of the sample day with the row of lane 3 padded with
blanks, three lanes asked for an hour: lane 3 is booked, and lanes 1, 2 and 4
are listed. -/
theorem calculateAvailableSlotsJs_lowest_free_witness :
    ∃ s ∈ candidateSlots sampleClock "2024-06-01" 60,
      "18:00" = timeLabel s ∧
      [1, 2, 4].length = 3 ∧
      [1, 2, 4].Pairwise (· < ·) ∧
      (∀ lane ∈ [1, 2, 4], 1 ≤ lane ∧ lane ≤ TOTAL_LANES ∧
        LaneFreeJs readPadded storeWithPaddedRow sampleClock.nowMs "2024-06-01" lane s
          (s + 60)) ∧
      (∀ lane, 1 ≤ lane → lane ≤ TOTAL_LANES →
        LaneFreeJs readPadded storeWithPaddedRow sampleClock.nowMs "2024-06-01" lane s
          (s + 60) →
        lane ∉ [1, 2, 4] → ∀ m ∈ [1, 2, 4], m < lane) :=
  calculateAvailableSlotsJs_lowest_free readPadded sampleClock storeWithPaddedRow
    (askFor "2024-06-01" 60 3) ⟨"18:00", [1, 2, 4]⟩ (by decide)

/-- C28, as the page has it. For every reading of the stored time strings,
when every active interval of the date is on a lane from 1 to 8, every start
`t = 780 + 15 k` with `t + duration <= 1320` that passes the same-day
lead-time filter and for which at least `laneCount` of the 8 lanes have no
active interval overlapping `[t, t + duration)` has its slot in the grid. -/
theorem calculateAvailableSlotsJs_complete (read : String → JsNumber) (clock : Clock)
    (store : Store) (sess : Session) (t k : Nat) (free : List Nat)
    (hlanes : ∀ iv ∈ activeIntervalsJs read store clock.nowMs,
      iv.date = sess.formData.bookingDate → 1 ≤ iv.lane ∧ iv.lane ≤ TOTAL_LANES)
    (ht : t = 780 + 15 * k) (hfit : t + sess.formData.duration ≤ 1320)
    (hlead : sess.formData.bookingDate = clock.isoDate →
      clock.hours * 60 + clock.minutes + 15 < t)
    (hnodup : free.Nodup) (hcount : sess.formData.laneCount ≤ free.length)
    (hfree : ∀ lane ∈ free, 1 ≤ lane ∧ lane ≤ TOTAL_LANES ∧
      LaneFreeJs read store clock.nowMs sess.formData.bookingDate lane t
        (t + sess.formData.duration)) :
    ∃ slot ∈ (calculateAvailableSlotsJs read clock store sess).1.availableSlots,
      slot.timeLabel = timeLabel t := by
  have hcand : t ∈ candidateSlots clock sess.formData.bookingDate sess.formData.duration := by
    rw [candidateSlots_eq, List.mem_filter, mem_allStarts]
    refine ⟨⟨k, ht, hfit⟩, ?_⟩
    by_cases htoday : sess.formData.bookingDate = clock.isoDate
    · simp [htoday, hlead htoday]
    · simp [htoday]
  obtain ⟨busyMap, hfill⟩ := foldlM_addToMapJs_isSome read
    (selectBookings store sess.formData.bookingDate ++
      selectHolds store sess.formData.bookingDate clock.nowMs) emptyBusyMapJs (by
      intro it hit
      have := items_in_range_js read store _ _ hlanes it hit
      simp [emptyBusyMapJs, this.1, this.2])
  have hfill' : fillBusyMapJs read (selectBookings store sess.formData.bookingDate ++
      selectHolds store sess.formData.bookingDate clock.nowMs) = some busyMap := hfill
  have hsub : free ⊆ freeLanesJs busyMap t (t + sess.formData.duration) := by
    intro lane hlane
    exact (mem_freeLanesJs_iff read store _ _ busyMap hfill' t _ lane).mpr (hfree lane hlane)
  have hlen : sess.formData.laneCount ≤
      (freeLanesJs busyMap t (t + sess.formData.duration)).length :=
    le_trans hcount (hnodup.subperm hsub).length_le
  have hne : (candidateSlots clock sess.formData.bookingDate sess.formData.duration).length ≠ 0 := by
    intro h0
    rw [List.length_eq_zero] at h0
    rw [h0] at hcand
    simp at hcand
  refine ⟨⟨timeLabel t, (freeLanesJs busyMap t (t + sess.formData.duration)).take
    sess.formData.laneCount⟩, ?_, rfl⟩
  unfold calculateAvailableSlotsJs computeGridJs
  simp only [hne, if_false, hfill']
  simp only [validSlotsJs, List.mem_filterMap]
  refine ⟨t, hcand, ?_⟩
  unfold slotForJs
  simp only [hlen, if_true]

/-- C28 as amended, on the sample day with the row of lane 3 padded with
blanks: at 17:00 seven lanes are free for two hours and seven are asked
for. -/
theorem calculateAvailableSlotsJs_complete_witness :
    ∃ slot ∈ (calculateAvailableSlotsJs readPadded sampleClock storeWithPaddedRow
        (askFor "2024-06-01" 120 7)).1.availableSlots,
      slot.timeLabel = timeLabel 1020 :=
  calculateAvailableSlotsJs_complete readPadded sampleClock storeWithPaddedRow
    (askFor "2024-06-01" 120 7) 1020 16
    [1, 2, 4, 5, 6, 7, 8] (by decide) (by decide) (by decide) (by decide) (by decide)
    (by decide) (by decide)

/-! ## The two grids agree on the strings `parseHM` covers -/

/-- The comparison `x > n` on the number of an integer. -/
theorem gtNat_ofNat (k n : Nat) : (JsNumber.ofNat k).gtNat n = decide (n < k) := by
  simp [JsNumber.ofNat, JsNumber.gtNat]

/-- The comparison `x < n` on the number of an integer. -/
theorem ltNat_ofNat (k n : Nat) : (JsNumber.ofNat k).ltNat n = decide (k < n) := by
  simp [JsNumber.ofNat, JsNumber.ltNat]

/-- The test of line 113 reads the same on a range and on its JavaScript
numbers. -/
theorem rangeHitsJs_toJs (s e : Nat) (r : Range) :
    rangeHitsJs s e r.toJs = rangeHits s e r := by
  obtain ⟨st, en⟩ := r
  cases st with
  | none =>
    cases en with
    | none => rfl
    | some b =>
      simp only [rangeHitsJs, rangeHits, Range.toJs, gtNat_ofNat, JsNumber.ltNat,
        Bool.and_false]
  | some a =>
    cases en with
    | none => rfl
    | some b => simp only [rangeHitsJs, rangeHits, Range.toJs, gtNat_ofNat, ltNat_ofNat]

/-- A push under the reading of `parseHM`. -/
theorem addToMapJs_toJs (m : BusyMap) (item : Item) :
    addToMapJs readMinutes m.toJs item = (addToMap m item).map BusyMap.toJs := by
  unfold addToMapJs addToMap
  cases hm : m item.lane_number with
  | none => simp [BusyMap.toJs, hm]
  | some ranges =>
    simp only [BusyMap.toJs, hm, Option.map_some']
    congr 1
    funext lane
    by_cases hl : lane = item.lane_number
    · subst hl
      simp only [BusyMap.toJs, if_true, hm, Option.map_some', List.map_append, List.map_cons,
        List.map_nil]
      simp only [Range.toJs, readMinutes]
    · simp only [BusyMap.toJs, hl, if_false]

/-- The pushes of a list of items under the reading of `parseHM`. -/
theorem foldlM_addToMapJs_toJs (items : List Item) :
    ∀ m : BusyMap, items.foldlM (addToMapJs readMinutes) m.toJs =
      (items.foldlM addToMap m).map BusyMap.toJs := by
  induction items with
  | nil => intro m; rfl
  | cons item rest ih =>
    intro m
    simp only [List.foldlM, bind, Option.bind]
    rw [addToMapJs_toJs]
    cases addToMap m item with
    | none => rfl
    | some m1 => exact ih m1

/-- The fill under the reading of `parseHM`. -/
theorem fillBusyMapJs_readMinutes (items : List Item) :
    fillBusyMapJs readMinutes items = (fillBusyMap items).map BusyMap.toJs := by
  have h : emptyBusyMapJs = emptyBusyMap.toJs := by
    funext lane
    simp only [emptyBusyMapJs, BusyMap.toJs, emptyBusyMap]
    split <;> rfl
  unfold fillBusyMapJs fillBusyMap
  rw [h]
  exact foldlM_addToMapJs_toJs items emptyBusyMap

/-- The free lanes read the same on a busy map and on its JavaScript
numbers. -/
theorem freeLanesJs_toJs (m : BusyMap) (s e : Nat) : freeLanesJs m.toJs s e = freeLanes m s e := by
  unfold freeLanesJs freeLanes
  congr 1
  funext lane
  congr 1
  unfold isBusyJs isBusy BusyMap.toJs
  cases m lane with
  | none => rfl
  | some ranges =>
    show (List.map Range.toJs ranges).any (rangeHitsJs s e) = ranges.any (rangeHits s e)
    induction ranges with
    | nil => rfl
    | cons r rs ih => simp only [List.map_cons, List.any_cons, ih, rangeHitsJs_toJs]

/-- On the reading of `parseHM`, the grid over JavaScript numbers is the grid
of `calculateAvailableSlots`. -/
theorem calculateAvailableSlotsJs_readMinutes (clock : Clock) (store : Store) (sess : Session) :
    calculateAvailableSlotsJs readMinutes clock store sess =
      calculateAvailableSlots clock store sess := by
  have hgrid : computeGridJs readMinutes clock store sess.formData.bookingDate
      sess.formData.duration sess.formData.laneCount =
      computeGrid clock store sess.formData.bookingDate sess.formData.duration
        sess.formData.laneCount := by
    unfold computeGridJs computeGrid
    simp only [fillBusyMapJs_readMinutes]
    split
    · rfl
    · cases fillBusyMap (selectBookings store sess.formData.bookingDate ++
          selectHolds store sess.formData.bookingDate clock.nowMs) with
      | none => rfl
      | some m =>
        simp only [Option.map_some', validSlotsJs, validSlots]
        congr 2
        funext s
        unfold slotForJs slotFor
        simp only [freeLanesJs_toJs]
  unfold calculateAvailableSlotsJs calculateAvailableSlots
  rw [hgrid]

/-- The row of lane 3 padded with blanks: `Number` reads its times, so at
18:00 lane 3 is busy, a request for eight lanes gets no slot and a request for
three gets lanes 1, 2 and 4; a reading that takes the padded pieces for `NaN`
has lane 3 free. -/
theorem calculateAvailableSlotsJs_padded_row :
    readPadded "18:00   " = JsNumber.ofNat 1080 ∧
    readMinutes "18:00   " = JsNumber.nan ∧
    ((calculateAvailableSlotsJs readPadded sampleClock storeWithPaddedRow
      (askFor "2024-06-01" 60 3)).1.availableSlots.find?
        (fun s => decide (s.timeLabel = "18:00"))) = some ⟨"18:00", [1, 2, 4]⟩ ∧
    ((calculateAvailableSlotsJs readPadded sampleClock storeWithPaddedRow
      (askFor "2024-06-01" 60 8)).1.availableSlots.find?
        (fun s => decide (s.timeLabel = "18:00"))) = none ∧
    ((calculateAvailableSlotsJs readMinutes sampleClock storeWithPaddedRow
      (askFor "2024-06-01" 60 3)).1.availableSlots.find?
        (fun s => decide (s.timeLabel = "18:00"))) = some ⟨"18:00", [1, 2, 3]⟩ := by
  decide

/-! ## A hold on a fresh grid keeps the invariant -/

/-- The interval `addToMap` reads from a hold row. -/
theorem activeIntervals_append_holds (store : Store) (nowMs : Nat) (rows : List HoldRow)
    (hactive : ∀ row ∈ rows, nowMs < row.expires_at) :
    activeIntervals { store with holds := store.holds ++ rows } nowMs =
      activeIntervals store nowMs ++
        rows.map (fun h =>
          ⟨h.lane_number, h.booking_date, parseHM h.start_time, parseHM h.end_time⟩) := by
  unfold activeIntervals
  simp only [List.filter_append, List.map_append, List.append_assoc]
  congr 2
  congr 1
  rw [List.filter_eq_self]
  intro row hrow
  simp [hactive row hrow]

/-- C27. If no two active intervals of the store conflict, the grid is
computed against the store, and a slot is then picked and held with
`handleHoldAndContinue` while the store and its active intervals are the same
as when the grid was computed, then no two active intervals of the store after
the hold conflict. -/
theorem hold_on_fresh_grid_keeps_invariant (backend : Backend) (gridClock holdClock : Clock)
    (uuid : String) (store : Store) (sess : Session) (label : String)
    (hinv : NoDoubleBooking store holdClock.nowMs)
    (hsame : activeIntervals store holdClock.nowMs = activeIntervals store gridClock.nowMs) :
    NoDoubleBooking
      (handleHoldAndContinue backend holdClock uuid store
        (pickSlot (calculateAvailableSlots gridClock store sess).1 label)).store
      holdClock.nowMs := by
  have hdate : (pickSlot (calculateAvailableSlots gridClock store sess).1 label).formData.bookingDate
      = sess.formData.bookingDate := by
    unfold pickSlot calculateAvailableSlots
    split <;> rfl
  have hdur : (pickSlot (calculateAvailableSlots gridClock store sess).1 label).formData.duration
      = sess.formData.duration := by
    unfold pickSlot calculateAvailableSlots
    split <;> rfl
  have hstart : (pickSlot (calculateAvailableSlots gridClock store sess).1 label).formData.startTime
      = label := rfl
  have hgrid : (pickSlot (calculateAvailableSlots gridClock store sess).1 label).availableSlots
      = (calculateAvailableSlots gridClock store sess).1.availableSlots := rfl
  rcases handleHoldAndContinue_cases backend holdClock uuid store
      (pickSlot (calculateAvailableSlots gridClock store sess).1 label) with
    ⟨_, heq⟩ | ⟨_, message, heq⟩ | ⟨slot, hfind, heq⟩
  · rw [heq]
    exact hinv
  · rw [heq]
    exact hinv
  · rw [heq]
    have hmem : slot ∈ (calculateAvailableSlots gridClock store sess).1.availableSlots := by
      rw [← hgrid]
      exact List.mem_of_find?_eq_some hfind
    have hlabel : slot.timeLabel = label := by
      have := List.find?_some hfind
      rw [hstart] at this
      simpa using this
    obtain ⟨busyMap, hfill, s, _, hslot⟩ := mem_availableSlots gridClock store sess slot hmem
    obtain ⟨_, hs, hlanes⟩ := slotFor_eq_some _ _ _ _ _ hslot
    have hsorted : slot.lanes.Pairwise (· < ·) := by
      rw [hlanes]
      exact (freeLanes_sorted busyMap s _).sublist (List.take_sublist _ _)
    have hfree : ∀ lane ∈ slot.lanes,
        LaneFree store gridClock.nowMs sess.formData.bookingDate lane s
          (s + sess.formData.duration) := by
      intro lane hlane
      rw [hlanes] at hlane
      exact ((mem_freeLanes_iff store _ _ busyMap hfill s _ lane).mp
        (List.mem_of_mem_take hlane)).2.2
    have hls : label = timeLabel s := by rw [← hlabel, hs]
    have hpstart : parseHM
        (pickSlot (calculateAvailableSlots gridClock store sess).1 label).formData.startTime =
        some s := by
      rw [hstart, hls]
      exact parseHM_timeLabel s
    have hpend : parseHM
        (endLabel (pickSlot (calculateAvailableSlots gridClock store sess).1 label).formData.startTime
          (pickSlot (calculateAvailableSlots gridClock store sess).1 label).formData.duration) =
        some (s + sess.formData.duration) := by
      rw [hdur, hstart, hls, endLabel_timeLabel]
      exact parseHM_timeLabel _
    unfold NoDoubleBooking
    rw [activeIntervals_append_holds]
    · rw [List.pairwise_append]
      refine ⟨hinv, ?_, ?_⟩
      · simp only [holdRecords, List.map_map]
        rw [List.pairwise_map]
        refine hsorted.imp ?_
        intro l1 l2 hlt hconf
        have : l1 = l2 := hconf.1
        omega
      · intro x hx y hy hconf
        simp only [holdRecords, List.map_map, List.mem_map, Function.comp] at hy
        obtain ⟨lane, hlane, rfl⟩ := hy
        obtain ⟨hxl, hxd, a, b, hxa, hxb, p, q, hp, hq, h1, h2⟩ := hconf
        have hp' : some s = some p := hpstart.symm.trans hp
        have hq' : some (s + sess.formData.duration) = some q := hpend.symm.trans hq
        simp only [Option.some.injEq] at hp' hq'
        subst hp'
        subst hq'
        rw [hsame] at hx
        have hx1 : x.lane = lane := hxl
        have hx2 : x.date = sess.formData.bookingDate := by
          rw [← hdate]
          exact hxd
        exact hfree lane hlane x hx hx1 hx2 ⟨a, b, hxa, hxb, h2, h1⟩
    · intro row hrow
      simp only [holdRecords, List.mem_map] at hrow
      obtain ⟨lane, _, rfl⟩ := hrow
      simp only [HOLD_DURATION_MINUTES]
      omega

/-- C27 on the sample day: lanes 1 and 2 are held at 18:00, next to the
booking of lane 3. -/
theorem hold_on_fresh_grid_keeps_invariant_witness :
    NoDoubleBooking
      (handleHoldAndContinue plainTables (clockAt 1) "uuid-1" sampleStore
        (pickSlot (calculateAvailableSlots sampleClock sampleStore
          (askFor "2024-06-01" 60 2)).1 "18:00")).store
      (clockAt 1).nowMs :=
  hold_on_fresh_grid_keeps_invariant plainTables sampleClock (clockAt 1) "uuid-1" sampleStore
    (askFor "2024-06-01" 60 2) "18:00" (by decide) (by decide)

/-! ## The configuration-driven page: the hold state -/

/-- What `handleHoldAndContinue` does to the hold state: it leaves it as it
was, or it sets the token, the expiry and the booking id together, the token
and the booking id not empty. -/
theorem Configured.handleHoldAndContinue_page
    (response : Except PostgrestError (Option Configured.HoldResponse))
    (refetched : Option (List Configured.GridSlot)) (view : Configured.View) :
    (Configured.handleHoldAndContinue response refetched view).1.page = view.page ∨
    ∃ token expiry bookingId, token ≠ "" ∧ bookingId ≠ "" ∧
      (Configured.handleHoldAndContinue response refetched view).1.page =
        { view.page with
          holdToken := some token
          holdExpiry := some expiry
          holdBookingId := some bookingId
          currentStep := 2 } := by
  unfold Configured.handleHoldAndContinue
  by_cases hcfg : view.cfg = false
  · left
    rw [if_pos hcfg]
  · rw [if_neg hcfg]
    by_cases hstart : view.startTime = ""
    · left
      rw [if_pos hstart]
    · rw [if_neg hstart]
      cases view.availableSlots.find? (fun s => decide (s.timeLabel = view.startTime)) with
      | none => left; rfl
      | some slot =>
        simp only []
        by_cases hat : slot.startAt = ""
        · left
          rw [if_pos hat]
          rfl
        · rw [if_neg hat]
          cases response with
          | error e => left; rfl
          | ok data =>
            cases data with
            | none => left; rfl
            | some row =>
              obtain ⟨tok, exp, bid⟩ := row
              cases tok with
              | none => left; rfl
              | some token =>
                cases exp with
                | none => left; rfl
                | some expiry =>
                  cases bid with
                  | none => left; rfl
                  | some bookingId =>
                    simp only []
                    by_cases hempty : token = "" ∨ bookingId = ""
                    · left
                      rw [if_pos hempty]
                      rfl
                    · right
                      rw [if_neg hempty]
                      rw [not_or] at hempty
                      exact ⟨token, expiry, bookingId, hempty.1, hempty.2, rfl⟩

/-- Every action keeps the hold state consistent. -/
theorem Configured.step_consistent (view : Configured.View) (action : Configured.Action)
    (h : Configured.HoldConsistent view.page) :
    Configured.HoldConsistent (Configured.step view action).page := by
  cases action with
  | configLoaded ok grid =>
    simp only [Configured.step]
    split <;> exact h
  | inputsChanged grid =>
    simp only [Configured.step]
    split <;> exact h
  | pick label =>
    simp only [Configured.step]
    split <;> exact h
  | holdAndContinue response refetched =>
    simp only [Configured.step]
    split
    · rcases Configured.handleHoldAndContinue_page response refetched view with
        heq | ⟨token, expiry, bookingId, ht, hb, heq⟩
      · rw [heq]
        exact h
      · rw [heq]
        exact Or.inr ⟨token, expiry, bookingId, rfl, ht, rfl, rfl, hb⟩
    · exact h
  | fill name email =>
    simp only [Configured.step]
    split <;> exact h
  | next =>
    simp only [Configured.step]
    split <;> exact h
  | cancel =>
    simp only [Configured.step]
    split <;> exact h
  | back =>
    simp only [Configured.step]
    split <;> exact h
  | pay method =>
    simp only [Configured.step]
    split <;> exact h
  | book nowMs =>
    simp only [Configured.step]
    split
    · have hpage : (Configured.handleBook nowMs view.page).page = view.page := by
        unfold Configured.handleBook
        repeat' split
        all_goals rfl
      simp only [hpage]
      exact h
    · exact h

theorem Configured.run_consistent (actions : List Configured.Action) :
    ∀ view, Configured.HoldConsistent view.page →
      Configured.HoldConsistent (Configured.run view actions).page := by
  induction actions with
  | nil => intro view h; exact h
  | cons action rest ih =>
    intro view h
    exact ih _ (Configured.step_consistent view action h)

/-- C30. In every state the configuration-driven page reaches from its initial
state through its handlers, `holdToken`, `holdExpiry` and `holdBookingId` are
all unset, or all set with the token and the booking id not empty; so at every
instant `handleBook` either raises the session-expired toast or navigates, and
never raises the missing-hold toast. -/
theorem Configured.reachable_hold_consistent (actions : List Configured.Action) :
    Configured.HoldConsistent (Configured.run Configured.initialView actions).page ∧
    ∀ nowMs,
      (Configured.handleBook nowMs (Configured.run Configured.initialView actions).page).toasts ≠
        [⟨"Booking Failed", "Missing hold. Please start over."⟩] := by
  have hcons := Configured.run_consistent actions Configured.initialView
    (Or.inl ⟨rfl, rfl, rfl⟩)
  refine ⟨hcons, ?_⟩
  intro nowMs
  have hmsg : ¬ ("Session expired. Please start over." = "Missing hold. Please start over.") := by
    decide
  unfold Configured.handleBook
  rcases hcons with ⟨_, he, _⟩ | ⟨token, expiry, bookingId, ht, htne, he, hb, hbne⟩
  · rw [he]
    simp [hmsg]
  · rw [he]
    simp only []
    by_cases hle : expiry ≤ nowMs
    · rw [if_pos hle]
      simp [hmsg]
    · rw [if_neg hle, ht, hb]
      simp [htne, hbne]

/-! ## The price per lane -/

/-- The estimated total depends on the calendar only through the weekend
test of line 139. -/
theorem calculateTotal_congr (g1 g2 : String → Option Nat) (form : FormData)
    (h : (decide (g1 form.bookingDate = some 5) || decide (g1 form.bookingDate = some 6)) =
      (decide (g2 form.bookingDate = some 5) || decide (g2 form.bookingDate = some 6))) :
    calculateTotal g1 form = calculateTotal g2 form := by
  unfold calculateTotal
  simp only [h]

/-- The per-lane prices depend on the calendar only through the weekend test
of line 139. -/
theorem totalPricePerLane_congr (g1 g2 : String → Option Nat) (form : FormData)
    (h : (decide (g1 form.bookingDate = some 5) || decide (g1 form.bookingDate = some 6)) =
      (decide (g2 form.bookingDate = some 5) || decide (g2 form.bookingDate = some 6))) :
    totalPricePerLane g1 form = totalPricePerLane g2 form := by
  unfold totalPricePerLane
  rw [calculateTotal_congr g1 g2 form h]

/-- The prices of line 212 are one for each row of `bookingsToInsert`. -/
theorem totalPricePerLane_length (getDay : String → Option Nat) (sess : Session)
    (holdToken : String) :
    (totalPricePerLane getDay sess.formData).length =
      (bookingsToInsert sess holdToken).length := by
  simp [totalPricePerLane, bookingsToInsert]

set_option maxRecDepth 100000 in
/-- At the weekend price, three lanes for 87066069819562 minutes are estimated
at 78359462837605.81 and each lane is priced 26119820945868.61, three times
which is 78359462837605.83; at the weekday price, three lanes for
70226142811742 minutes are estimated at 52669607108806.51 and each lane is
priced 17556535702935.50. -/
theorem totalPricePerLane_at_drift :
    calculateTotal (fun _ => some 6) (lanesFor 3 87066069819562) =
      .decimal false 7835946283760581 ∧
    totalPricePerLane (fun _ => some 6) (lanesFor 3 87066069819562) =
      [.decimal false 2611982094586861, .decimal false 2611982094586861,
       .decimal false 2611982094586861] ∧
    calculateTotal (fun _ => some 3) (lanesFor 3 70226142811742) =
      .decimal false 5266960710880651 ∧
    totalPricePerLane (fun _ => some 3) (lanesFor 3 70226142811742) =
      [.decimal false 1755653570293550, .decimal false 1755653570293550,
       .decimal false 1755653570293550] := by
  decide

/-- C26. Splitting the price per lane can drift from the estimate: whatever
day of the week the browser's calendar gives for 1 June 2024, there is a
whole-minute duration for which, with three lanes asked for and three lanes
held, the three `total_price` values of line 212 are decimals that do not sum
to the estimated total of `calculateTotal`. -/
theorem totalPricePerLane_drifts (getDay : String → Option Nat) :
    ∃ duration total perLane : Nat,
      (lanesFor 3 duration).laneCount = 3 ∧
      (lanesFor 3 duration).selectedLanes.length = 3 ∧
      calculateTotal getDay (lanesFor 3 duration) = .decimal false total ∧
      totalPricePerLane getDay (lanesFor 3 duration) =
        [.decimal false perLane, .decimal false perLane, .decimal false perLane] ∧
      perLane + perLane + perLane ≠ total := by
  cases h : decide (getDay "2024-06-01" = some 5) || decide (getDay "2024-06-01" = some 6) with
  | true =>
    have hc : ∀ d, (decide (getDay (lanesFor 3 d).bookingDate = some 5) ||
        decide (getDay (lanesFor 3 d).bookingDate = some 6)) =
        (decide ((fun _ => some 6 : String → Option Nat) (lanesFor 3 d).bookingDate = some 5) ||
          decide ((fun _ => some 6 : String → Option Nat) (lanesFor 3 d).bookingDate = some 6)) := by
      intro d
      exact h
    refine ⟨87066069819562, 7835946283760581, 2611982094586861, rfl, rfl, ?_, ?_, by decide⟩
    · rw [calculateTotal_congr getDay (fun _ => some 6) _ (hc _)]
      exact totalPricePerLane_at_drift.1
    · rw [totalPricePerLane_congr getDay (fun _ => some 6) _ (hc _)]
      exact totalPricePerLane_at_drift.2.1
  | false =>
    have hc : ∀ d, (decide (getDay (lanesFor 3 d).bookingDate = some 5) ||
        decide (getDay (lanesFor 3 d).bookingDate = some 6)) =
        (decide ((fun _ => some 3 : String → Option Nat) (lanesFor 3 d).bookingDate = some 5) ||
          decide ((fun _ => some 3 : String → Option Nat) (lanesFor 3 d).bookingDate = some 6)) := by
      intro d
      exact h
    refine ⟨70226142811742, 5266960710880651, 1755653570293550, rfl, rfl, ?_, ?_, by decide⟩
    · rw [calculateTotal_congr getDay (fun _ => some 3) _ (hc _)]
      exact totalPricePerLane_at_drift.2.2.1
    · rw [totalPricePerLane_congr getDay (fun _ => some 3) _ (hc _)]
      exact totalPricePerLane_at_drift.2.2.2

set_option maxRecDepth 100000 in
/-- On the durations and the lane counts that the form offers (lines 318-327),
at either price, the split is exact: the per-lane prices sum to the estimated
total. -/
theorem totalPricePerLane_exact_on_offered :
    ∀ duration ∈ [15, 30, 45, 60, 90, 120], ∀ n ∈ [1, 2, 3, 4, 5, 6, 7, 8],
      splitsExactly (fun _ => some 6) (lanesFor n duration) = true ∧
      splitsExactly (fun _ => some 3) (lanesFor n duration) = true := by
  decide

end Bowling
